import Mathlib

/-!
# Cuttlefish launcher: a shallow embedding of `host/commands/launch/main.cc`

The launcher is a sequential program whose interesting behaviour is the order
of its calls into the outside world (the VM backend, helper processes, pipes
and sockets).  Each function of the source is embedded as a Lean function from
the answers of the outside world to the list of calls it performs and the way
it ends.  Machine integers are `Int` / `Nat` with explicit wrap-around.
-/

namespace Cuttlefish

/-! ## Machine integers -/

/-- Conversion of a mathematical integer to `uint32_t` (reduction modulo 2^32). -/
def toUint32 (i : Int) : Nat := (i % 4294967296).toNat

/-- Result of an `int32_t` operation whose mathematical value is `i`, taken with
two's complement wrap-around.  Where the value is in range this is `i` itself;
out of range the C++ operation is undefined and the model takes the wrapped
value. -/
def toInt32 (i : Int) : Int := (i + 2147483648) % 4294967296 - 2147483648

/-! ## `common/libs/utils/size_utils.h` -/

/-- Modelled from the spec: `cvd::AlignToPowerOf2` of
`common/libs/utils/size_utils.h`, which is not among the sources.  The spec
uses it as "power-of-2-align(v, 4)", the source comments it `// align to 16`:
it rounds `val` up to a multiple of `2 ^ align_log`; the result is a
`uint32_t`. -/
def AlignToPowerOf2 (val : Nat) (align_log : Nat) : Nat :=
  let align := 2 ^ align_log
  ((val + (align - 1)) / align * align) % 4294967296

/-- Modelled from the spec: the page size behind `cvd::AlignToPageSize`
(`sysconf(_SC_PAGESIZE)` on the host); the spec and the guard-page constant
of `LaunchIvServer` take it to be 4096. -/
def kPageSize : Nat := 4096

/-- Modelled from the spec: `cvd::AlignToPageSize` of
`common/libs/utils/size_utils.h`, which is not among the sources: "page-align",
rounds `val` up to a multiple of the page size; the result is a `uint32_t`. -/
def AlignToPageSize (val : Nat) : Nat :=
  ((val + (kPageSize - 1)) / kPageSize * kPageSize) % 4294967296

/-- The `actual_width` local of `LaunchIvServer` (main.cc:360):
`cvd::AlignToPowerOf2(FLAGS_x_res * 4, 4)`.  The product is an `int32_t`
product, converted to `uint32_t` at the call. -/
def actual_width (x_res : Int) : Nat :=
  AlignToPowerOf2 (toUint32 (toInt32 (x_res * 4))) 4

/-- The per-buffer size of `LaunchIvServer` (main.cc:363):
`cvd::AlignToPageSize(actual_width * FLAGS_y_res + 16)`, in `uint32_t`
arithmetic (`FLAGS_y_res` is converted to unsigned by the product). -/
def per_buffer_size (x_res y_res : Int) : Nat :=
  AlignToPageSize ((actual_width x_res * toUint32 y_res + 16) % 4294967296)

/-- The `screen_buffers_size` local of `LaunchIvServer` (main.cc:361-365), as it
is when `CreateSharedMemoryFile` is called:
```
uint32_t screen_buffers_size =
    FLAGS_num_screen_buffers *
    cvd::AlignToPageSize(actual_width * FLAGS_y_res + 16 /* padding */);
screen_buffers_size += (FLAGS_num_screen_buffers - 1) * 4096; /* Guard pages */
```
The guard-page term is computed in `int32_t` and converted by the `+=`. -/
def screen_buffers_size (x_res y_res num_screen_buffers : Int) : Nat :=
  let initial :=
    (toUint32 num_screen_buffers * per_buffer_size x_res y_res) % 4294967296
  (initial + toUint32 (toInt32 (toInt32 (num_screen_buffers - 1) * 4096)))
    % 4294967296

/-- Rounding up to a multiple, on unbounded naturals: the least multiple of `m`
that is at least `v` (for `m > 0`).  This is the arithmetic the spec's sizing
formula is written in. -/
def roundUp (v m : Nat) : Nat := (v + (m - 1)) / m * m

/-- The spec's total region size (§4.2), on unbounded naturals:
(aligned per-buffer size × buffer count) + guard-page bytes × (buffer count − 1),
with aligned per-buffer size = page-align(line-stride × y + 16) and
line-stride = power-of-2-align(4 x, 4). -/
def specRegionSize (x y n : Nat) : Nat :=
  n * roundUp (roundUp (4 * x) 16 * y + 16) 4096 + (n - 1) * 4096

/-! ## `host/commands/launch/launcher_defs.h`, `kernel_log_server.h` -/

/-- Modelled from the spec: `cvd::LauncherExitCodes` of
`host/commands/launch/launcher_defs.h`, which is not among the sources.  The
members are the ones `main.cc` names; §6 of the spec lists the same sixteen
stage-specific codes and calls them distinct. -/
inductive LauncherExitCodes
  | kSuccess
  | kArgumentParsingError
  | kInvalidHostConfiguration
  | kCuttlefishConfigurationInitError
  | kInstanceDirCreationError
  | kPrioFilesCleanupError
  | kBootImageUnpackError
  | kCuttlefishConfigurationSaveError
  | kDaemonizationError
  | kVMCreationError
  | kPipeIOError
  | kVirtualDeviceBootFailed
  | kProcessGroupError
  | kMonitorCreationFailed
  | kServerError
  | kUsbV1SocketError
  deriving DecidableEq

/-- Modelled from the spec: `cvd::LauncherAction` of `launcher_defs.h`, which is
not among the sources: "Action currently has one recognized member, Stop"; any
other code read from the control socket is `unrecognized`. -/
inductive LauncherAction
  | kStop
  | unrecognized (code : Nat)
  deriving DecidableEq

/-- Modelled from the spec: `cvd::LauncherResponse` of `launcher_defs.h`, which is
not among the sources: "Response is {Success, Error}". -/
inductive LauncherResponse
  | kSuccess
  | kError
  deriving DecidableEq

/-- Modelled from the spec: `monitor::BootEvent` of
`host/commands/kernel_log_monitor/kernel_log_server.h`, which is not among the
sources: "one of {BootCompleted, BootFailed, (other, ignored)}". -/
inductive BootEvent
  | BootCompleted
  | BootFailed
  | other (code : Int)
  deriving DecidableEq

/-! ## Calls into the outside world -/

/-- The contract methods of `vm_manager::VmManager`. -/
inductive VmCall
  | ValidateHostConfiguration
  | EnsureInstanceDirExists
  | CleanPriorFiles
  | Start
  | Stop
  deriving DecidableEq

/-- One call of the launcher into the outside world, with the answer it got.
Logging and console output are not recorded. -/
inductive Event
  /-- Call of `cvd::execute(argv)`: runs a command in a subprocess and waits for it. -/
  | execute (argv : List String)
  /-- Call of `cvd::subprocess(argv)`: spawns a helper; `ok` is whether a pid came back. -/
  | subprocess (argv : List String) (ok : Bool)
  /-- A method of the VM backend and what it returned. -/
  | vm (call : VmCall) (result : Bool)
  | ExtractRamdiskImage (path : String) (ok : Bool)
  | ExtractKernelImage (path : String) (ok : Bool)
  /-- Call of `cvd::SharedFD::Open(path, ...)`; a negative `fd` is a closed SharedFD. -/
  | Open (path : String) (fd : Int)
  /-- A `Write` on the file behind descriptor `fd`. -/
  | Write (fd : Int)
  | SaveToFile (path : String) (ok : Bool)
  | symlink (target link : String) (ret : Int)
  /-- Call of `cvd::SharedFD::SocketLocalServer(path, ...)`; a negative `fd` is a
  closed SharedFD. -/
  | SocketLocalServer (path : String) (fd : Int)
  | Pipe (ok : Bool) (read_fd write_fd : Int)
  /-- Call of `UNMANAGED_Dup` on descriptor `fd`, returning `result`. -/
  | dup (fd result : Int)
  /-- Call of `UNMANAGED_Dup2(target)` on descriptor `fd`, returning `result`. -/
  | dup2 (fd target result : Int)
  /-- The descriptor `fd` is closed, by `close(fd)`, by `Close()` or by the end of
  the last SharedFD that holds it. -/
  | close (fd : Int)
  | CreateSharedMemoryFile (path : String) (regions : List (String × Nat))
  | PreLaunchInitialize
  | fork (pid : Int)
  | daemon (ret : Int)
  | getsid_is_getpid (same : Bool)
  | getpgid
  | setpgid (ret : Int)
  | killpg (ret : Int)
  /-- The `waitpid` on the disposable child returned. -/
  | waitpid
  /-- Call of `cvd::SharedFD::Accept`; a negative `fd` is a closed SharedFD. -/
  | Accept (fd : Int)
  /-- A `Read` of one action from the client, returning `bytes_read`. -/
  | ReadAction (bytes_read : Int) (action : LauncherAction)
  /-- A response written on the client connection. -/
  | WriteResponse (response : LauncherResponse)
  /-- A `Read` of one boot event from the pipe, returning `bytes_read`. -/
  | ReadBootEvent (bytes_read : Int) (evt : BootEvent)
  deriving DecidableEq

/-- How the run of a process ends, as far as it is determined by the answers
given to it. -/
inductive Outcome
  /-- The function `main` returned `code`. -/
  | returned (code : LauncherExitCodes)
  /-- The process called `std::exit(code)`. -/
  | exited (code : LauncherExitCodes)
  /-- The process waits in a blocking `Read` or `Accept` for input beyond the
  answers given. -/
  | blocked
  /-- The process was killed by `SIGKILL`. -/
  | killed
  /-- A `LOG(FATAL)` aborted the process. -/
  | aborted
  deriving DecidableEq

/-- A run of a process: the calls it made, in order, and how it ended. -/
structure Run where
  trace : List Event
  outcome : Outcome
  deriving DecidableEq

/-- The run that performs `events` and then goes on as `k`. -/
def Run.after (events : List Event) (k : Run) : Run :=
  ⟨events ++ k.trace, k.outcome⟩

/-- How the call of a function ends: it returns a value, or the process ends
inside it. -/
inductive Step (α : Type)
  | ret (value : α)
  | halt (outcome : Outcome)

/-- The execution of one function call: the calls it made and how it ended. -/
structure Exec (α : Type) where
  trace : List Event
  result : Step α

/-- Sequencing: the run of `m` followed, when `m` returns, by the run `k`. -/
def Exec.andThen {α : Type} (m : Exec α) (k : α → Run) : Run :=
  match m.result with
  | .ret a => Run.after m.trace (k a)
  | .halt o => ⟨m.trace, o⟩

/-! ## The boot monitor of `DaemonizeLauncher` -/

/-- One `read_end->Read(&evt, sizeof(evt))` of the monitoring parent: the byte
count it returns and the content of `evt` after it. -/
structure PipeRead where
  bytes_read : Int
  evt : BootEvent
  deriving DecidableEq

/-- The `while(true)` loop of the monitoring parent (main.cc:742-758), run on the
successive answers of `Read`.  `sizeof_evt` is `sizeof(monitor::BootEvent)`,
whose declaration is not among the sources.  When the answers are used up the
parent is blocked in the next `Read`. -/
def monitorLoop (sizeof_evt : Int) : List PipeRead → Run
  | [] => ⟨[], .blocked⟩
  | r :: rest =>
    Run.after [.ReadBootEvent r.bytes_read r.evt] <|
      if r.bytes_read ≠ sizeof_evt then
        ⟨[], .exited .kPipeIOError⟩
      else if r.evt = .BootCompleted then
        ⟨[], .exited .kSuccess⟩
      else if r.evt = .BootFailed then
        ⟨[], .exited .kVirtualDeviceBootFailed⟩
      else
        -- Do nothing for the other signals
        monitorLoop sizeof_evt rest

/-! ## The control-plane server: `StopCvd` and `ServerLoop` -/

/-- What the operating system and the backend answer to one call of `StopCvd`,
as seen by the process that runs it. -/
structure StopSys where
  /-- Result of `vm_manager->Stop()`. -/
  vm_stop : Bool
  /-- Return value of `fork()`: positive in the launcher, zero in the forked
  child, negative when the fork failed. -/
  child_pid : Int
  /-- In the launcher: whether `waitpid` returns; it does not when the launcher is
  killed by the child's signal while it waits. -/
  waitpid_returns : Bool
  /-- In the child: return value of `setpgid(0, 0)`. -/
  setpgid_ret : Int
  /-- In the child: return value of `killpg(pgid, SIGKILL)`. -/
  killpg_ret : Int
  deriving DecidableEq

/-- The function `StopCvd` (main.cc:799-828), in the process that sees the
answers `sys`.  A child that could not leave the launcher's process group and
whose `killpg` succeeds is killed by its own signal ("the launcher's child is
about to kill itself"). -/
def StopCvd (sys : StopSys) : Exec Bool :=
  let pre : List Event := [.vm .Stop sys.vm_stop, .getpgid, .fork sys.child_pid]
  if sys.child_pid > 0 then
    -- The parent just waits for the child to kill it.
    if sys.waitpid_returns then
      ⟨pre ++ [.waitpid], .ret false⟩
    else
      ⟨pre, .halt .killed⟩
  else if sys.child_pid = 0 then
    let events := pre ++ [.setpgid sys.setpgid_ret, .killpg sys.killpg_ret]
    if sys.setpgid_ret ≠ 0 ∧ sys.killpg_ret = 0 then
      ⟨events, .halt .killed⟩
    else
      ⟨events, .ret true⟩
  else
    -- The fork failed: LOG(FATAL)
    ⟨pre, .halt .aborted⟩

/-- One `client->Read(&action, sizeof(action))` of `ServerLoop`: the byte count it
returns, the content of `action` after it, and the answers `StopCvd` gets if
the action leads to it. -/
structure ClientRead where
  bytes_read : Int
  action : LauncherAction
  sys : StopSys
  deriving DecidableEq

/-- The inner `while` loop of `ServerLoop` (main.cc:836-854) on an open client,
run on the successive answers of `Read`.  It returns when a `Read` returns no
bytes; when the answers are used up the process is blocked in the next `Read`.
In the process where `StopCvd` returns true the response is `kSuccess` and the
process ends with `std::exit(0)`, the success code. -/
def serveClient : List ClientRead → Exec Unit
  | [] => ⟨[], .halt .blocked⟩
  | r :: rest =>
    if r.bytes_read > 0 then
      match r.action with
      | .kStop =>
        let stop := StopCvd r.sys
        match stop.result with
        | .ret true =>
          ⟨.ReadAction r.bytes_read r.action :: stop.trace ++ [.WriteResponse .kSuccess],
            .halt (.exited .kSuccess)⟩
        | .ret false =>
          let next := serveClient rest
          ⟨.ReadAction r.bytes_read r.action :: stop.trace ++ [.WriteResponse .kError]
            ++ next.trace, next.result⟩
        | .halt o =>
          ⟨.ReadAction r.bytes_read r.action :: stop.trace, .halt o⟩
      | _ =>
        let next := serveClient rest
        ⟨.ReadAction r.bytes_read r.action :: .WriteResponse .kError :: next.trace,
          next.result⟩
    else
      ⟨[.ReadAction r.bytes_read r.action], .ret ()⟩

/-- One connection to the control socket: the descriptor `Accept` returns for it
(negative when the accepted SharedFD is not open) and the answers of the
`Read`s on it. -/
structure Connection where
  fd : Int
  reads : List ClientRead
  deriving DecidableEq

/-- The function `ServerLoop` (main.cc:830-856), run on the successive
connections.  It never returns; when the connections are used up the process is
blocked in `Accept`.  The client SharedFD ends with each iteration of the outer
loop, which closes the connection. -/
def ServerLoop : List Connection → Run
  | [] => ⟨[], .blocked⟩
  | c :: rest =>
    if 0 ≤ c.fd then
      let client := serveClient c.reads
      match client.result with
      | .ret _ => Run.after (.Accept c.fd :: client.trace ++ [.close c.fd]) (ServerLoop rest)
      | .halt o => ⟨.Accept c.fd :: client.trace, o⟩
    else
      Run.after [.Accept c.fd] (ServerLoop rest)

/-- The response an event writes on the client connection, if it is one. -/
def Event.response? : Event → Option LauncherResponse
  | .WriteResponse r => some r
  | _ => none

/-- The responses written on the client connection in a trace, in order. -/
def responses (trace : List Event) : List LauncherResponse :=
  trace.filterMap Event.response?

/-- The calls of `serveClient` for an action that is not `kStop`: the read and one
`kError` response (main.cc:848-852). -/
def unrecognizedCalls (r : ClientRead) : List Event :=
  [.ReadAction r.bytes_read r.action, .WriteResponse .kError]

/-! ## Flags, configuration and the answers of the outside world -/

/-- The gflags of `main.cc` that the modelled code reads (main.cc:63-185). -/
structure Flags where
  system_image : String
  cache_image : String
  data_image : String
  data_policy : String
  blank_data_image_mb : Int
  blank_data_image_fmt : String
  x_res : Int
  y_res : Int
  num_screen_buffers : Int
  kernel_path : String
  boot_image : String
  vm_manager : String
  system_image_dir : String
  vendor_image : String
  start_vnc_server : Bool
  vnc_server_binary : String
  virtual_usb_manager_binary : String
  kernel_log_monitor_binary : String
  ivserver_binary : String
  vnc_server_port : Int
  socket_forward_proxy_binary : String
  adb_mode : String
  run_adb_connector : Bool
  adb_connector_binary : String
  daemon : Bool

/-- The fields of `vsoc::CuttlefishConfig` that the modelled code reads back. -/
structure CuttlefishConfig where
  ramdisk_image_path : String
  kernel_image_path : String
  mempath : String
  ivshmem_qemu_socket_path : String
  ivshmem_client_socket_path : String
  usb_v1_socket_name : String
  kernel_log_socket_name : String
  launcher_log_path : String
  launcher_monitor_socket_path : String
  cuttlefish_env_path : String
  config_file : String

/-- The answers of the outside world to the calls of one run of `main`, one
field for each call site.  Descriptors are the numbers the operating system
hands out; a negative number is a failed call. -/
structure Env where
  flags : Flags
  /-- Name of `vm_manager::LibvirtManager::name()`. -/
  libvirt_name : String
  /-- Name of `vm_manager::QemuManager::name()`. -/
  qemu_name : String
  /-- Answer of `cvd::FileHasContent` on the data image, before the data policy is
  applied (main.cc:214). -/
  data_exists : Bool
  /-- Answer of `cvd::FileHasContent` in the final check of `ResolveInstanceFiles`
  (main.cc:444). -/
  FileHasContent : String → Bool
  /-- Whether `vsoc::CuttlefishConfig::Get()` gives a config object. -/
  config_instantiated : Bool
  /-- Answer of `vm_manager::VmManager::IsValidName`. -/
  is_valid_name : Bool
  /-- The function `CuttlefishConfig::PerInstancePath`. -/
  PerInstancePath : String → String
  /-- Value of `FLAGS_mempath`. -/
  mempath : String
  /-- Value of `cvd::StringFromEnv("HOME", ".")`. -/
  home : String
  /-- Value of `vsoc::GetPerInstanceDefault(kFirstHostPort)`. -/
  host_port : Int
  /-- Value of `vsoc::GetGlobalConfigFileLink()`. -/
  config_link : String
  /-- Name of the screen region, `ScreenLayout::region_name`. -/
  region_name : String
  has_ramdisk_image : Bool
  extract_ramdisk_ok : Bool
  has_kernel_image : Bool
  extract_kernel_ok : Bool
  validate_host_configuration : Bool
  ensure_instance_dir_exists : Bool
  clean_prior_files : Bool
  start : Bool
  env_fd : Int
  save_to_file : Bool
  symlink_ret : Int
  launcher_monitor_fd : Int
  pipe_ok : Bool
  pipe_read_fd : Int
  pipe_write_fd : Int
  /-- Return value of the `fork()` of `DaemonizeLauncher`. -/
  daemon_fork_pid : Int
  /-- Size of `monitor::BootEvent` in bytes. -/
  sizeof_evt : Int
  /-- Answers of the `Read`s of the monitoring parent. -/
  boot_reads : List PipeRead
  daemon_ret : Int
  log_fd : Int
  dev_null_fd : Int
  dup2_stdin : Int
  dup2_stdout : Int
  dup2_stderr : Int
  getsid_is_getpid : Bool
  setpgid_ret : Int
  kernel_log_server_fd : Int
  kernel_log_dup : Int
  subscriber_dup : Int
  usb_v1_server_fd : Int
  usb_v1_dup : Int
  qemu_server_fd : Int
  qemu_dup : Int
  client_server_fd : Int
  client_dup : Int
  /-- Whether `cvd::subprocess` on a command line gives a pid. -/
  subprocess_ok : List String → Bool
  /-- The connections the control socket receives. -/
  connections : List Connection

/-- Modelled from the spec: a `cvd::SharedFD` of `common/libs/fs/shared_fd.h`,
which is not among the sources, as the descriptor it holds; it is open when the
descriptor is not negative, and the descriptor is closed when the last
SharedFD holding it ends ("close-in-parent"). -/
structure SharedFD where
  fd : Int
  deriving DecidableEq

/-- The method `SharedFD::IsOpen`. -/
def SharedFD.IsOpen (s : SharedFD) : Bool := decide (0 ≤ s.fd)

/-- The calls made when the last SharedFD holding a descriptor ends. -/
def SharedFD.release (s : SharedFD) : List Event :=
  if s.IsOpen then [.close s.fd] else []

/-! ## Data image policy (main.cc:190-257) -/

def kDataPolicyUseExisting : String := "use_existing"
def kDataPolicyCreateIfMissing : String := "create_if_missing"
def kDataPolicyAlwaysCreate : String := "always_create"

def kAdbModeTunnel : String := "tunnel"
def kAdbModeUsb : String := "usb"

/-- The function `CreateBlankImage` (main.cc:197-206). -/
def CreateBlankImage (image : String) (image_mb : Int) (image_fmt : String) : List Event :=
  [ .execute ["/bin/dd", "if=/dev/zero", "of=" ++ image, "bs=1M", "count=" ++ toString image_mb],
    .execute ["/sbin/mkfs", "-t", image_fmt, image] ]

/-- The function `RemoveFile` (main.cc:208-211). -/
def RemoveFile (file : String) : List Event :=
  [.execute ["/bin/rm", "-f", file]]

/-- The function `ApplyDataImagePolicy` (main.cc:213-257): the commands it runs
and its result.  `data_exists` is the answer of `cvd::FileHasContent`. -/
def ApplyDataImagePolicy (flags : Flags) (data_exists : Bool) (data_image : String) :
    List Event × Bool :=
  -- (remove, create), or none where the function returns false at once
  let decision : Option (Bool × Bool) :=
    if flags.data_policy = kDataPolicyUseExisting then
      if !data_exists then none
      else if flags.blank_data_image_mb > 0 then none
      else some (false, false)
    else if flags.data_policy = kDataPolicyAlwaysCreate then
      some (data_exists, true)
    else if flags.data_policy = kDataPolicyCreateIfMissing then
      some (false, !data_exists)
    else none
  match decision with
  | none => ([], false)
  | some (remove, create) =>
    let removed := if remove then RemoveFile data_image else []
    if create then
      if flags.blank_data_image_mb ≤ 0 then (removed, false)
      else
        (removed ++ CreateBlankImage data_image flags.blank_data_image_mb
          flags.blank_data_image_fmt, true)
    else (removed, true)

/-! ## Command-line pieces and the adb mode (main.cc:259-310) -/

/-- The function `GetConfigFile` (main.cc:259-262). -/
def GetConfigFile (env : Env) : String :=
  env.PerInstancePath "cuttlefish_config.json"

/-- The function `GetConfigFileArg` (main.cc:264). -/
def GetConfigFileArg (env : Env) : String := "-config_file=" ++ GetConfigFile env

/-- The function `GetGuestPortArg` (main.cc:266-269). -/
def GetGuestPortArg : String := "--guest_ports=" ++ toString (5555 : Int)

/-- The function `GetHostPort` (main.cc:271-274). -/
def GetHostPort (env : Env) : Int := env.host_port

/-- The function `GetHostPortArg` (main.cc:276-278). -/
def GetHostPortArg (env : Env) : String := "--host_ports=" ++ toString (GetHostPort env)

/-- The function `GetAdbConnectorPortArg` (main.cc:280-282). -/
def GetAdbConnectorPortArg (env : Env) : String := "--ports=" ++ toString (GetHostPort env)

/-- Splitting of a list of characters at each `delimiter`; `current` holds the
characters of the item being read, last first. -/
def splitChars (delimiter : Char) : List Char → List Char → List (List Char)
  | [], current => [current.reverse]
  | c :: cs, current =>
    if c = delimiter then current.reverse :: splitChars delimiter cs []
    else splitChars delimiter cs (c :: current)

/-- Modelled from the spec: `cvd::StrSplit` of `common/libs/strings/str_split.h`,
which is not among the sources: the items of a `delimiter`-separated list
("a comma separated list of types as in 'usb,tunnel'"). -/
def StrSplit (src : String) (delimiter : Char) : List String :=
  (splitChars delimiter src.data []).map String.mk

/-- The function `AdbModeEnabled` (main.cc:284-287). -/
def AdbModeEnabled (flags : Flags) (mode : String) : Bool :=
  decide (mode ∈ StrSplit flags.adb_mode ',')

/-- The function `AdbTunnelEnabled` (main.cc:289-291). -/
def AdbTunnelEnabled (flags : Flags) : Bool := AdbModeEnabled flags kAdbModeTunnel

/-- The function `AdbUsbEnabled` (main.cc:293-295). -/
def AdbUsbEnabled (flags : Flags) : Bool := AdbModeEnabled flags kAdbModeUsb

/-- The function `AdbConnectorEnabled` (main.cc:308-310). -/
def AdbConnectorEnabled (flags : Flags) : Bool :=
  flags.run_adb_connector && AdbTunnelEnabled flags

/-! ## Helper launches (main.cc:303-409) -/

/-- The function `CreateIvServerUnixSocket` (main.cc:303-306): the listening
socket is made, duplicated, and the temporary SharedFD ends.  `server_fd` and
`dup_ret` are the answers of `SocketLocalServer` and `UNMANAGED_Dup`. -/
def CreateIvServerUnixSocket (path : String) (server_fd dup_ret : Int) : List Event × Int :=
  ([.SocketLocalServer path server_fd, .dup server_fd dup_ret]
    ++ (SharedFD.mk server_fd).release, dup_ret)

/-- The function `LaunchUsbServerIfEnabled` (main.cc:312-336). -/
def LaunchUsbServerIfEnabled (env : Env) (config : CuttlefishConfig) : Exec Unit :=
  if !AdbUsbEnabled env.flags then
    ⟨[], .ret ()⟩
  else
    let socket_name := config.usb_v1_socket_name
    let usb_v1_server : SharedFD := ⟨env.usb_v1_server_fd⟩
    if !usb_v1_server.IsOpen then
      ⟨[.SocketLocalServer socket_name usb_v1_server.fd], .halt (.exited .kUsbV1SocketError)⟩
    else
      let server_fd := env.usb_v1_dup
      if server_fd < 0 then
        ⟨[.SocketLocalServer socket_name usb_v1_server.fd, .dup usb_v1_server.fd server_fd],
          .halt (.exited .kUsbV1SocketError)⟩
      else
        let argv := [env.flags.virtual_usb_manager_binary,
                     "-usb_v1_fd=" ++ toString server_fd,
                     GetConfigFileArg env]
        ⟨[.SocketLocalServer socket_name usb_v1_server.fd, .dup usb_v1_server.fd server_fd,
          .subprocess argv (env.subprocess_ok argv),
          .close server_fd] ++ usb_v1_server.release, .ret ()⟩

/-- The function `LaunchKernelLogMonitor` (main.cc:338-356).  The parameter
`boot_events_pipe` is a copy of the caller's SharedFD, so its end closes
nothing. -/
def LaunchKernelLogMonitor (env : Env) (config : CuttlefishConfig)
    (boot_events_pipe : SharedFD) : List Event :=
  let log_name := config.kernel_log_socket_name
  let server : SharedFD := ⟨env.kernel_log_server_fd⟩
  let server_fd := env.kernel_log_dup
  let subscriber_fd : Int := if boot_events_pipe.IsOpen then env.subscriber_dup else -1
  let argv := [env.flags.kernel_log_monitor_binary,
               "-log_server_fd=" ++ toString server_fd,
               "-subscriber_fd=" ++ toString subscriber_fd,
               GetConfigFileArg env]
  [.SocketLocalServer log_name server.fd, .dup server.fd server_fd]
    ++ (if boot_events_pipe.IsOpen then [.dup boot_events_pipe.fd subscriber_fd] else [])
    ++ [.subprocess argv (env.subprocess_ok argv), .close server_fd]
    ++ (if subscriber_fd ≥ 0 then [.close subscriber_fd] else [])
    ++ server.release

/-- The function `LaunchIvServer` (main.cc:358-384). -/
def LaunchIvServer (env : Env) (config : CuttlefishConfig) : List Event :=
  -- Resize gralloc region
  let size :=
    screen_buffers_size env.flags.x_res env.flags.y_res env.flags.num_screen_buffers
  let qemu := CreateIvServerUnixSocket config.ivshmem_qemu_socket_path
    env.qemu_server_fd env.qemu_dup
  let client := CreateIvServerUnixSocket config.ivshmem_client_socket_path
    env.client_server_fd env.client_dup
  let qemu_channel := qemu.2
  let client_channel := client.2
  let qemu_socket_arg := "-qemu_socket_fd=" ++ toString qemu_channel
  let client_socket_arg := "-client_socket_fd=" ++ toString client_channel
  let argv := [env.flags.ivserver_binary, qemu_socket_arg, client_socket_arg,
               GetConfigFileArg env]
  [.CreateSharedMemoryFile config.mempath [(env.region_name, size)]]
    ++ qemu.1 ++ client.1
    ++ [.subprocess argv (env.subprocess_ok argv), .close qemu_channel, .close client_channel]

/-- The function `LaunchAdbConnectorIfEnabled` (main.cc:386-391). -/
def LaunchAdbConnectorIfEnabled (env : Env) : List Event :=
  if AdbConnectorEnabled env.flags then
    let argv := [env.flags.adb_connector_binary, GetAdbConnectorPortArg env]
    [.subprocess argv (env.subprocess_ok argv)]
  else []

/-- The function `LaunchSocketForwardProxyIfEnabled` (main.cc:393-400). -/
def LaunchSocketForwardProxyIfEnabled (env : Env) : List Event :=
  if AdbTunnelEnabled env.flags then
    let argv := [env.flags.socket_forward_proxy_binary, GetGuestPortArg, GetHostPortArg env,
                 GetConfigFileArg env]
    [.subprocess argv (env.subprocess_ok argv)]
  else []

/-- The function `LaunchVNCServerIfEnabled` (main.cc:402-409). -/
def LaunchVNCServerIfEnabled (env : Env) : List Event :=
  if env.flags.start_vnc_server then
    -- Launch the vnc server, don't wait for it to complete
    let port_options := "-port=" ++ toString env.flags.vnc_server_port
    let argv := [env.flags.vnc_server_binary, port_options, GetConfigFileArg env]
    [.subprocess argv (env.subprocess_ok argv)]
  else []

/-! ## Flag resolution, configuration and boot image (main.cc:411-726) -/

/-- The flags after `ResolveInstanceFiles` has filled in the image paths left
empty (main.cc:419-433). -/
def resolvedFlags (flags : Flags) : Flags :=
  { flags with
    system_image :=
      if flags.system_image.isEmpty then flags.system_image_dir ++ "/system.img"
      else flags.system_image
    boot_image :=
      if flags.boot_image.isEmpty then flags.system_image_dir ++ "/boot.img"
      else flags.boot_image
    cache_image :=
      if flags.cache_image.isEmpty then flags.system_image_dir ++ "/cache.img"
      else flags.cache_image
    data_image :=
      if flags.data_image.isEmpty then flags.system_image_dir ++ "/userdata.img"
      else flags.data_image
    vendor_image :=
      if flags.vendor_image.isEmpty then flags.system_image_dir ++ "/vendor.img"
      else flags.vendor_image }

/-- The function `ResolveInstanceFiles` (main.cc:411-450): the commands it runs,
its result, and the flags as it leaves them. -/
def ResolveInstanceFiles (env : Env) : List Event × Bool × Flags :=
  if env.flags.system_image_dir.isEmpty then
    ([], false, env.flags)
  else
    let flags := resolvedFlags env.flags
    -- Create data if necessary
    let policy := ApplyDataImagePolicy flags env.data_exists flags.data_image
    if !policy.2 then
      (policy.1, false, flags)
    else
      -- Check that the files exist
      let files := [flags.system_image, flags.vendor_image, flags.cache_image,
                    flags.data_image, flags.boot_image]
      (policy.1, files.all env.FileHasContent, flags)

/-- The function `ParseCommandLineFlags` (main.cc:679-706), after gflags has
parsed the command line into `env.flags`: the commands it runs, its result, and
the flags as it leaves them.  The per-backend defaults it sets are for flags the
model does not read. -/
def ParseCommandLineFlags (env : Env) : List Event × Bool × Flags :=
  let invalid_manager :=
    !(env.flags.vm_manager == env.libvirt_name) && !(env.flags.vm_manager == env.qemu_name)
  if invalid_manager then
    ([], false, env.flags)
  else
    ResolveInstanceFiles env

/-- The function `InitializeCuttlefishConfiguration` (main.cc:483-628): the
config object with the fields the model reads, or none for `nullptr`. -/
def InitializeCuttlefishConfiguration (env : Env) (flags : Flags) : Option CuttlefishConfig :=
  if !env.config_instantiated then none
  else if !env.is_valid_name then none
  else
    some
      { kernel_image_path :=
          if flags.kernel_path.length ≠ 0 then flags.kernel_path
          else env.PerInstancePath "kernel"
        ramdisk_image_path :=
          if !env.has_ramdisk_image then "" else env.PerInstancePath "ramdisk.img"
        mempath := env.mempath
        ivshmem_qemu_socket_path := env.PerInstancePath "ivshmem_socket_qemu"
        ivshmem_client_socket_path := env.PerInstancePath "ivshmem_socket_client"
        usb_v1_socket_name :=
          if AdbUsbEnabled flags then env.PerInstancePath "usb-v1" else ""
        kernel_log_socket_name := env.PerInstancePath "kernel-log"
        launcher_log_path := env.PerInstancePath "launcher.log"
        launcher_monitor_socket_path := env.PerInstancePath "launcher_monitor.sock"
        cuttlefish_env_path := env.home ++ "/.cuttlefish.sh"
        config_file := env.PerInstancePath "cuttlefish_config.json" }

/-- The function `UnpackBootImage` (main.cc:452-474). -/
def UnpackBootImage (env : Env) (flags : Flags) (config : CuttlefishConfig) :
    List Event × Bool :=
  let ramdisk : List Event :=
    if env.has_ramdisk_image then
      [.ExtractRamdiskImage config.ramdisk_image_path env.extract_ramdisk_ok]
    else []
  if env.has_ramdisk_image && !env.extract_ramdisk_ok then
    (ramdisk, false)
  else if flags.kernel_path.length = 0 then
    if env.has_kernel_image then
      if !env.extract_kernel_ok then
        (ramdisk ++ [.ExtractKernelImage config.kernel_image_path false], false)
      else
        (ramdisk ++ [.ExtractKernelImage config.kernel_image_path true], true)
    else
      (ramdisk, false)
  else
    (ramdisk, true)

/-- The function `WriteCuttlefishEnvironment` (main.cc:708-726); the SharedFD of
the environment file ends with the function. -/
def WriteCuttlefishEnvironment (env : Env) (config : CuttlefishConfig) : List Event × Bool :=
  let file : SharedFD := ⟨env.env_fd⟩
  if !file.IsOpen then
    ([.Open config.cuttlefish_env_path file.fd], false)
  else
    ([.Open config.cuttlefish_env_path file.fd, .Write file.fd] ++ file.release, true)

/-! ## Daemon mode (main.cc:728-795) -/

/-- The function `DaemonizeLauncher` (main.cc:730-795).  It returns only in the
forked child, or with a closed SharedFD when no pipe could be made; in the
process where `fork()` does not return zero it runs the boot monitor and ends
there. -/
def DaemonizeLauncher (env : Env) (config : CuttlefishConfig) : Exec SharedFD :=
  if !env.pipe_ok then
    ⟨[.Pipe false env.pipe_read_fd env.pipe_write_fd], .ret ⟨-1⟩⟩
  else
    let read_end : SharedFD := ⟨env.pipe_read_fd⟩
    let write_end : SharedFD := ⟨env.pipe_write_fd⟩
    let pid := env.daemon_fork_pid
    let start : List Event := [.Pipe true read_end.fd write_end.fd, .fork pid]
    if pid ≠ 0 then
      -- Explicitly close here, otherwise we may end up reading forever if the
      -- child process dies.
      let monitor := monitorLoop env.sizeof_evt env.boot_reads
      ⟨start ++ [.close write_end.fd] ++ monitor.trace, .halt monitor.outcome⟩
    else
      -- The child returns the write end of the pipe
      if env.daemon_ret ≠ 0 then
        ⟨start ++ [.daemon env.daemon_ret], .halt (.exited .kDaemonizationError)⟩
      else
        -- Redirect standard I/O
        let log : SharedFD := ⟨env.log_fd⟩
        let dev_null : SharedFD := ⟨env.dev_null_fd⟩
        let opened_log := start ++ [.daemon env.daemon_ret, .Open config.launcher_log_path log.fd]
        if !log.IsOpen then
          ⟨opened_log, .halt (.exited .kDaemonizationError)⟩
        else if !dev_null.IsOpen then
          ⟨opened_log ++ [.Open "/dev/null" dev_null.fd], .halt (.exited .kDaemonizationError)⟩
        else if env.dup2_stdin < 0 then
          ⟨opened_log ++ [.Open "/dev/null" dev_null.fd, .dup2 dev_null.fd 0 env.dup2_stdin],
            .halt (.exited .kDaemonizationError)⟩
        else if env.dup2_stdout < 0 then
          ⟨opened_log ++ [.Open "/dev/null" dev_null.fd, .dup2 dev_null.fd 0 env.dup2_stdin,
              .dup2 log.fd 1 env.dup2_stdout],
            .halt (.exited .kDaemonizationError)⟩
        else if env.dup2_stderr < 0 then
          ⟨opened_log ++ [.Open "/dev/null" dev_null.fd, .dup2 dev_null.fd 0 env.dup2_stdin,
              .dup2 log.fd 1 env.dup2_stdout, .dup2 log.fd 2 env.dup2_stderr],
            .halt (.exited .kDaemonizationError)⟩
        else
          ⟨opened_log ++ [.Open "/dev/null" dev_null.fd, .dup2 dev_null.fd 0 env.dup2_stdin,
              .dup2 log.fd 1 env.dup2_stdout, .dup2 log.fd 2 env.dup2_stderr,
              .close read_end.fd] ++ dev_null.release ++ log.release,
            .ret write_end⟩

/-! ## The launch sequence (main.cc:859-976) -/

/-- The part of `main` from the launches before the VM start to the server loop
(main.cc:955-975).  `ServerLoop` does not return, so the `return kServerError`
after it is never reached. -/
def launchAndServe (env : Env) (config : CuttlefishConfig) (boot_events_pipe : SharedFD) :
    Run :=
  Run.after (LaunchKernelLogMonitor env config boot_events_pipe) <|
  (LaunchUsbServerIfEnabled env config).andThen fun _ =>
  Run.after (LaunchIvServer env config) <|
  -- Initialize the regions that require so before the VM starts.
  Run.after [.PreLaunchInitialize] <|
  -- Start the guest VM
  Run.after [.vm .Start env.start] <|
  if !env.start then
    ⟨[], .returned .kVMCreationError⟩
  else
    Run.after (LaunchSocketForwardProxyIfEnabled env) <|
    Run.after (LaunchVNCServerIfEnabled env) <|
    Run.after (LaunchAdbConnectorIfEnabled env) <|
    ServerLoop env.connections

/-- The part of `main` from the launcher monitor socket on (main.cc:929-975). -/
def monitorAndLaunch (env : Env) (flags : Flags) (config : CuttlefishConfig) : Run :=
  let launcher_monitor_socket : SharedFD := ⟨env.launcher_monitor_fd⟩
  Run.after [.SocketLocalServer config.launcher_monitor_socket_path launcher_monitor_socket.fd] <|
  if !launcher_monitor_socket.IsOpen then
    ⟨[], .returned .kMonitorCreationFailed⟩
  else if flags.daemon then
    (DaemonizeLauncher env config).andThen fun boot_events_pipe =>
    if !boot_events_pipe.IsOpen then
      ⟨[], .returned .kDaemonizationError⟩
    else
      launchAndServe env config boot_events_pipe
  else
    -- Make sure the launcher runs in its own process group even when running in
    -- foreground
    Run.after [.getsid_is_getpid env.getsid_is_getpid] <|
    if !env.getsid_is_getpid then
      Run.after [.setpgid env.setpgid_ret] <|
      if env.setpgid_ret ≠ 0 then
        ⟨[], .exited .kProcessGroupError⟩
      else
        launchAndServe env config ⟨-1⟩
    else
      launchAndServe env config ⟨-1⟩

/-- The part of `main` after the config object exists (main.cc:872-975). -/
def validateAndLaunch (env : Env) (flags : Flags) (config : CuttlefishConfig) : Run :=
  -- Check host configuration
  Run.after [.vm .ValidateHostConfiguration env.validate_host_configuration] <|
  if !env.validate_host_configuration then
    ⟨[], .returned .kInvalidHostConfiguration⟩
  else
  Run.after [.vm .EnsureInstanceDirExists env.ensure_instance_dir_exists] <|
  if !env.ensure_instance_dir_exists then
    ⟨[], .returned .kInstanceDirCreationError⟩
  else
  Run.after [.vm .CleanPriorFiles env.clean_prior_files] <|
  if !env.clean_prior_files then
    ⟨[], .returned .kPrioFilesCleanupError⟩
  else
  let unpack := UnpackBootImage env flags config
  Run.after unpack.1 <|
  if !unpack.2 then
    ⟨[], .returned .kBootImageUnpackError⟩
  else
  -- A failure to write the environment file is only logged
  Run.after (WriteCuttlefishEnvironment env config).1 <|
  let config_file := GetConfigFile env
  let config_link := env.config_link
  -- Save the config object before starting any host process
  Run.after [.SaveToFile config_file env.save_to_file] <|
  if !env.save_to_file then
    ⟨[], .returned .kCuttlefishConfigurationSaveError⟩
  else
  Run.after [.symlink config_file config_link env.symlink_ret] <|
  if env.symlink_ret ≠ 0 then
    ⟨[], .returned .kCuttlefishConfigurationSaveError⟩
  else
    monitorAndLaunch env flags config

/-- The function `main` (main.cc:859-976): the run of the process on the answers
`env`. -/
def main (env : Env) : Run :=
  let parsed := ParseCommandLineFlags env
  Run.after parsed.1 <|
  if !parsed.2.1 then
    ⟨[], .returned .kArgumentParsingError⟩
  else
    let flags := parsed.2.2
    -- Do this early so that the config object is ready for anything that needs it
    match InitializeCuttlefishConfiguration env flags with
    | none => ⟨[], .returned .kCuttlefishConfigurationInitError⟩
    | some config => validateAndLaunch env flags config

/-! ## Reading traces -/

/-- Whether an event is a call of a contract method of the backend that belongs
to the launch, that is, any method but `Stop`. -/
def Event.isLaunchCall : Event → Bool
  | .vm .Stop _ => false
  | .vm _ _ => true
  | _ => false

/-- A trace without any launch-time call of the backend. -/
def quiet (trace : List Event) : Bool :=
  trace.all fun e => !e.isLaunchCall

/-- The exit code `main` pairs with the failure of each contract method
(main.cc:884, 889, 894, 966); `Stop` is not part of the launch. -/
def failureCode : VmCall → Option LauncherExitCodes
  | .ValidateHostConfiguration => some .kInvalidHostConfiguration
  | .EnsureInstanceDirExists => some .kInstanceDirCreationError
  | .CleanPriorFiles => some .kPrioFilesCleanupError
  | .Start => some .kVMCreationError
  | .Stop => none

/-- A run in which a failed launch-time call of the backend is the last call and
makes `main` return the code paired with it. -/
def FailStop (r : Run) : Prop :=
  ∀ pre post c code, r.trace = pre ++ .vm c false :: post → failureCode c = some code →
    post = [] ∧ r.outcome = .returned code

/-- A run in which every `Start` of the backend comes after successful calls of
`ValidateHostConfiguration`, `EnsureInstanceDirExists` and `CleanPriorFiles`. -/
def StartGuarded (r : Run) : Prop :=
  ∀ pre post b, r.trace = pre ++ .vm .Start b :: post →
    .vm .ValidateHostConfiguration true ∈ pre ∧ .vm .EnsureInstanceDirExists true ∈ pre
      ∧ .vm .CleanPriorFiles true ∈ pre

/-! ## A concrete configuration -/

/-- The flag defaults of main.cc:63-185, with the images under `/img` and the
host artifacts under `/host`. -/
def defaultFlags : Flags where
  system_image := ""
  cache_image := ""
  data_image := ""
  data_policy := "use_existing"
  blank_data_image_mb := 0
  blank_data_image_fmt := "ext4"
  x_res := 720
  y_res := 1280
  num_screen_buffers := 3
  kernel_path := ""
  boot_image := ""
  vm_manager := "qemu_cli"
  system_image_dir := "/img"
  vendor_image := ""
  start_vnc_server := true
  vnc_server_binary := "/host/bin/vnc_server"
  virtual_usb_manager_binary := "/host/bin/virtual_usb_manager"
  kernel_log_monitor_binary := "/host/bin/kernel_log_monitor"
  ivserver_binary := "/host/bin/ivserver"
  vnc_server_port := 6444
  socket_forward_proxy_binary := "/host/bin/socket_forward_proxy"
  adb_mode := "tunnel"
  run_adb_connector := true
  adb_connector_binary := "/host/bin/adb_connector"
  daemon := false

/-- A host on which every call succeeds, run in the foreground with the default
flags; no client connects to the control socket. -/
def defaultEnv : Env where
  flags := defaultFlags
  libvirt_name := "libvirt"
  qemu_name := "qemu_cli"
  data_exists := true
  FileHasContent := fun _ => true
  config_instantiated := true
  is_valid_name := true
  PerInstancePath := fun name => "/run/cvd/" ++ name
  mempath := "/dev/shm/cvd-1"
  home := "/home/user"
  host_port := 6520
  config_link := "/home/user/.cuttlefish_config.json"
  region_name := "screen"
  has_ramdisk_image := true
  extract_ramdisk_ok := true
  has_kernel_image := true
  extract_kernel_ok := true
  validate_host_configuration := true
  ensure_instance_dir_exists := true
  clean_prior_files := true
  start := true
  env_fd := 3
  save_to_file := true
  symlink_ret := 0
  launcher_monitor_fd := 3
  pipe_ok := true
  pipe_read_fd := 4
  pipe_write_fd := 5
  daemon_fork_pid := 0
  sizeof_evt := 4
  boot_reads := []
  daemon_ret := 0
  log_fd := 6
  dev_null_fd := 7
  dup2_stdin := 0
  dup2_stdout := 1
  dup2_stderr := 2
  getsid_is_getpid := false
  setpgid_ret := 0
  kernel_log_server_fd := 8
  kernel_log_dup := 9
  subscriber_dup := 10
  usb_v1_server_fd := 8
  usb_v1_dup := 9
  qemu_server_fd := 8
  qemu_dup := 9
  client_server_fd := 8
  client_dup := 10
  subprocess_ok := fun _ => true
  connections := []

/-! ## `host/libs/vm_manager/vm_manager.cpp` -/

/-- The function `VmManager::UserInGroup` (vm_manager.cpp:35-44): its result and
the list `config_commands` as it leaves it.  `InGroup` is `cvd::InGroup`, the
membership test of `common/libs/utils/users.h`. -/
def UserInGroup (InGroup : String → Bool) (group : String) (config_commands : List String) :
    Bool × List String :=
  if !InGroup group then
    (false, config_commands ++ ["# Add your user to the " ++ group ++ " group:"]
      ++ ["sudo usermod -aG " ++ group ++ " $USER"])
  else
    (true, config_commands)

/-! ## The bring-up sequence -/

/-- Whether an event is a step of the bring-up sequence: a helper spawn, the
creation of the shared memory file, or the start of the VM. -/
def Event.isBringUp : Event → Bool
  | .subprocess _ _ => true
  | .CreateSharedMemoryFile _ _ => true
  | .vm .Start _ => true
  | _ => false

/-- Whether an event belongs to the launches or to the control loop: a bring-up
step, or a call of the control loop on its socket. -/
def Event.isLate : Event → Bool
  | .Accept _ => true
  | .ReadAction _ _ => true
  | .WriteResponse _ => true
  | e => e.isBringUp

/-- A trace without any event that satisfies `p`. -/
def free (p : Event → Bool) (trace : List Event) : Bool :=
  trace.all fun e => !p e

/-- The bring-up steps of a trace, in order: the helper spawns, the creation of
the shared memory file and the start of the VM. -/
def bringUp (trace : List Event) : List Event :=
  trace.filter Event.isBringUp

/-- The steps of the bring-up sequence of the spec (§4.3), by role. -/
inductive Stage
  | kernelLogMonitor
  | usbHelper
  | sharedMemoryFile
  | sharedMemoryServer
  | vmStart
  | socketForwardProxy
  | vncServer
  | adbConnector
  deriving DecidableEq

/-- The fixed order of the bring-up steps. -/
def bringUpOrder : List Stage :=
  [.kernelLogMonitor, .usbHelper, .sharedMemoryFile, .sharedMemoryServer, .vmStart,
   .socketForwardProxy, .vncServer, .adbConnector]

/-- The configuration predicate of each bring-up step: the usb helper runs when
"usb" is an item of the comma-separated `adb_mode`, the socket-forward proxy
when "tunnel" is one, the vnc server when `start_vnc_server` is set, the adb
connector when `run_adb_connector` is set and "tunnel" is an item; the other
steps always run. -/
def Stage.enabled (flags : Flags) : Stage → Bool
  | .usbHelper => decide ("usb" ∈ StrSplit flags.adb_mode ',')
  | .socketForwardProxy => decide ("tunnel" ∈ StrSplit flags.adb_mode ',')
  | .vncServer => flags.start_vnc_server
  | .adbConnector => flags.run_adb_connector && decide ("tunnel" ∈ StrSplit flags.adb_mode ',')
  | _ => true

/-- The spawn of a helper with the command line `argv`. -/
def spawn (env : Env) (argv : List String) : Event :=
  .subprocess argv (env.subprocess_ok argv)

/-- The call that performs a bring-up step: for a helper the spawn with its
command line, `subscriber_fd` being the descriptor handed to the kernel-log
monitor for the boot events. -/
def Stage.event (env : Env) (subscriber_fd : Int) : Stage → Event
  | .kernelLogMonitor =>
    spawn env [env.flags.kernel_log_monitor_binary,
               "-log_server_fd=" ++ toString env.kernel_log_dup,
               "-subscriber_fd=" ++ toString subscriber_fd,
               "-config_file=" ++ GetConfigFile env]
  | .usbHelper =>
    spawn env [env.flags.virtual_usb_manager_binary,
               "-usb_v1_fd=" ++ toString env.usb_v1_dup,
               "-config_file=" ++ GetConfigFile env]
  | .sharedMemoryFile =>
    .CreateSharedMemoryFile env.mempath
      [(env.region_name,
        screen_buffers_size env.flags.x_res env.flags.y_res env.flags.num_screen_buffers)]
  | .sharedMemoryServer =>
    spawn env [env.flags.ivserver_binary,
               "-qemu_socket_fd=" ++ toString env.qemu_dup,
               "-client_socket_fd=" ++ toString env.client_dup,
               "-config_file=" ++ GetConfigFile env]
  | .vmStart => .vm .Start true
  | .socketForwardProxy =>
    spawn env [env.flags.socket_forward_proxy_binary, "--guest_ports=5555",
               "--host_ports=" ++ toString env.host_port,
               "-config_file=" ++ GetConfigFile env]
  | .vncServer =>
    spawn env [env.flags.vnc_server_binary, "-port=" ++ toString env.flags.vnc_server_port,
               "-config_file=" ++ GetConfigFile env]
  | .adbConnector =>
    spawn env [env.flags.adb_connector_binary, "--ports=" ++ toString env.host_port]

/-- The descriptor for the boot events that the kernel-log monitor is given: the
duplicate of the pipe in daemon mode, -1 otherwise. -/
def subscriberFd (env : Env) : Int :=
  if env.flags.daemon then env.subscriber_dup else -1

/-- The SharedFD that `main` hands to `LaunchKernelLogMonitor`: the write end of
the pipe in daemon mode, a closed one otherwise. -/
def launchPipe (env : Env) : SharedFD :=
  if env.flags.daemon then ⟨env.pipe_write_fd⟩ else ⟨-1⟩

/-! ## The checks of the launch sequence -/

/-- The part of the checks of `main` made in `monitorAndLaunch` (main.cc:929-953):
how `main` ends on the first of them that fails, in the order of the source, or
none when all pass and the launches are reached.  In daemon mode the process in
which `fork()` does not return zero ends as the boot monitor does. -/
def monitorEnd (env : Env) (flags : Flags) : Option Outcome :=
  if env.launcher_monitor_fd < 0 then some (.returned .kMonitorCreationFailed)
  else if flags.daemon then
    if !env.pipe_ok then some (.returned .kDaemonizationError)
    else if env.daemon_fork_pid ≠ 0 then some (monitorLoop env.sizeof_evt env.boot_reads).outcome
    else if env.daemon_ret ≠ 0 ∨ env.log_fd < 0 ∨ env.dev_null_fd < 0 ∨ env.dup2_stdin < 0
        ∨ env.dup2_stdout < 0 ∨ env.dup2_stderr < 0 then
      some (.exited .kDaemonizationError)
    else if env.pipe_write_fd < 0 then some (.returned .kDaemonizationError)
    else none
  else if env.getsid_is_getpid = false ∧ env.setpgid_ret ≠ 0 then
    some (.exited .kProcessGroupError)
  else none

/-- The part of the checks of `main` made from the host validation on
(main.cc:874-953), as `monitorEnd`. -/
def validateEnd (env : Env) (flags : Flags) (config : CuttlefishConfig) : Option Outcome :=
  if !env.validate_host_configuration then some (.returned .kInvalidHostConfiguration)
  else if !env.ensure_instance_dir_exists then some (.returned .kInstanceDirCreationError)
  else if !env.clean_prior_files then some (.returned .kPrioFilesCleanupError)
  else if !(UnpackBootImage env flags config).2 then some (.returned .kBootImageUnpackError)
  else if !env.save_to_file then some (.returned .kCuttlefishConfigurationSaveError)
  else if env.symlink_ret ≠ 0 then some (.returned .kCuttlefishConfigurationSaveError)
  else monitorEnd env flags

/-- The checks of `main` before the launches (main.cc:861-953): how `main` ends on
the first of them that fails, or none when the launches are reached.  Neither
the writing of the environment file nor any answer to the launches is among
them. -/
def setupEnd (env : Env) : Option Outcome :=
  if !(ParseCommandLineFlags env).2.1 then some (.returned .kArgumentParsingError)
  else
    match InitializeCuttlefishConfiguration env (ParseCommandLineFlags env).2.2 with
    | none => some (.returned .kCuttlefishConfigurationInitError)
    | some config => validateEnd env (ParseCommandLineFlags env).2.2 config

/-- The checks of `main` during the launches (main.cc:955-967): the usb socket and
its duplicate when usb is enabled, and the start of the VM.  The sockets of the
kernel-log monitor and of the shared-memory server and the spawns are not
among them. -/
def launchEnd (env : Env) : Option Outcome :=
  if AdbUsbEnabled env.flags = true ∧ (env.usb_v1_server_fd < 0 ∨ env.usb_v1_dup < 0) then
    some (.exited .kUsbV1SocketError)
  else if !env.start then some (.returned .kVMCreationError)
  else none

/-- The calls of `monitorAndLaunch` before the launches, on a run that reaches
them. -/
def monitorTrace (env : Env) (flags : Flags) (config : CuttlefishConfig) : List Event :=
  [.SocketLocalServer config.launcher_monitor_socket_path env.launcher_monitor_fd]
    ++ if flags.daemon then (DaemonizeLauncher env config).trace
       else [.getsid_is_getpid env.getsid_is_getpid]
         ++ if !env.getsid_is_getpid then [.setpgid env.setpgid_ret] else []

/-- The calls of `validateAndLaunch` before the launches, on a run that reaches
them. -/
def validateTrace (env : Env) (flags : Flags) (config : CuttlefishConfig) : List Event :=
  [.vm .ValidateHostConfiguration true, .vm .EnsureInstanceDirExists true,
    .vm .CleanPriorFiles true]
    ++ (UnpackBootImage env flags config).1
    ++ (WriteCuttlefishEnvironment env config).1
    ++ [.SaveToFile (GetConfigFile env) true,
        .symlink (GetConfigFile env) env.config_link 0]
    ++ monitorTrace env flags config

/-- The calls of `main` before the launches, on a run that reaches them. -/
def setupTrace (env : Env) (config : CuttlefishConfig) : List Event :=
  (ParseCommandLineFlags env).1 ++ validateTrace env (ParseCommandLineFlags env).2.2 config

/-- The calls of the launches before the start of the VM, on a run that reaches
it. -/
def beforeStart (env : Env) (config : CuttlefishConfig) (boot_events_pipe : SharedFD) :
    List Event :=
  LaunchKernelLogMonitor env config boot_events_pipe
    ++ (LaunchUsbServerIfEnabled env config).trace
    ++ LaunchIvServer env config
    ++ [.PreLaunchInitialize]

/-- The calls of the launches after the start of the VM. -/
def afterStart (env : Env) : List Event :=
  LaunchSocketForwardProxyIfEnabled env ++ LaunchVNCServerIfEnabled env
    ++ LaunchAdbConnectorIfEnabled env

/-- The run of `main` after the start of the VM: it returns `kVMCreationError`
when the start failed, else it makes the launches that follow and serves. -/
def afterStartRun (env : Env) : Run :=
  if !env.start then ⟨[], .returned .kVMCreationError⟩
  else Run.after (afterStart env) (ServerLoop env.connections)

/-- Whether an event is the spawn of a helper. -/
def Event.isSpawn : Event → Bool
  | .subprocess _ _ => true
  | _ => false

/-- The helper spawns of a trace, in order. -/
def spawns (trace : List Event) : List Event :=
  trace.filter Event.isSpawn

/-- Whether an event is a call of `ValidateHostConfiguration`. -/
def Event.isValidate : Event → Bool
  | .vm .ValidateHostConfiguration _ => true
  | _ => false

/-- Whether an event is a command run by `cvd::execute` whose program is one of
`/bin/rm`, `/bin/dd` and `/sbin/mkfs`. -/
def Event.isImageCommand : Event → Bool
  | .execute argv => argv.head? == some "/bin/rm" || argv.head? == some "/bin/dd"
      || argv.head? == some "/sbin/mkfs"
  | _ => false

/-- Whether an event is a call of the control loop on its socket or on a client
connection: `Accept`, the read of an action, the writing of a response. -/
def Event.isControl : Event → Bool
  | .Accept _ => true
  | .ReadAction _ _ => true
  | .WriteResponse _ => true
  | _ => false

/-! ## The descriptor table -/

/-- The descriptors a call opens in the process: the non-negative descriptor it
returns, both ends of a pipe that was made. -/
def Event.opens : Event → List Int
  | .Open _ fd => if 0 ≤ fd then [fd] else []
  | .SocketLocalServer _ fd => if 0 ≤ fd then [fd] else []
  | .dup _ result => if 0 ≤ result then [result] else []
  | .Pipe ok read_fd write_fd => if ok then [read_fd, write_fd] else []
  | .Accept fd => if 0 ≤ fd then [fd] else []
  | _ => []

/-- The descriptor table of the process after one call: a `close` takes its
descriptor out, a `dup2` that succeeds makes its target open, any other call
adds the descriptors it opens. -/
def fdStep (table : Finset Int) : Event → Finset Int
  | .close fd => table.erase fd
  | .dup2 _ _ result => if 0 ≤ result then insert result table else table
  | e => table ∪ e.opens.toFinset

/-- The descriptor table of the process after the calls of a trace. -/
def fdTable (table : Finset Int) (trace : List Event) : Finset Int :=
  trace.foldl fdStep table

/-- Whether, along a trace run from `table`, no call returns a descriptor that is
open at that moment, as the system guarantees. -/
def fresh (table : Finset Int) : List Event → Bool
  | [] => true
  | e :: rest => e.opens.all (fun fd => decide (fd ∉ table)) && fresh (fdStep table e) rest

/-- The config object the default host gets from
`InitializeCuttlefishConfiguration`. -/
def defaultConfig : CuttlefishConfig :=
  (InitializeCuttlefishConfiguration defaultEnv defaultFlags).getD
    ⟨"", "", "", "", "", "", "", "", "", "", ""⟩

/-- A run in which a `kSuccess` response, if there is one, is written by a forked
child of `StopCvd`: it is the last call of the run and the only such response,
it comes right after the calls of `StopCvd` in the process where `fork()`
returned zero, and the process then ends by `exited0`; and a process that ends
by `exited0` has written it. -/
def ChildSuccess (trace : List Event) (exited0 : Prop) : Prop :=
  (.WriteResponse .kSuccess ∈ trace →
    exited0 ∧ ∃ pre b s k,
      trace = pre ++ [.vm .Stop b, .getpgid, .fork 0, .setpgid s, .killpg k,
        .WriteResponse .kSuccess]
      ∧ .WriteResponse .kSuccess ∉ pre)
  ∧ (exited0 → .WriteResponse .kSuccess ∈ trace)

/-! ## `guest/hals/hwcomposer/cutf_cvm/base_composer.cpp` -/

/-- Conversion of an integer to `size_t` on a guest whose `size_t` has `size_bits`
bits (reduction modulo `2 ^ size_bits`). -/
def toSizeT (size_bits : Nat) (i : Int) : Nat := (i % ((2 ^ size_bits : Nat) : Int)).toNat

/-- The members of a `FrameBuffer` that `base_composer.cpp` reads and writes.  The
class is declared in `base_composer.h`, which is not among the sources: the
members are the ones the functions of the source name, with the types of
their accessors (`int32_t x_res()`, `int32_t y_res()`, `int NextScreenBuffer()`
returning `last_frame_buffer_`); of the vector `inner_buffer_` the model keeps
its size. -/
structure FrameBuffer where
  x_res_ : Int
  y_res_ : Int
  last_frame_buffer_ : Int
  /-- Value of `inner_buffer_.size()`. -/
  inner_buffer_size : Nat
  deriving DecidableEq

/-- The method `FrameBuffer::x_res` (base_composer.cpp:184). -/
def FrameBuffer.x_res (fb : FrameBuffer) : Int := fb.x_res_

/-- The method `FrameBuffer::y_res` (base_composer.cpp:185). -/
def FrameBuffer.y_res (fb : FrameBuffer) : Int := fb.y_res_

/-- The method `FrameBuffer::bytes_per_pixel` (base_composer.cpp:189). -/
def FrameBuffer.bytes_per_pixel (_ : FrameBuffer) : Int := 4

/-- The method `FrameBuffer::line_length` (base_composer.cpp:186-188):
`cvd::AlignToPowerOf2(x_res() * bytes_per_pixel(), 4)`, an `int32_t` product
converted to `uint32_t` at the call, the result converted to `int32_t`. -/
def FrameBuffer.line_length (fb : FrameBuffer) : Int :=
  toInt32 (AlignToPowerOf2 (toUint32 (toInt32 (fb.x_res * fb.bytes_per_pixel))) 4)

/-- The method `FrameBuffer::buffer_size` (base_composer.cpp:181-183):
`(line_length() * y_res()) + 4` in `int32_t`, converted to `size_t`. -/
def FrameBuffer.buffer_size (size_bits : Nat) (fb : FrameBuffer) : Nat :=
  toSizeT size_bits (toInt32 (toInt32 (fb.line_length * fb.y_res) + 4))

/-- The method `FrameBuffer::GetBuffer` (base_composer.cpp:178-180): the index
`buffer_size() * fb_index` into `inner_buffer_` at which the returned pointer
points, the product being taken in `size_t`. -/
def FrameBuffer.GetBuffer (size_bits : Nat) (fb : FrameBuffer) (fb_index : Int) : Nat :=
  (fb.buffer_size size_bits * toSizeT size_bits fb_index) % 2 ^ size_bits

/-- The method `FrameBuffer::NextScreenBuffer` (base_composer.cpp:93-98): the index
it returns and the object after the call, or none when `buffer_size()` is zero
and the division is undefined.  The quotient is converted to `int`; `%` is the
C++ remainder, truncated towards zero. -/
def FrameBuffer.NextScreenBuffer (size_bits : Nat) (fb : FrameBuffer) :
    Option (Int × FrameBuffer) :=
  if fb.buffer_size size_bits = 0 then none
  else
    let num_buffers : Int := toInt32 ((fb.inner_buffer_size / fb.buffer_size size_bits : Nat) : Int)
    let last_frame_buffer : Int :=
      if num_buffers > 0 then (toInt32 (fb.last_frame_buffer_ + 1)).tmod num_buffers else -1
    some (last_frame_buffer, { fb with last_frame_buffer_ := last_frame_buffer })

/-- The indices returned by `n` successive calls of `NextScreenBuffer` and the
object after them. -/
def FrameBuffer.NextScreenBuffers (size_bits : Nat) :
    Nat → FrameBuffer → Option (List Int × FrameBuffer)
  | 0, fb => some ([], fb)
  | n + 1, fb =>
    (fb.NextScreenBuffer size_bits).bind fun first =>
      (FrameBuffer.NextScreenBuffers size_bits n first.2).map fun rest =>
        (first.1 :: rest.1, rest.2)

/-- The constructor `FrameBuffer::FrameBuffer` (base_composer.cpp:80-86) once
`GetScreenParameters` has set the resolution: `inner_buffer_` gets
`buffer_size() * 8` bytes, the product taken in `size_t`.  The initial value
of `last_frame_buffer_` is given in the header and is a parameter here. -/
def FrameBuffer.construct (size_bits : Nat) (x_res y_res last_frame_buffer : Int) :
    FrameBuffer :=
  let fb : FrameBuffer := ⟨x_res, y_res, last_frame_buffer, 0⟩
  { fb with inner_buffer_size := (fb.buffer_size size_bits * 8) % 2 ^ size_bits }

/-- The function `BaseComposer::PostFrameBufferTarget` (base_composer.cpp:42-58) on
its frame buffer: the value it returns, the frame buffer after the call, and
the range of `inner_buffer_` that `memcpy` writes, as the index it starts at
and its length, when the gralloc `lock` succeeded (`retval` zero); none when
the division of `NextScreenBuffer` is undefined. -/
def PostFrameBufferTarget (size_bits : Nat) (fb : FrameBuffer) (retval : Int) :
    Option (Int × FrameBuffer × Option (Nat × Nat)) :=
  (fb.NextScreenBuffer size_bits).map fun next =>
    let fb_index := next.1
    let fb1 := next.2
    let frame_buffer := fb1.GetBuffer size_bits fb_index
    if retval ≠ 0 then (-1, fb1, none)
    else (0, fb1, some (frame_buffer, fb1.buffer_size size_bits))

/-! ## Reading traces: processes made outside daemon mode -/

theorem toUint32_toInt32 (i : Int) : toUint32 (toInt32 i) = toUint32 i := by
  unfold toUint32 toInt32
  congr 1
  omega

theorem toUint32_natCast (k : Nat) : toUint32 (k : Int) = k % 4294967296 := by
  unfold toUint32
  omega

theorem toUint32_lt (i : Int) : toUint32 i < 4294967296 := by
  unfold toUint32
  omega

theorem le_roundUp16 (v : Nat) : v ≤ roundUp v 16 := by
  unfold roundUp
  omega

theorem le_roundUp4096 (v : Nat) : v ≤ roundUp v 4096 := by
  unfold roundUp
  omega

theorem roundUp_mono (m : Nat) {v w : Nat} (h : v ≤ w) : roundUp v m ≤ roundUp w m := by
  unfold roundUp
  exact Nat.mul_le_mul_right m (Nat.div_le_div_right (by omega))

theorem AlignToPowerOf2_four (v : Nat) : AlignToPowerOf2 v 4 = roundUp v 16 % 4294967296 := by
  simp [AlignToPowerOf2, roundUp]

theorem AlignToPageSize_eq (v : Nat) : AlignToPageSize v = roundUp v 4096 % 4294967296 := by
  simp [AlignToPageSize, roundUp, kPageSize]

theorem mul_mod_add_mod (W Y c : Nat) :
    (W * (Y % 4294967296) + c) % 4294967296 = (W * Y + c) % 4294967296 := by
  rw [Nat.add_mod, Nat.mul_mod, Nat.mod_mod, ← Nat.mul_mod, ← Nat.add_mod]

/-- Without overflow the per-buffer size is the spec's page-aligned size. -/
theorem per_buffer_size_eq (X Y : Nat)
    (h : roundUp (roundUp (4 * X) 16 * Y + 16) 4096 < 4294967296) :
    per_buffer_size (X : Int) (Y : Int) = roundUp (roundUp (4 * X) 16 * Y + 16) 4096 := by
  have hB := le_roundUp4096 (roundUp (4 * X) 16 * Y + 16)
  unfold per_buffer_size actual_width
  rw [toUint32_toInt32, toUint32_natCast Y]
  have hx4 : ((X : Int) * 4) = ((4 * X : Nat) : Int) := by push_cast; ring
  rw [hx4, toUint32_natCast, AlignToPowerOf2_four, AlignToPageSize_eq]
  rcases Nat.eq_zero_or_pos Y with hY | hY
  · subst hY
    simp [roundUp]
  · have hW : roundUp (4 * X) 16 ≤ roundUp (4 * X) 16 * Y := Nat.le_mul_of_pos_right _ hY
    have hX := le_roundUp16 (4 * X)
    have e1 : 4 * X % 4294967296 = 4 * X := Nat.mod_eq_of_lt (by omega)
    have e2 : roundUp (4 * X) 16 % 4294967296 = roundUp (4 * X) 16 := Nat.mod_eq_of_lt (by omega)
    rw [e1, e2, mul_mod_add_mod, Nat.mod_eq_of_lt (by omega : roundUp (4 * X) 16 * Y + 16 < 4294967296),
      Nat.mod_eq_of_lt h]

theorem per_buffer_size_dvd (x y : Int) : 4096 ∣ per_buffer_size x y := by
  unfold per_buffer_size
  rw [AlignToPageSize_eq]
  unfold roundUp
  omega

theorem toUint32_cast (i : Int) : ((toUint32 i : Nat) : Int) = i % 4294967296 := by
  unfold toUint32
  omega

theorem toInt32_emod (i : Int) : toInt32 i % 4294967296 = i % 4294967296 := by
  unfold toInt32
  omega

/-- The accumulator of `LaunchIvServer` in closed form modulo 2^32. -/
theorem screen_buffers_size_mod (x y n : Int) :
    ((screen_buffers_size x y n : Nat) : Int)
      = (n * (per_buffer_size x y : Int) + (n - 1) * 4096) % 4294967296 := by
  unfold screen_buffers_size
  rw [toUint32_toInt32]
  push_cast
  rw [toUint32_cast, toUint32_cast]
  have h1 : Int.ModEq 4294967296 (n % 4294967296 * (per_buffer_size x y : Int))
      (n * (per_buffer_size x y : Int)) := (Int.mod_modEq n _).mul_right _
  have h2 : Int.ModEq 4294967296 (toInt32 (n - 1) * 4096) ((n - 1) * 4096) :=
    Int.ModEq.mul_right _ (toInt32_emod (n - 1))
  have h3 := ((Int.mod_modEq _ 4294967296).trans h1).add ((Int.mod_modEq _ 4294967296).trans h2)
  exact h3

theorem screen_buffers_size_lt (x y n : Int) : screen_buffers_size x y n < 4294967296 := by
  unfold screen_buffers_size
  exact Nat.mod_lt _ (by decide)

/-- Without overflow the accumulator of `LaunchIvServer` is the spec's region size. -/
theorem screen_buffers_size_eq_spec (X Y N : Nat) (hN : 1 ≤ N)
    (hfit : specRegionSize X Y N < 4294967296) :
    screen_buffers_size (X : Int) (Y : Int) (N : Int) = specRegionSize X Y N := by
  have hB : roundUp (roundUp (4 * X) 16 * Y + 16) 4096 ≤ N * roundUp (roundUp (4 * X) 16 * Y + 16) 4096 :=
    Nat.le_mul_of_pos_left _ hN
  unfold specRegionSize at hfit
  have hpb := per_buffer_size_eq X Y (by omega)
  have h := screen_buffers_size_mod (X : Int) (Y : Int) (N : Int)
  rw [hpb] at h
  have e : (N : Int) * ((roundUp (roundUp (4 * X) 16 * Y + 16) 4096 : Nat) : Int) + ((N : Int) - 1) * 4096
      = ((specRegionSize X Y N : Nat) : Int) := by
    unfold specRegionSize
    push_cast [Nat.cast_sub hN]
    ring
  rw [e] at h
  have hfit2 : specRegionSize X Y N < 4294967296 := hfit
  omega

theorem roundUp_least_multiple (v m : Nat) (hm : 0 < m) :
    m ∣ roundUp v m ∧ v ≤ roundUp v m ∧ roundUp v m < v + m := by
  unfold roundUp
  refine ⟨Nat.dvd_mul_left _ _, ?_, ?_⟩
  · have h1 := Nat.div_add_mod (v + (m - 1)) m
    have h2 := Nat.mod_lt (v + (m - 1)) hm
    have h3 : (v + (m - 1)) / m * m = m * ((v + (m - 1)) / m) := Nat.mul_comm _ _
    omega
  · have h1 := Nat.div_add_mod (v + (m - 1)) m
    have h3 : (v + (m - 1)) / m * m = m * ((v + (m - 1)) / m) := Nat.mul_comm _ _
    omega

/-- C1: for non-negative `x_res`, `y_res` and `num_screen_buffers = n ≥ 1` whose
region size fits 32 bits, the one `CreateSharedMemoryFile` call of
`LaunchIvServer` is its first call and gets, for the screen region, the size
`n * roundUp (roundUp (4 * x_res) 16 * y_res + 16) 4096 + (n - 1) * 4096`, where
`roundUp v m` is the least multiple of `m` that is at least `v`; for the default
720 x 1280 x 3 this is 11079680. -/
theorem LaunchIvServer_region_size (env : Env) (config : CuttlefishConfig) (x y n : Nat)
    (hx : env.flags.x_res = (x : Int)) (hy : env.flags.y_res = (y : Int))
    (hn : env.flags.num_screen_buffers = (n : Int)) (h1 : 1 ≤ n)
    (hfit : n * roundUp (roundUp (4 * x) 16 * y + 16) 4096 + (n - 1) * 4096 < 4294967296) :
    (LaunchIvServer env config).head? = some (.CreateSharedMemoryFile config.mempath
        [(env.region_name, n * roundUp (roundUp (4 * x) 16 * y + 16) 4096 + (n - 1) * 4096)])
    ∧ (∀ path regions, Event.CreateSharedMemoryFile path regions ∈ LaunchIvServer env config →
        path = config.mempath ∧ regions =
          [(env.region_name, n * roundUp (roundUp (4 * x) 16 * y + 16) 4096 + (n - 1) * 4096)])
    ∧ (∀ v, 16 ∣ roundUp v 16 ∧ v ≤ roundUp v 16 ∧ roundUp v 16 < v + 16)
    ∧ (∀ v, 4096 ∣ roundUp v 4096 ∧ v ≤ roundUp v 4096 ∧ roundUp v 4096 < v + 4096)
    ∧ screen_buffers_size 720 1280 3 = 11079680 := by
  have hs := screen_buffers_size_eq_spec x y n h1 hfit
  unfold specRegionSize at hs
  refine ⟨?_, ?_, fun v => roundUp_least_multiple v 16 (by decide),
    fun v => roundUp_least_multiple v 4096 (by decide), by decide⟩
  · unfold LaunchIvServer
    rw [hx, hy, hn, hs]
    rfl
  · intro path regions
    unfold LaunchIvServer
    rw [hx, hy, hn, hs]
    simp only [CreateIvServerUnixSocket, SharedFD.release]
    intro hmem
    split_ifs at hmem <;> simp at hmem <;> exact hmem

/-- Instance of the region size formula at the default flags 720 x 1280 x 3. -/
theorem LaunchIvServer_region_size_default :
    (LaunchIvServer defaultEnv
        (CuttlefishConfig.mk "" "" "/dev/shm/cvd-1" "q" "c" "" "k" "l" "m" "e" "f")).head? =
      some (.CreateSharedMemoryFile "/dev/shm/cvd-1" [("screen", 11079680)]) :=
  (LaunchIvServer_region_size defaultEnv _ 720 1280 3 rfl rfl rfl (by decide) (by decide)).1

/-- C2: for every resolution and every buffer count `n`, in the arithmetic of the
`uint32_t` accumulator the region size for `n + 1` buffers is the size for `n`
buffers plus one per-buffer size plus one guard page of 4096 bytes; where that
sum does not wrap it holds on the numbers themselves. -/
theorem screen_buffers_size_succ (x_res y_res n : Int) :
    screen_buffers_size x_res y_res (n + 1)
        = (screen_buffers_size x_res y_res n + per_buffer_size x_res y_res + 4096) % 4294967296
    ∧ (screen_buffers_size x_res y_res n + per_buffer_size x_res y_res + 4096 < 4294967296 →
        screen_buffers_size x_res y_res (n + 1)
          = screen_buffers_size x_res y_res n + per_buffer_size x_res y_res + 4096) := by
  have key : screen_buffers_size x_res y_res (n + 1)
      = (screen_buffers_size x_res y_res n + per_buffer_size x_res y_res + 4096) % 4294967296 := by
    have h1 := screen_buffers_size_mod x_res y_res (n + 1)
    have h0 := screen_buffers_size_mod x_res y_res n
    have e : (n + 1) * (per_buffer_size x_res y_res : Int) + (n + 1 - 1) * 4096
        = (n * (per_buffer_size x_res y_res : Int) + (n - 1) * 4096)
          + ((per_buffer_size x_res y_res : Int) + 4096) := by ring
    rw [e, Int.add_emod, ← h0] at h1
    have h2 : ((screen_buffers_size x_res y_res (n + 1) : Nat) : Int)
        = (((screen_buffers_size x_res y_res n + per_buffer_size x_res y_res + 4096)
            % 4294967296 : Nat) : Int) := by
      rw [h1]
      push_cast
      omega
    exact_mod_cast h2
  exact ⟨key, fun h => by rw [key, Nat.mod_eq_of_lt h]⟩

/-- Instance of the step from 3 to 4 buffers at 720 x 1280, where nothing wraps. -/
theorem screen_buffers_size_succ_default :
    screen_buffers_size 720 1280 3 + per_buffer_size 720 1280 + 4096 < 4294967296 ∧
    screen_buffers_size 720 1280 (3 + 1)
      = screen_buffers_size 720 1280 3 + per_buffer_size 720 1280 + 4096 :=
  ⟨by decide, (screen_buffers_size_succ 720 1280 3).2 (by decide)⟩

/-- C3: the per-buffer size of `LaunchIvServer` is always a multiple of 4096; for
non-negative resolutions whose page-aligned size fits 32 bits it is at least
line-stride * `y_res` + 16, the line stride being `4 * x_res` rounded up to a
multiple of 16, and it does not decrease when `x_res` or `y_res` grows. -/
theorem per_buffer_size_monotone_aligned :
    (∀ x_res y_res : Int, 4096 ∣ per_buffer_size x_res y_res)
    ∧ (∀ x y : Nat, roundUp (roundUp (4 * x) 16 * y + 16) 4096 < 4294967296 →
        roundUp (4 * x) 16 * y + 16 ≤ per_buffer_size (x : Int) (y : Int)
        ∧ (16 ∣ roundUp (4 * x) 16 ∧ 4 * x ≤ roundUp (4 * x) 16 ∧ roundUp (4 * x) 16 < 4 * x + 16)
        ∧ (∀ x' : Nat, x' ≤ x → per_buffer_size (x' : Int) (y : Int) ≤ per_buffer_size (x : Int) (y : Int))
        ∧ (∀ y' : Nat, y' ≤ y → per_buffer_size (x : Int) (y' : Int) ≤ per_buffer_size (x : Int) (y : Int))) := by
  refine ⟨per_buffer_size_dvd, fun x y h => ?_⟩
  have hmono : ∀ x' y' : Nat, x' ≤ x → y' ≤ y →
      per_buffer_size (x' : Int) (y' : Int) ≤ per_buffer_size (x : Int) (y : Int) := by
    intro x' y' hx hy
    have hle : roundUp (roundUp (4 * x') 16 * y' + 16) 4096
        ≤ roundUp (roundUp (4 * x) 16 * y + 16) 4096 :=
      roundUp_mono 4096 (Nat.add_le_add_right
        (Nat.mul_le_mul (roundUp_mono 16 (by omega)) hy) 16)
    rw [per_buffer_size_eq x y h, per_buffer_size_eq x' y' (by omega)]
    exact hle
  refine ⟨?_, roundUp_least_multiple _ 16 (by decide), fun x' hx => hmono x' y hx le_rfl,
    fun y' hy => hmono x y' le_rfl hy⟩
  rw [per_buffer_size_eq x y h]
  exact le_roundUp4096 _

/-- Instance of the monotonicity in `x_res`, from 480 to 720 at height 1280. -/
theorem per_buffer_size_monotone_aligned_default :
    roundUp (roundUp (4 * 720) 16 * 1280 + 16) 4096 < 4294967296 ∧
    per_buffer_size (480 : Nat) (1280 : Nat) ≤ per_buffer_size (720 : Nat) (1280 : Nat) :=
  ⟨by decide, ((per_buffer_size_monotone_aligned.2 720 1280 (by decide)).2.2.1) 480 (by decide)⟩


/-! ## The boot monitor -/

/-- The monitor skips a complete record that is neither `BootCompleted` nor
`BootFailed` and reads on. -/
theorem monitorLoop_skip (sz : Int) (pre rest : List PipeRead)
    (hpre : ∀ p ∈ pre, p.bytes_read = sz ∧ p.evt ≠ .BootCompleted ∧ p.evt ≠ .BootFailed) :
    monitorLoop sz (pre ++ rest) =
      Run.after (pre.map fun p => .ReadBootEvent p.bytes_read p.evt) (monitorLoop sz rest) := by
  induction pre with
  | nil => simp [Run.after]
  | cons p pre ih =>
    have hp := hpre p (List.mem_cons_self _ _)
    have ih' := ih fun q hq => hpre q (List.mem_cons_of_mem _ hq)
    simp [monitorLoop, hp.1, hp.2.1, hp.2.2, ih', Run.after]

/-- C4: in the monitoring parent of `DaemonizeLauncher` (the process in which
`fork()` did not return zero), complete records that are neither
`BootCompleted` nor `BootFailed` are read and ignored, the parent staying in
the loop; the first `BootCompleted` or `BootFailed` record ends the parent with
`kSuccess` respectively `kVirtualDeviceBootFailed`, whatever follows it. -/
theorem DaemonizeLauncher_monitor_decides (env : Env) (config : CuttlefishConfig)
    (pre post : List PipeRead) (r : PipeRead)
    (hpipe : env.pipe_ok = true) (hpid : env.daemon_fork_pid ≠ 0)
    (hpre : ∀ p ∈ pre, p.bytes_read = env.sizeof_evt ∧ p.evt ≠ .BootCompleted ∧ p.evt ≠ .BootFailed)
    (hr : r.bytes_read = env.sizeof_evt) :
    (env.boot_reads = pre →
      DaemonizeLauncher env config =
        ⟨[.Pipe true env.pipe_read_fd env.pipe_write_fd, .fork env.daemon_fork_pid,
            .close env.pipe_write_fd] ++ pre.map (fun p => .ReadBootEvent p.bytes_read p.evt),
          .halt .blocked⟩)
    ∧ (env.boot_reads = pre ++ r :: post → r.evt = .BootCompleted →
      DaemonizeLauncher env config =
        ⟨[.Pipe true env.pipe_read_fd env.pipe_write_fd, .fork env.daemon_fork_pid,
            .close env.pipe_write_fd]
            ++ (pre ++ [r]).map (fun p => .ReadBootEvent p.bytes_read p.evt),
          .halt (.exited .kSuccess)⟩)
    ∧ (env.boot_reads = pre ++ r :: post → r.evt = .BootFailed →
      DaemonizeLauncher env config =
        ⟨[.Pipe true env.pipe_read_fd env.pipe_write_fd, .fork env.daemon_fork_pid,
            .close env.pipe_write_fd]
            ++ (pre ++ [r]).map (fun p => .ReadBootEvent p.bytes_read p.evt),
          .halt (.exited .kVirtualDeviceBootFailed)⟩) := by
  refine ⟨fun h => ?_, fun h he => ?_, fun h he => ?_⟩
  · have hm := monitorLoop_skip env.sizeof_evt pre [] hpre
    rw [List.append_nil] at hm
    simp [DaemonizeLauncher, hpipe, hpid, h, hm, Run.after, monitorLoop]
  · have hm := monitorLoop_skip env.sizeof_evt pre (r :: post) hpre
    simp [DaemonizeLauncher, hpipe, hpid, h, hm, Run.after, monitorLoop, hr, he]
  · have hm := monitorLoop_skip env.sizeof_evt pre (r :: post) hpre
    simp [DaemonizeLauncher, hpipe, hpid, h, hm, Run.after, monitorLoop, hr, he]

/-- Instance of the boot monitor: an ignorable record, then `BootFailed`, then a
record that is never read. -/
theorem DaemonizeLauncher_monitor_decides_example :
    DaemonizeLauncher
        { defaultEnv with daemon_fork_pid := 12,
                          boot_reads := [⟨4, .other 0⟩, ⟨4, .BootFailed⟩, ⟨4, .BootCompleted⟩] }
        (CuttlefishConfig.mk "" "" "" "" "" "" "" "" "" "" "") =
      ⟨[.Pipe true 4 5, .fork 12, .close 5, .ReadBootEvent 4 (.other 0),
        .ReadBootEvent 4 .BootFailed], .halt (.exited .kVirtualDeviceBootFailed)⟩ :=
  (DaemonizeLauncher_monitor_decides
    { defaultEnv with daemon_fork_pid := 12,
                      boot_reads := [⟨4, .other 0⟩, ⟨4, .BootFailed⟩, ⟨4, .BootCompleted⟩] }
    _ [⟨4, .other 0⟩] [⟨4, .BootCompleted⟩] ⟨4, .BootFailed⟩ rfl (by decide)
    (by decide) rfl).2.2 rfl rfl

/-- C5: in the monitoring parent of `DaemonizeLauncher`, a `Read` whose byte count
differs from `sizeof(BootEvent)` (zero, a partial record, or negative), coming
after any number of complete ignorable records, ends the parent with
`kPipeIOError`, which is neither `kSuccess` nor `kVirtualDeviceBootFailed`. -/
theorem DaemonizeLauncher_monitor_short_read (env : Env) (config : CuttlefishConfig)
    (pre post : List PipeRead) (r : PipeRead)
    (hpipe : env.pipe_ok = true) (hpid : env.daemon_fork_pid ≠ 0)
    (hreads : env.boot_reads = pre ++ r :: post)
    (hpre : ∀ p ∈ pre, p.bytes_read = env.sizeof_evt ∧ p.evt ≠ .BootCompleted ∧ p.evt ≠ .BootFailed)
    (hr : r.bytes_read ≠ env.sizeof_evt) :
    DaemonizeLauncher env config =
        ⟨[.Pipe true env.pipe_read_fd env.pipe_write_fd, .fork env.daemon_fork_pid,
            .close env.pipe_write_fd]
            ++ (pre ++ [r]).map (fun p => .ReadBootEvent p.bytes_read p.evt),
          .halt (.exited .kPipeIOError)⟩
    ∧ LauncherExitCodes.kPipeIOError ≠ LauncherExitCodes.kSuccess
    ∧ LauncherExitCodes.kPipeIOError ≠ LauncherExitCodes.kVirtualDeviceBootFailed := by
  refine ⟨?_, by decide, by decide⟩
  have hm := monitorLoop_skip env.sizeof_evt pre (r :: post) hpre
  simp [DaemonizeLauncher, hpipe, hpid, hreads, hm, Run.after, monitorLoop, hr]

/-- Instance of the boot monitor: an ignorable record, then the pipe is closed. -/
theorem DaemonizeLauncher_monitor_short_read_example :
    DaemonizeLauncher
        { defaultEnv with daemon_fork_pid := 12,
                          boot_reads := [⟨4, .other 0⟩, ⟨0, .other 0⟩] }
        (CuttlefishConfig.mk "" "" "" "" "" "" "" "" "" "" "") =
      ⟨[.Pipe true 4 5, .fork 12, .close 5, .ReadBootEvent 4 (.other 0),
        .ReadBootEvent 0 (.other 0)], .halt (.exited .kPipeIOError)⟩ :=
  (DaemonizeLauncher_monitor_short_read
    { defaultEnv with daemon_fork_pid := 12,
                      boot_reads := [⟨4, .other 0⟩, ⟨0, .other 0⟩] }
    _ [⟨4, .other 0⟩] [] ⟨0, .other 0⟩ rfl (by decide) rfl (by decide) (by decide)).1


/-! ## The control-plane server -/

theorem serveClient_unrecognized (unrec rest : List ClientRead)
    (h : ∀ r ∈ unrec, 0 < r.bytes_read ∧ r.action ≠ .kStop) :
    serveClient (unrec ++ rest) =
      ⟨unrec.flatMap unrecognizedCalls ++ (serveClient rest).trace, (serveClient rest).result⟩ := by
  induction unrec with
  | nil => simp
  | cons r unrec ih =>
    have hr := h r (List.mem_cons_self _ _)
    have ih' := ih fun q hq => h q (List.mem_cons_of_mem _ hq)
    cases hact : r.action with
    | kStop => exact absurd hact hr.2
    | unrecognized code =>
      simp [serveClient, hr.1, hact, ih', unrecognizedCalls]

theorem responses_unrecognized (unrec : List ClientRead) :
    responses (unrec.flatMap unrecognizedCalls) = List.replicate unrec.length .kError := by
  induction unrec with
  | nil => rfl
  | cons r unrec ih =>
    simp only [List.flatMap_cons, List.length_cons, List.replicate_succ]
    rw [← ih]
    rfl

theorem not_stop_unrecognized (unrec : List ClientRead) (e : Event)
    (he : e ∈ unrec.flatMap unrecognizedCalls) :
    (∀ b, e ≠ .vm .Stop b) ∧ (∀ pid, e ≠ .fork pid) ∧ (∀ ret, e ≠ .killpg ret) := by
  simp only [List.mem_flatMap, unrecognizedCalls, List.mem_cons, List.mem_singleton,
    List.not_mem_nil, or_false] at he
  obtain ⟨r, -, h | h⟩ := he <;> subst h <;> simp

/-- C6: a run of `k` reads from a client that each return bytes and an action
other than `kStop` makes `serveClient` perform, for each, the read followed by
exactly one `kError` response and nothing else (no VM `Stop`, no `fork`, no
`killpg`), and then go on with the next read on the same connection exactly as
if they had not been there; the responses on the connection are `k` times
`kError` followed by those of the rest, and once the client closes the
connection `ServerLoop` accepts the next one. -/
theorem ServerLoop_unrecognized (unrec rest : List ClientRead)
    (h : ∀ r ∈ unrec, 0 < r.bytes_read ∧ r.action ≠ .kStop) :
    serveClient (unrec ++ rest) =
      ⟨unrec.flatMap unrecognizedCalls ++ (serveClient rest).trace, (serveClient rest).result⟩
    ∧ responses (serveClient (unrec ++ rest)).trace =
      List.replicate unrec.length .kError ++ responses (serveClient rest).trace
    ∧ (∀ e ∈ unrec.flatMap unrecognizedCalls,
        (∀ b, e ≠ .vm .Stop b) ∧ (∀ pid, e ≠ .fork pid) ∧ (∀ ret, e ≠ .killpg ret))
    ∧ (∀ (fd : Int) (last : ClientRead) (conns : List Connection), 0 ≤ fd → last.bytes_read ≤ 0 →
        rest = [last] →
        ServerLoop (⟨fd, unrec ++ rest⟩ :: conns) =
          Run.after (.Accept fd :: unrec.flatMap unrecognizedCalls
              ++ [.ReadAction last.bytes_read last.action, .close fd])
            (ServerLoop conns)) := by
  have hs := serveClient_unrecognized unrec rest h
  refine ⟨hs, ?_, not_stop_unrecognized unrec, ?_⟩
  · rw [hs]
    simp only [responses, List.filterMap_append]
    exact congrArg (· ++ _) (responses_unrecognized unrec)
  · intro fd last conns hfd hlast hrest
    subst hrest
    have hl : ¬ (0 < last.bytes_read) := by omega
    have hlast' : serveClient [last] = ⟨[.ReadAction last.bytes_read last.action], .ret ()⟩ := by
      simp [serveClient, hl]
    rw [hlast'] at hs
    simp [ServerLoop, hfd, hs, Run.after]

/-- Instance of the server loop: two unrecognized actions on one connection,
then the client closes. -/
theorem ServerLoop_unrecognized_example :
    ServerLoop [⟨7, [⟨1, .unrecognized 50, ⟨true, 0, false, 0, 0⟩⟩,
                     ⟨1, .unrecognized 51, ⟨true, 0, false, 0, 0⟩⟩,
                     ⟨0, .unrecognized 51, ⟨true, 0, false, 0, 0⟩⟩]⟩] =
      Run.after [.Accept 7, .ReadAction 1 (.unrecognized 50), .WriteResponse .kError,
                 .ReadAction 1 (.unrecognized 51), .WriteResponse .kError,
                 .ReadAction 0 (.unrecognized 51), .close 7] (ServerLoop []) :=
  (ServerLoop_unrecognized
    [⟨1, .unrecognized 50, ⟨true, 0, false, 0, 0⟩⟩, ⟨1, .unrecognized 51, ⟨true, 0, false, 0, 0⟩⟩]
    [⟨0, .unrecognized 51, ⟨true, 0, false, 0, 0⟩⟩] (by decide)).2.2.2 7 _ [] (by decide)
    (by decide) rfl


/-- C7, as stated, fails: when the forked child has left the launcher's process
group and its `killpg` succeeds, `StopCvd` returns true in the child, which
then writes `kSuccess` on the client connection and exits. -/
theorem stop_child_writes_kSuccess :
    StopCvd ⟨true, 0, false, 0, 0⟩ =
        ⟨[.vm .Stop true, .getpgid, .fork 0, .setpgid 0, .killpg 0], .ret true⟩
    ∧ serveClient [⟨1, .kStop, ⟨true, 0, false, 0, 0⟩⟩] =
        ⟨[.ReadAction 1 .kStop, .vm .Stop true, .getpgid, .fork 0, .setpgid 0, .killpg 0,
          .WriteResponse .kSuccess], .halt (.exited .kSuccess)⟩
    ∧ responses (serveClient [⟨1, .kStop, ⟨true, 0, false, 0, 0⟩⟩]).trace = [.kSuccess]
    ∧ responses (serveClient [⟨1, .kStop, ⟨true, 0, false, 0, 0⟩⟩]).trace ≠ [] := by
  refine ⟨rfl, rfl, rfl, by decide⟩

/-- C7, amended: when a `kStop` action is handled and the child's `killpg`
succeeds, the launcher, killed while it waits for the child, writes no
response; the forked child that has left the launcher's process group gets
true from `StopCvd`, writes exactly one `kSuccess` response on the client
connection and exits with the success code; a child that could not leave the
group is killed by its own signal and writes nothing.  No `kError` is written
by either process. -/
theorem ServerLoop_stop_kill_succeeds (r : ClientRead) (rest : List ClientRead)
    (hread : 0 < r.bytes_read) (hstop : r.action = .kStop) :
    (0 < r.sys.child_pid → r.sys.waitpid_returns = false →
      serveClient (r :: rest) =
        ⟨[.ReadAction r.bytes_read .kStop, .vm .Stop r.sys.vm_stop, .getpgid,
          .fork r.sys.child_pid], .halt .killed⟩)
    ∧ (r.sys.child_pid = 0 → r.sys.killpg_ret = 0 → r.sys.setpgid_ret = 0 →
      serveClient (r :: rest) =
        ⟨[.ReadAction r.bytes_read .kStop, .vm .Stop r.sys.vm_stop, .getpgid, .fork 0,
          .setpgid 0, .killpg 0, .WriteResponse .kSuccess], .halt (.exited .kSuccess)⟩)
    ∧ (r.sys.child_pid = 0 → r.sys.killpg_ret = 0 → r.sys.setpgid_ret ≠ 0 →
      serveClient (r :: rest) =
        ⟨[.ReadAction r.bytes_read .kStop, .vm .Stop r.sys.vm_stop, .getpgid, .fork 0,
          .setpgid r.sys.setpgid_ret, .killpg 0], .halt .killed⟩)
    ∧ ((0 < r.sys.child_pid ∧ r.sys.waitpid_returns = false)
        ∨ (r.sys.child_pid = 0 ∧ r.sys.killpg_ret = 0) →
      LauncherResponse.kError ∉ responses (serveClient (r :: rest)).trace) := by
  have launcher : 0 < r.sys.child_pid → r.sys.waitpid_returns = false →
      serveClient (r :: rest) =
        ⟨[.ReadAction r.bytes_read .kStop, .vm .Stop r.sys.vm_stop, .getpgid,
          .fork r.sys.child_pid], .halt .killed⟩ := by
    intro hpid hwait
    simp [serveClient, hread, hstop, StopCvd, hpid, hwait]
  have child : r.sys.child_pid = 0 → r.sys.killpg_ret = 0 → r.sys.setpgid_ret = 0 →
      serveClient (r :: rest) =
        ⟨[.ReadAction r.bytes_read .kStop, .vm .Stop r.sys.vm_stop, .getpgid, .fork 0,
          .setpgid 0, .killpg 0, .WriteResponse .kSuccess], .halt (.exited .kSuccess)⟩ := by
    intro hpid hkill hset
    simp [serveClient, hread, hstop, StopCvd, hpid, hkill, hset]
  have stuck : r.sys.child_pid = 0 → r.sys.killpg_ret = 0 → r.sys.setpgid_ret ≠ 0 →
      serveClient (r :: rest) =
        ⟨[.ReadAction r.bytes_read .kStop, .vm .Stop r.sys.vm_stop, .getpgid, .fork 0,
          .setpgid r.sys.setpgid_ret, .killpg 0], .halt .killed⟩ := by
    intro hpid hkill hset
    simp [serveClient, hread, hstop, StopCvd, hpid, hkill, hset]
  refine ⟨launcher, child, stuck, ?_⟩
  rintro (⟨hpid, hwait⟩ | ⟨hpid, hkill⟩)
  · rw [launcher hpid hwait]
    simp [responses, Event.response?]
  · by_cases hset : r.sys.setpgid_ret = 0
    · rw [child hpid hkill hset]
      simp [responses, Event.response?]
    · rw [stuck hpid hkill hset]
      simp [responses, Event.response?]

/-- Instance of a successful stop, in the launcher and in the forked child. -/
theorem ServerLoop_stop_kill_succeeds_example :
    serveClient [⟨1, .kStop, ⟨true, 4711, false, 0, 0⟩⟩] =
      ⟨[.ReadAction 1 .kStop, .vm .Stop true, .getpgid, .fork 4711], .halt .killed⟩
    ∧ serveClient [⟨1, .kStop, ⟨true, 0, false, 0, 0⟩⟩] =
      ⟨[.ReadAction 1 .kStop, .vm .Stop true, .getpgid, .fork 0, .setpgid 0, .killpg 0,
        .WriteResponse .kSuccess], .halt (.exited .kSuccess)⟩ :=
  ⟨(ServerLoop_stop_kill_succeeds ⟨1, .kStop, ⟨true, 4711, false, 0, 0⟩⟩ [] (by decide) rfl).1
      (by decide) rfl,
   (ServerLoop_stop_kill_succeeds ⟨1, .kStop, ⟨true, 0, false, 0, 0⟩⟩ [] (by decide) rfl).2.1
      rfl rfl rfl⟩

/-- C8: when a `kStop` action is handled and `waitpid` on the disposable child
returns in the launcher, `StopCvd` returns false there, the launcher writes one
`kError` response, does not end, and goes on with the next read on the
connection; once the client closes the connection `ServerLoop` accepts the next
one. -/
theorem ServerLoop_stop_wait_returns (r : ClientRead) (rest : List ClientRead)
    (hread : 0 < r.bytes_read) (hstop : r.action = .kStop)
    (hpid : 0 < r.sys.child_pid) (hwait : r.sys.waitpid_returns = true) :
    StopCvd r.sys =
      ⟨[.vm .Stop r.sys.vm_stop, .getpgid, .fork r.sys.child_pid, .waitpid], .ret false⟩
    ∧ serveClient (r :: rest) =
      ⟨[.ReadAction r.bytes_read .kStop, .vm .Stop r.sys.vm_stop, .getpgid,
          .fork r.sys.child_pid, .waitpid, .WriteResponse .kError] ++ (serveClient rest).trace,
        (serveClient rest).result⟩
    ∧ (∀ (fd : Int) (last : ClientRead) (conns : List Connection), 0 ≤ fd → last.bytes_read ≤ 0 →
        rest = [last] →
        ServerLoop (⟨fd, r :: rest⟩ :: conns) =
          Run.after [.Accept fd, .ReadAction r.bytes_read .kStop, .vm .Stop r.sys.vm_stop,
              .getpgid, .fork r.sys.child_pid, .waitpid, .WriteResponse .kError,
              .ReadAction last.bytes_read last.action, .close fd]
            (ServerLoop conns)) := by
  have hstopcvd : StopCvd r.sys =
      ⟨[.vm .Stop r.sys.vm_stop, .getpgid, .fork r.sys.child_pid, .waitpid], .ret false⟩ := by
    simp [StopCvd, hpid, hwait]
  have hs : serveClient (r :: rest) =
      ⟨[.ReadAction r.bytes_read .kStop, .vm .Stop r.sys.vm_stop, .getpgid,
          .fork r.sys.child_pid, .waitpid, .WriteResponse .kError] ++ (serveClient rest).trace,
        (serveClient rest).result⟩ := by
    simp [serveClient, hread, hstop, hstopcvd]
  refine ⟨hstopcvd, hs, ?_⟩
  intro fd last conns hfd hlast hrest
  subst hrest
  have hl : ¬ (0 < last.bytes_read) := by omega
  have hlast' : serveClient [last] = ⟨[.ReadAction last.bytes_read last.action], .ret ()⟩ := by
    simp [serveClient, hl]
  rw [hlast'] at hs
  simp [ServerLoop, hfd, hs, Run.after]

/-- Instance of a failed stop in the launcher: the child could not signal the
group, `waitpid` returns, and the next action is read. -/
theorem ServerLoop_stop_wait_returns_example :
    serveClient [⟨1, .kStop, ⟨true, 4711, true, 0, -1⟩⟩, ⟨1, .unrecognized 50, ⟨true, 0, false, 0, 0⟩⟩] =
      ⟨[.ReadAction 1 .kStop, .vm .Stop true, .getpgid, .fork 4711, .waitpid,
          .WriteResponse .kError]
          ++ (serveClient [⟨1, .unrecognized 50, ⟨true, 0, false, 0, 0⟩⟩]).trace,
        (serveClient [⟨1, .unrecognized 50, ⟨true, 0, false, 0, 0⟩⟩]).result⟩ :=
  (ServerLoop_stop_wait_returns ⟨1, .kStop, ⟨true, 4711, true, 0, -1⟩⟩
    [⟨1, .unrecognized 50, ⟨true, 0, false, 0, 0⟩⟩] (by decide) rfl (by decide) rfl).2.1


/-! ## The launch sequence -/

theorem quiet_append (a b : List Event) : quiet (a ++ b) = (quiet a && quiet b) := by
  simp [quiet, List.all_append]

theorem quiet_cons (e : Event) (l : List Event) :
    quiet (e :: l) = (!e.isLaunchCall && quiet l) := by
  simp [quiet]

theorem not_mem_of_quiet {l : List Event} (h : quiet l = true) {e : Event}
    (he : e.isLaunchCall = true) : e ∉ l := by
  intro hmem
  simp only [quiet, List.all_eq_true] at h
  have := h e hmem
  simp [he] at this

/-- A split of `l ++ r` at an element that is not in `l` lies in `r`. -/
theorem split_after_prefix {l r pre post : List Event} {x : Event} (hx : x ∉ l)
    (h : l ++ r = pre ++ x :: post) : ∃ mid, pre = l ++ mid ∧ r = mid ++ x :: post := by
  rcases List.append_eq_append_iff.mp h with ⟨a, ha, hr⟩ | ⟨c, hl, hc⟩
  · exact ⟨a, ha, hr⟩
  · cases c with
    | nil =>
      simp only [List.nil_append] at hc
      exact ⟨[], by simp [hl], by simp [hc]⟩
    | cons y c =>
      simp only [List.cons_append, List.cons.injEq] at hc
      exact absurd (by rw [hl, hc.1]; simp) hx

theorem quiet_nil : quiet [] = true := rfl

theorem quiet_RemoveFile (f : String) : quiet (RemoveFile f) = true := rfl

theorem quiet_CreateBlankImage (i : String) (m : Int) (f : String) :
    quiet (CreateBlankImage i m f) = true := rfl

theorem quiet_ApplyDataImagePolicy (flags : Flags) (d : Bool) (i : String) :
    quiet (ApplyDataImagePolicy flags d i).1 = true := by
  unfold ApplyDataImagePolicy
  simp only
  split
  · rfl
  · split_ifs <;> simp [quiet_append, quiet_RemoveFile, quiet_CreateBlankImage] <;> rfl

theorem quiet_ParseCommandLineFlags (env : Env) : quiet (ParseCommandLineFlags env).1 = true := by
  unfold ParseCommandLineFlags ResolveInstanceFiles
  simp only
  split_ifs <;> first | rfl | exact quiet_ApplyDataImagePolicy _ _ _

theorem quiet_UnpackBootImage (env : Env) (flags : Flags) (config : CuttlefishConfig) :
    quiet (UnpackBootImage env flags config).1 = true := by
  unfold UnpackBootImage
  simp only
  split_ifs <;> rfl

theorem quiet_WriteCuttlefishEnvironment (env : Env) (config : CuttlefishConfig) :
    quiet (WriteCuttlefishEnvironment env config).1 = true := by
  unfold WriteCuttlefishEnvironment SharedFD.release
  simp only
  split_ifs <;> rfl

theorem quiet_monitorLoop (sz : Int) (reads : List PipeRead) :
    quiet (monitorLoop sz reads).trace = true := by
  induction reads with
  | nil => rfl
  | cons r rest ih =>
    unfold monitorLoop
    simp only [Run.after]
    split_ifs <;> simp [quiet_cons, Event.isLaunchCall, ih] <;> rfl

theorem quiet_DaemonizeLauncher (env : Env) (config : CuttlefishConfig) :
    quiet (DaemonizeLauncher env config).trace = true := by
  unfold DaemonizeLauncher SharedFD.release
  simp only
  split_ifs <;> simp [quiet_append, quiet_cons, Event.isLaunchCall, quiet_monitorLoop] <;> rfl

theorem quiet_LaunchKernelLogMonitor (env : Env) (config : CuttlefishConfig) (p : SharedFD) :
    quiet (LaunchKernelLogMonitor env config p) = true := by
  unfold LaunchKernelLogMonitor SharedFD.release
  simp only
  split_ifs <;> rfl

theorem quiet_LaunchUsbServerIfEnabled (env : Env) (config : CuttlefishConfig) :
    quiet (LaunchUsbServerIfEnabled env config).trace = true := by
  unfold LaunchUsbServerIfEnabled SharedFD.release
  simp only
  split_ifs <;> rfl

theorem quiet_LaunchIvServer (env : Env) (config : CuttlefishConfig) :
    quiet (LaunchIvServer env config) = true := by
  unfold LaunchIvServer CreateIvServerUnixSocket SharedFD.release
  simp only
  split_ifs <;> rfl

theorem quiet_LaunchSocketForwardProxyIfEnabled (env : Env) :
    quiet (LaunchSocketForwardProxyIfEnabled env) = true := by
  unfold LaunchSocketForwardProxyIfEnabled
  split_ifs <;> rfl

theorem quiet_LaunchVNCServerIfEnabled (env : Env) :
    quiet (LaunchVNCServerIfEnabled env) = true := by
  unfold LaunchVNCServerIfEnabled
  split_ifs <;> rfl

theorem quiet_LaunchAdbConnectorIfEnabled (env : Env) :
    quiet (LaunchAdbConnectorIfEnabled env) = true := by
  unfold LaunchAdbConnectorIfEnabled
  split_ifs <;> rfl

theorem quiet_StopCvd (sys : StopSys) : quiet (StopCvd sys).trace = true := by
  unfold StopCvd
  simp only
  split_ifs <;> rfl

theorem quiet_serveClient (reads : List ClientRead) : quiet (serveClient reads).trace = true := by
  induction reads with
  | nil => rfl
  | cons r rest ih =>
    unfold serveClient
    have hs := quiet_StopCvd r.sys
    split_ifs
    · split
      · simp only []
        split <;> simp_all [quiet_append, quiet_cons, quiet_nil, Event.isLaunchCall]
      · simp [quiet_cons, Event.isLaunchCall, ih]
    · rfl

theorem quiet_ServerLoop (conns : List Connection) : quiet (ServerLoop conns).trace = true := by
  induction conns with
  | nil => rfl
  | cons c rest ih =>
    unfold ServerLoop
    have hs := quiet_serveClient c.reads
    split_ifs
    · simp only
      split <;> simp_all [Run.after, quiet_append, quiet_cons, quiet_nil, Event.isLaunchCall]
    · simp [Run.after, quiet_cons, Event.isLaunchCall, ih]

theorem isLaunchCall_of_failureCode {c : VmCall} {code : LauncherExitCodes}
    (h : failureCode c = some code) (b : Bool) : (Event.vm c b).isLaunchCall = true := by
  cases c <;> simp_all [failureCode, Event.isLaunchCall]

theorem FailStop_of_quiet (r : Run) (h : quiet r.trace = true) : FailStop r := by
  intro pre post c code htr hc
  have := not_mem_of_quiet h (isLaunchCall_of_failureCode hc false)
  rw [htr] at this
  exact absurd (by simp) this

theorem FailStop_after (l : List Event) (k : Run) (hl : quiet l = true) (hk : FailStop k) :
    FailStop (Run.after l k) := by
  intro pre post c code htr hc
  obtain ⟨mid, -, hmid⟩ :=
    split_after_prefix (not_mem_of_quiet hl (isLaunchCall_of_failureCode hc false)) htr
  exact hk mid post c code hmid hc

theorem FailStop_andThen {α : Type} (m : Exec α) (k : α → Run) (hm : quiet m.trace = true)
    (hk : ∀ a, FailStop (k a)) : FailStop (m.andThen k) := by
  unfold Exec.andThen
  split
  · exact FailStop_after _ _ hm (hk _)
  · exact FailStop_of_quiet _ hm

/-- A contract call whose failure returns the paired code keeps `FailStop`. -/
theorem FailStop_call (c : VmCall) (b : Bool) (code : LauncherExitCodes)
    (hc : failureCode c = some code) (k : Run) (hk : FailStop k) :
    FailStop (Run.after [.vm c b] (if !b then ⟨[], .returned code⟩ else k)) := by
  cases b with
  | false =>
    intro pre post c' code' htr hc'
    simp only [Run.after, Bool.not_false, if_true, List.append_nil] at htr ⊢
    cases pre with
    | nil =>
      simp only [List.nil_append, List.cons.injEq, Event.vm.injEq] at htr
      obtain ⟨⟨hcc, -⟩, hpost⟩ := htr
      subst hcc
      rw [hc] at hc'
      exact ⟨hpost.symm, by simp_all⟩
    | cons y pre => simp at htr
  | true =>
    intro pre post c' code' htr hc'
    simp only [Bool.not_true, Bool.false_eq_true, if_false] at htr ⊢
    have hx : Event.vm c' false ∉ [Event.vm c true] := by simp
    obtain ⟨mid, -, hmid⟩ := split_after_prefix hx htr
    exact hk mid post c' code' hmid hc'

theorem FailStop_ite {c : Prop} [Decidable c] {a b : Run} (ha : FailStop a) (hb : FailStop b) :
    FailStop (if c then a else b) := by
  split_ifs
  · exact ha
  · exact hb

theorem FailStop_launchAndServe (env : Env) (config : CuttlefishConfig) (p : SharedFD) :
    FailStop (launchAndServe env config p) := by
  unfold launchAndServe
  refine FailStop_after _ _ (quiet_LaunchKernelLogMonitor _ _ _) ?_
  refine FailStop_andThen _ _ (quiet_LaunchUsbServerIfEnabled _ _) fun _ => ?_
  refine FailStop_after _ _ (quiet_LaunchIvServer _ _) ?_
  refine FailStop_after _ _ rfl ?_
  refine FailStop_call .Start env.start _ rfl _ ?_
  refine FailStop_after _ _ (quiet_LaunchSocketForwardProxyIfEnabled _) ?_
  refine FailStop_after _ _ (quiet_LaunchVNCServerIfEnabled _) ?_
  refine FailStop_after _ _ (quiet_LaunchAdbConnectorIfEnabled _) ?_
  exact FailStop_of_quiet _ (quiet_ServerLoop _)

theorem FailStop_monitorAndLaunch (env : Env) (flags : Flags) (config : CuttlefishConfig) :
    FailStop (monitorAndLaunch env flags config) := by
  unfold monitorAndLaunch
  simp only
  refine FailStop_after _ _ rfl ?_
  refine FailStop_ite (FailStop_of_quiet _ rfl) (FailStop_ite ?_ ?_)
  · refine FailStop_andThen _ _ (quiet_DaemonizeLauncher _ _) fun pipe => ?_
    exact FailStop_ite (FailStop_of_quiet _ rfl) (FailStop_launchAndServe _ _ _)
  · refine FailStop_after _ _ rfl ?_
    refine FailStop_ite ?_ (FailStop_launchAndServe _ _ _)
    refine FailStop_after _ _ rfl ?_
    exact FailStop_ite (FailStop_of_quiet _ rfl) (FailStop_launchAndServe _ _ _)

theorem FailStop_validateAndLaunch (env : Env) (flags : Flags) (config : CuttlefishConfig) :
    FailStop (validateAndLaunch env flags config) := by
  unfold validateAndLaunch
  simp only
  refine FailStop_call .ValidateHostConfiguration _ _ rfl _ ?_
  refine FailStop_call .EnsureInstanceDirExists _ _ rfl _ ?_
  refine FailStop_call .CleanPriorFiles _ _ rfl _ ?_
  refine FailStop_after _ _ (quiet_UnpackBootImage _ _ _) ?_
  refine FailStop_ite (FailStop_of_quiet _ rfl) ?_
  refine FailStop_after _ _ (quiet_WriteCuttlefishEnvironment _ _) ?_
  refine FailStop_after _ _ rfl ?_
  refine FailStop_ite (FailStop_of_quiet _ rfl) ?_
  refine FailStop_after _ _ rfl ?_
  exact FailStop_ite (FailStop_of_quiet _ rfl) (FailStop_monitorAndLaunch _ _ _)

theorem FailStop_main (env : Env) : FailStop (main env) := by
  unfold main
  simp only
  refine FailStop_after _ _ (quiet_ParseCommandLineFlags _) ?_
  refine FailStop_ite (FailStop_of_quiet _ rfl) ?_
  split
  · exact FailStop_of_quiet _ rfl
  · exact FailStop_validateAndLaunch _ _ _

theorem StartGuarded_of_not_mem (r : Run) (h : ∀ b, Event.vm .Start b ∉ r.trace) :
    StartGuarded r := by
  intro pre post b htr
  have := h b
  rw [htr] at this
  exact absurd (by simp) this

theorem StartGuarded_of_quiet (r : Run) (h : quiet r.trace = true) : StartGuarded r :=
  StartGuarded_of_not_mem r fun _ => not_mem_of_quiet h rfl

theorem StartGuarded_after (l : List Event) (k : Run) (hl : quiet l = true)
    (hk : StartGuarded k) : StartGuarded (Run.after l k) := by
  intro pre post b htr
  obtain ⟨mid, hpre, hmid⟩ := split_after_prefix (not_mem_of_quiet hl (e := .vm .Start b) rfl) htr
  obtain ⟨h1, h2, h3⟩ := hk mid post b hmid
  subst hpre
  exact ⟨List.mem_append_right _ h1, List.mem_append_right _ h2, List.mem_append_right _ h3⟩

theorem StartGuarded_validateAndLaunch (env : Env) (flags : Flags) (config : CuttlefishConfig) :
    StartGuarded (validateAndLaunch env flags config) := by
  cases hv : env.validate_host_configuration with
  | false =>
    refine StartGuarded_of_not_mem _ fun b => ?_
    simp [validateAndLaunch, hv, Run.after]
  | true =>
    cases he : env.ensure_instance_dir_exists with
    | false =>
      refine StartGuarded_of_not_mem _ fun b => ?_
      simp [validateAndLaunch, hv, he, Run.after]
    | true =>
      cases hc : env.clean_prior_files with
      | false =>
        refine StartGuarded_of_not_mem _ fun b => ?_
        simp [validateAndLaunch, hv, he, hc, Run.after]
      | true =>
        intro pre post b htr
        simp only [validateAndLaunch, hv, he, hc, Run.after, Bool.not_true, Bool.false_eq_true,
          if_false, List.singleton_append] at htr
        have hx : Event.vm .Start b ∉ [Event.vm .ValidateHostConfiguration true,
            Event.vm .EnsureInstanceDirExists true, Event.vm .CleanPriorFiles true] := by simp
        obtain ⟨mid, hpre, -⟩ := split_after_prefix (l := [Event.vm .ValidateHostConfiguration true,
            Event.vm .EnsureInstanceDirExists true, Event.vm .CleanPriorFiles true]) hx htr
        subst hpre
        simp

theorem StartGuarded_main (env : Env) : StartGuarded (main env) := by
  unfold main
  simp only
  refine StartGuarded_after _ _ (quiet_ParseCommandLineFlags _) ?_
  split_ifs
  · exact StartGuarded_of_quiet _ rfl
  · split
    · exact StartGuarded_of_quiet _ rfl
    · exact StartGuarded_validateAndLaunch _ _ _

/-- C9: in every run of `main`, whichever backend the flags select, a call of the
backend's `Start` comes only after `ValidateHostConfiguration`,
`EnsureInstanceDirExists` and `CleanPriorFiles` were each called earlier in the
same run and returned true. -/
theorem main_Start_after_validation (env : Env) (pre post : List Event) (b : Bool)
    (h : (main env).trace = pre ++ .vm .Start b :: post) :
    .vm .ValidateHostConfiguration true ∈ pre ∧ .vm .EnsureInstanceDirExists true ∈ pre
      ∧ .vm .CleanPriorFiles true ∈ pre :=
  StartGuarded_main env pre post b h

/-- Instance of the guard on `Start` in the default run, whose thirtieth call is
`Start`. -/
theorem main_Start_after_validation_default :
    Event.vm .ValidateHostConfiguration true ∈ (main defaultEnv).trace.take 29
      ∧ Event.vm .EnsureInstanceDirExists true ∈ (main defaultEnv).trace.take 29
      ∧ Event.vm .CleanPriorFiles true ∈ (main defaultEnv).trace.take 29 :=
  main_Start_after_validation defaultEnv ((main defaultEnv).trace.take 29)
    ((main defaultEnv).trace.drop 30) true (by rfl)

/-- C10: in every run of `main`, a call of `ValidateHostConfiguration`,
`EnsureInstanceDirExists`, `CleanPriorFiles` or `Start` that returns false is
the last call of the run, and `main` returns `kInvalidHostConfiguration`,
`kInstanceDirCreationError`, `kPrioFilesCleanupError` respectively
`kVMCreationError`; the four codes are pairwise different. -/
theorem main_contract_failure_aborts (env : Env) (pre post : List Event) :
    ((main env).trace = pre ++ .vm .ValidateHostConfiguration false :: post →
        post = [] ∧ (main env).outcome = .returned .kInvalidHostConfiguration)
    ∧ ((main env).trace = pre ++ .vm .EnsureInstanceDirExists false :: post →
        post = [] ∧ (main env).outcome = .returned .kInstanceDirCreationError)
    ∧ ((main env).trace = pre ++ .vm .CleanPriorFiles false :: post →
        post = [] ∧ (main env).outcome = .returned .kPrioFilesCleanupError)
    ∧ ((main env).trace = pre ++ .vm .Start false :: post →
        post = [] ∧ (main env).outcome = .returned .kVMCreationError)
    ∧ List.Pairwise (fun a b : LauncherExitCodes => a ≠ b)
        [.kInvalidHostConfiguration, .kInstanceDirCreationError, .kPrioFilesCleanupError,
         .kVMCreationError] :=
  ⟨fun h => FailStop_main env pre post _ _ h rfl,
   fun h => FailStop_main env pre post _ _ h rfl,
   fun h => FailStop_main env pre post _ _ h rfl,
   fun h => FailStop_main env pre post _ _ h rfl,
   by decide⟩

/-- Instances of the four failures on the default host. -/
theorem main_contract_failure_aborts_examples :
    (main { defaultEnv with validate_host_configuration := false }).outcome
        = .returned .kInvalidHostConfiguration
    ∧ (main { defaultEnv with ensure_instance_dir_exists := false }).outcome
        = .returned .kInstanceDirCreationError
    ∧ (main { defaultEnv with clean_prior_files := false }).outcome
        = .returned .kPrioFilesCleanupError
    ∧ (main { defaultEnv with start := false }).outcome = .returned .kVMCreationError :=
  ⟨((main_contract_failure_aborts { defaultEnv with validate_host_configuration := false }
        [] []).1 (by rfl)).2,
   ((main_contract_failure_aborts { defaultEnv with ensure_instance_dir_exists := false }
        [.vm .ValidateHostConfiguration true] []).2.1 (by rfl)).2,
   ((main_contract_failure_aborts { defaultEnv with clean_prior_files := false }
        [.vm .ValidateHostConfiguration true, .vm .EnsureInstanceDirExists true] []).2.2.1
        (by rfl)).2,
   ((main_contract_failure_aborts { defaultEnv with start := false }
        ((main { defaultEnv with start := false }).trace.take 29) []).2.2.2.1 (by rfl)).2⟩

/-! ## Host validation and the data image policy -/

/-- C18: when the user is not a member of the group, `UserInGroup` returns false
and leaves the list with exactly the two entries "# Add your user to the
<group> group:" and "sudo usermod -aG <group> $USER" appended, in that order,
after the unchanged earlier entries; when the user is a member it returns true
and leaves the list as it was. -/
theorem UserInGroup_commands (InGroup : String → Bool) (group : String)
    (config_commands : List String) :
    (InGroup group = false →
      UserInGroup InGroup group config_commands =
        (false, config_commands ++ ["# Add your user to the " ++ group ++ " group:",
                                    "sudo usermod -aG " ++ group ++ " $USER"]))
    ∧ (InGroup group = true →
      UserInGroup InGroup group config_commands = (true, config_commands)) := by
  constructor
  · intro h
    simp [UserInGroup, h]
  · intro h
    simp [UserInGroup, h]

/-- Instance of the remediation commands for the group `kvm`, and of a member. -/
theorem UserInGroup_commands_example :
    UserInGroup (fun _ => false) "kvm" ["first"] =
        (false, ["first", "# Add your user to the kvm group:", "sudo usermod -aG kvm $USER"])
    ∧ UserInGroup (fun _ => true) "kvm" ["first"] = (true, ["first"]) :=
  ⟨(UserInGroup_commands (fun _ => false) "kvm" ["first"]).1 rfl,
   (UserInGroup_commands (fun _ => true) "kvm" ["first"]).2 rfl⟩

/-- C20: `ApplyDataImagePolicy` returns true exactly when the policy is
`use_existing` with an existing image and `blank_data_image_mb <= 0`, or
`always_create` with `blank_data_image_mb > 0`, or `create_if_missing` with an
existing image or `blank_data_image_mb > 0`; any other policy gives false.  The
commands it runs are the removal of the image exactly under `always_create`
with an existing image, followed by the creation of a blank image exactly when
it returns true under `always_create` or under `create_if_missing` with a
missing image. -/
theorem ApplyDataImagePolicy_policies (flags : Flags) (data_exists : Bool)
    (data_image : String) :
    ((ApplyDataImagePolicy flags data_exists data_image).2 = true ↔
        (flags.data_policy = "use_existing" ∧ data_exists = true
          ∧ flags.blank_data_image_mb ≤ 0)
        ∨ (flags.data_policy = "always_create" ∧ flags.blank_data_image_mb > 0)
        ∨ (flags.data_policy = "create_if_missing"
          ∧ (data_exists = true ∨ flags.blank_data_image_mb > 0)))
    ∧ (ApplyDataImagePolicy flags data_exists data_image).1 =
        (if flags.data_policy = "always_create" ∧ data_exists = true
          then RemoveFile data_image else [])
        ++ (if (ApplyDataImagePolicy flags data_exists data_image).2 = true
              ∧ (flags.data_policy = "always_create"
                ∨ (flags.data_policy = "create_if_missing" ∧ data_exists = false))
            then CreateBlankImage data_image flags.blank_data_image_mb
              flags.blank_data_image_fmt
            else []) := by
  have d1 : kDataPolicyUseExisting = "use_existing" := rfl
  have d2 : kDataPolicyAlwaysCreate = "always_create" := rfl
  have d3 : kDataPolicyCreateIfMissing = "create_if_missing" := rfl
  have n12 : ("use_existing" : String) ≠ "always_create" := by decide
  have n13 : ("use_existing" : String) ≠ "create_if_missing" := by decide
  have n23 : ("always_create" : String) ≠ "create_if_missing" := by decide
  unfold ApplyDataImagePolicy
  rw [d1, d2, d3]
  by_cases h1 : flags.data_policy = "use_existing"
  · cases data_exists <;> by_cases hmb : flags.blank_data_image_mb > 0 <;>
      simp [h1, hmb, n12, n13] <;> omega
  · by_cases h2 : flags.data_policy = "always_create"
    · cases data_exists <;> by_cases hmb : flags.blank_data_image_mb ≤ 0 <;>
        simp [h2, hmb, n12.symm, n23] <;> omega
    · by_cases h3 : flags.data_policy = "create_if_missing"
      · cases data_exists <;> by_cases hmb : flags.blank_data_image_mb ≤ 0 <;>
          simp [h3, hmb, n13.symm, n23.symm] <;> omega
      · simp [h1, h2, h3]

/-! ## Traces free of a kind of call -/

theorem free_append (p : Event → Bool) (a b : List Event) :
    free p (a ++ b) = (free p a && free p b) := by
  simp [free, List.all_append]

theorem free_cons (p : Event → Bool) (e : Event) (l : List Event) :
    free p (e :: l) = (!p e && free p l) := by
  simp [free]

theorem free_nil (p : Event → Bool) : free p [] = true := rfl

theorem not_mem_of_free {p : Event → Bool} {l : List Event} (h : free p l = true) {e : Event}
    (he : p e = true) : e ∉ l := by
  intro hmem
  simp only [free, List.all_eq_true] at h
  have := h e hmem
  simp [he] at this

theorem isLate_of_isBringUp {e : Event} (h : e.isBringUp = true) : e.isLate = true := by
  cases e <;> simp_all [Event.isLate, Event.isBringUp]

theorem free_isBringUp_of_isLate {l : List Event} (h : free Event.isLate l = true) :
    free Event.isBringUp l = true := by
  simp only [free, List.all_eq_true, Bool.not_eq_true'] at h ⊢
  intro e he
  cases hb : e.isBringUp with
  | false => rfl
  | true =>
    have hl := h e he
    rw [isLate_of_isBringUp hb] at hl
    exact absurd hl (by simp)

theorem bringUp_append (a b : List Event) : bringUp (a ++ b) = bringUp a ++ bringUp b := by
  simp [bringUp]

theorem bringUp_eq_nil {l : List Event} (h : free Event.isBringUp l = true) : bringUp l = [] := by
  simp only [free, List.all_eq_true] at h
  simp only [bringUp, List.filter_eq_nil_iff]
  intro e he
  simpa using h e he

theorem bringUp_eq_nil_of_isLate {l : List Event} (h : free Event.isLate l = true) :
    bringUp l = [] :=
  bringUp_eq_nil (free_isBringUp_of_isLate h)

/-! ### Before the launches: no bring-up step, no call of the control loop -/

theorem calm_ApplyDataImagePolicy (flags : Flags) (d : Bool) (i : String) :
    free Event.isLate (ApplyDataImagePolicy flags d i).1 = true := by
  unfold ApplyDataImagePolicy
  simp only
  split
  · rfl
  · split_ifs <;> rfl

theorem calm_ParseCommandLineFlags (env : Env) :
    free Event.isLate (ParseCommandLineFlags env).1 = true := by
  unfold ParseCommandLineFlags ResolveInstanceFiles
  simp only
  split_ifs <;> first | rfl | exact calm_ApplyDataImagePolicy _ _ _

theorem calm_UnpackBootImage (env : Env) (flags : Flags) (config : CuttlefishConfig) :
    free Event.isLate (UnpackBootImage env flags config).1 = true := by
  unfold UnpackBootImage
  simp only
  split_ifs <;> rfl

theorem calm_WriteCuttlefishEnvironment (env : Env) (config : CuttlefishConfig) :
    free Event.isLate (WriteCuttlefishEnvironment env config).1 = true := by
  unfold WriteCuttlefishEnvironment SharedFD.release
  simp only
  split_ifs <;> rfl

theorem calm_monitorLoop (sz : Int) (reads : List PipeRead) :
    free Event.isLate (monitorLoop sz reads).trace = true := by
  induction reads with
  | nil => rfl
  | cons r rest ih =>
    unfold monitorLoop
    simp only [Run.after]
    split_ifs <;> simp [free_cons, free_nil, Event.isLate, Event.isBringUp, ih]

theorem calm_DaemonizeLauncher (env : Env) (config : CuttlefishConfig) :
    free Event.isLate (DaemonizeLauncher env config).trace = true := by
  unfold DaemonizeLauncher SharedFD.release
  simp only
  split_ifs <;>
    simp [free_append, free_cons, free_nil, Event.isLate, Event.isBringUp, calm_monitorLoop]

/-! ### The control loop: no bring-up step -/

theorem bringUp_free_StopCvd (sys : StopSys) :
    free Event.isBringUp (StopCvd sys).trace = true := by
  unfold StopCvd
  simp only
  split_ifs <;> rfl

theorem bringUp_free_serveClient (reads : List ClientRead) :
    free Event.isBringUp (serveClient reads).trace = true := by
  induction reads with
  | nil => rfl
  | cons r rest ih =>
    unfold serveClient
    have hs := bringUp_free_StopCvd r.sys
    split_ifs
    · split
      · simp only []
        split <;> simp_all [free_append, free_cons, free_nil, Event.isBringUp]
      · simp [free_cons, Event.isBringUp, ih]
    · rfl

theorem bringUp_free_ServerLoop (conns : List Connection) :
    free Event.isBringUp (ServerLoop conns).trace = true := by
  induction conns with
  | nil => rfl
  | cons c rest ih =>
    unfold ServerLoop
    have hs := bringUp_free_serveClient c.reads
    split_ifs
    · simp only
      split <;> simp_all [Run.after, free_append, free_cons, free_nil, Event.isBringUp]
    · simp [Run.after, free_cons, Event.isBringUp, ih]

/-! ### Outside daemon mode and the control loop: no pipe, no fork -/

theorem Run.after_nil (k : Run) : Run.after [] k = k := rfl

theorem Run.after_after (a b : List Event) (k : Run) :
    Run.after a (Run.after b k) = Run.after (a ++ b) k := by
  simp [Run.after]

theorem andThen_ret {α : Type} (m : Exec α) (k : α → Run) (a : α) (h : m.result = .ret a) :
    m.andThen k = Run.after m.trace (k a) := by
  simp [Exec.andThen, h]

theorem andThen_halt {α : Type} (m : Exec α) (k : α → Run) (o : Outcome)
    (h : m.result = .halt o) : m.andThen k = ⟨m.trace, o⟩ := by
  simp [Exec.andThen, h]

theorem IsOpen_eq_false_iff (fd : Int) : (SharedFD.mk fd).IsOpen = false ↔ fd < 0 := by
  simp [SharedFD.IsOpen]

theorem IsOpen_eq_true_iff (fd : Int) : (SharedFD.mk fd).IsOpen = true ↔ 0 ≤ fd := by
  simp [SharedFD.IsOpen]

/-- How `DaemonizeLauncher` ends, by the answers it gets. -/
theorem DaemonizeLauncher_result (env : Env) (config : CuttlefishConfig) :
    (env.pipe_ok = false → (DaemonizeLauncher env config).result = .ret ⟨-1⟩)
    ∧ (env.pipe_ok = true → env.daemon_fork_pid ≠ 0 →
        (DaemonizeLauncher env config).result
          = .halt (monitorLoop env.sizeof_evt env.boot_reads).outcome)
    ∧ (env.pipe_ok = true → env.daemon_fork_pid = 0 →
        (env.daemon_ret ≠ 0 ∨ env.log_fd < 0 ∨ env.dev_null_fd < 0 ∨ env.dup2_stdin < 0
          ∨ env.dup2_stdout < 0 ∨ env.dup2_stderr < 0) →
        (DaemonizeLauncher env config).result = .halt (.exited .kDaemonizationError))
    ∧ (env.pipe_ok = true → env.daemon_fork_pid = 0 →
        ¬ (env.daemon_ret ≠ 0 ∨ env.log_fd < 0 ∨ env.dev_null_fd < 0 ∨ env.dup2_stdin < 0
          ∨ env.dup2_stdout < 0 ∨ env.dup2_stderr < 0) →
        (DaemonizeLauncher env config).result = .ret ⟨env.pipe_write_fd⟩) := by
  refine ⟨fun h => ?_, fun h hp => ?_, fun h hp hf => ?_, fun h hp hf => ?_⟩
  · simp [DaemonizeLauncher, h]
  · simp [DaemonizeLauncher, h, hp]
  · unfold DaemonizeLauncher
    simp only [h, hp, SharedFD.IsOpen]
    split_ifs <;> simp_all <;> omega
  · unfold DaemonizeLauncher
    simp only [h, hp, SharedFD.IsOpen]
    split_ifs <;> simp_all

theorem monitorAndLaunch_end (env : Env) (flags : Flags) (config : CuttlefishConfig)
    (hd : flags.daemon = env.flags.daemon) :
    (∀ o, monitorEnd env flags = some o →
      (monitorAndLaunch env flags config).outcome = o
        ∧ free Event.isLate (monitorAndLaunch env flags config).trace = true)
    ∧ (monitorEnd env flags = none →
      monitorAndLaunch env flags config =
        Run.after (monitorTrace env flags config) (launchAndServe env config (launchPipe env))) := by
  have hcalm := calm_DaemonizeLauncher env config
  obtain ⟨hD1, hD2, hD3, hD4⟩ := DaemonizeLauncher_result env config
  unfold monitorAndLaunch monitorEnd monitorTrace launchPipe
  rw [← hd]
  by_cases hfd : env.launcher_monitor_fd < 0
  · have hopen : (SharedFD.mk env.launcher_monitor_fd).IsOpen = false :=
      (IsOpen_eq_false_iff _).mpr hfd
    simp [hfd, hopen, Run.after, free, Event.isLate, Event.isBringUp]
  · have hopen : (SharedFD.mk env.launcher_monitor_fd).IsOpen = true :=
      (IsOpen_eq_true_iff _).mpr (by omega)
    simp only [hfd, hopen, if_false, Bool.not_true, Bool.false_eq_true]
    cases hdm : flags.daemon with
    | true =>
      simp only [if_true]
      cases hp : env.pipe_ok with
      | false =>
        rw [andThen_ret _ _ _ (hD1 hp)]
        simp [Run.after, free_append, free_cons, free_nil, hcalm, Event.isLate,
          Event.isBringUp, SharedFD.IsOpen]
      | true =>
        by_cases hpid : env.daemon_fork_pid = 0
        · by_cases hfail : (env.daemon_ret ≠ 0 ∨ env.log_fd < 0 ∨ env.dev_null_fd < 0
              ∨ env.dup2_stdin < 0 ∨ env.dup2_stdout < 0 ∨ env.dup2_stderr < 0)
          · rw [andThen_halt _ _ _ (hD3 hp hpid hfail)]
            simp [Run.after, free_append, free_cons, free_nil, hcalm, Event.isLate,
              Event.isBringUp, hpid, hfail]
          · rw [andThen_ret _ _ _ (hD4 hp hpid hfail)]
            by_cases hw : env.pipe_write_fd < 0
            · have hwo : (SharedFD.mk env.pipe_write_fd).IsOpen = false :=
                (IsOpen_eq_false_iff _).mpr hw
              simp [Run.after, free_append, free_cons, free_nil, hcalm, Event.isLate,
                Event.isBringUp, hpid, hfail, hw, hwo]
            · have hwo : (SharedFD.mk env.pipe_write_fd).IsOpen = true :=
                (IsOpen_eq_true_iff _).mpr (by omega)
              simp [Run.after, hpid, hfail, hw, hwo]
        · rw [andThen_halt _ _ _ (hD2 hp hpid)]
          simp [Run.after, free_append, free_cons, free_nil, hcalm, Event.isLate,
            Event.isBringUp, hpid]
    | false =>
      simp only [Bool.false_eq_true, if_false]
      cases hs : env.getsid_is_getpid with
      | true => simp [Run.after]
      | false =>
        by_cases hr : env.setpgid_ret = 0
        · simp [Run.after, hr]
        · simp [Run.after, hr, free, Event.isLate, Event.isBringUp]

theorem validateAndLaunch_end (env : Env) (flags : Flags) (config : CuttlefishConfig)
    (hd : flags.daemon = env.flags.daemon) :
    (∀ o, validateEnd env flags config = some o →
      (validateAndLaunch env flags config).outcome = o
        ∧ free Event.isLate (validateAndLaunch env flags config).trace = true)
    ∧ (validateEnd env flags config = none →
      validateAndLaunch env flags config =
        Run.after (validateTrace env flags config)
          (launchAndServe env config (launchPipe env))) := by
  obtain ⟨hM1, hM2⟩ := monitorAndLaunch_end env flags config hd
  have hU := calm_UnpackBootImage env flags config
  have hW := calm_WriteCuttlefishEnvironment env config
  unfold validateAndLaunch validateEnd validateTrace
  simp only
  cases hv : env.validate_host_configuration with
  | false => simp [Run.after, free, Event.isLate, Event.isBringUp]
  | true =>
    cases he : env.ensure_instance_dir_exists with
    | false => simp [Run.after, free, Event.isLate, Event.isBringUp]
    | true =>
      cases hc : env.clean_prior_files with
      | false => simp [Run.after, free, Event.isLate, Event.isBringUp]
      | true =>
        cases hu : (UnpackBootImage env flags config).2 with
        | false =>
          simp [Run.after, free_append, free_cons, free_nil, hU, Event.isLate,
            Event.isBringUp]
        | true =>
          cases hs : env.save_to_file with
          | false =>
            simp [Run.after, free_append, free_cons, free_nil, hU, hW, Event.isLate,
              Event.isBringUp]
          | true =>
            by_cases hl : env.symlink_ret = 0
            · simp only [Bool.not_true, Bool.false_eq_true, if_false, hl, ne_eq,
                not_true_eq_false]
              constructor
              · intro o ho
                obtain ⟨h1, h2⟩ := hM1 o ho
                refine ⟨by simpa [Run.after] using h1, ?_⟩
                simp [Run.after, free_append, free_cons, free_nil, hU, hW, h2, Event.isLate,
                  Event.isBringUp]
              · intro hn
                rw [hM2 hn]
                simp [Run.after]
            · simp [Run.after, free_append, free_cons, free_nil, hU, hW, hl, Event.isLate,
                Event.isBringUp]

theorem ParseCommandLineFlags_daemon (env : Env) :
    (ParseCommandLineFlags env).2.2.daemon = env.flags.daemon := by
  unfold ParseCommandLineFlags ResolveInstanceFiles
  simp only
  split_ifs <;> rfl

/-- The shape of a run of `main`: it ends on the first check that fails before
the launches, having made no bring-up step and no call of the control loop, or
it makes the calls of `setupTrace` and goes on with the launches. -/
theorem main_setup (env : Env) :
    (∀ o, setupEnd env = some o →
      (main env).outcome = o ∧ free Event.isLate (main env).trace = true)
    ∧ (setupEnd env = none →
      ∃ config, InitializeCuttlefishConfiguration env (ParseCommandLineFlags env).2.2
          = some config
        ∧ main env = Run.after (setupTrace env config)
            (launchAndServe env config (launchPipe env))) := by
  have hP := calm_ParseCommandLineFlags env
  unfold main setupEnd setupTrace
  simp only
  cases hp : (ParseCommandLineFlags env).2.1 with
  | false => simp [Run.after, hP]
  | true =>
    simp only [Bool.not_true, Bool.false_eq_true, if_false]
    cases hc : InitializeCuttlefishConfiguration env (ParseCommandLineFlags env).2.2 with
    | none => simp [Run.after, hP]
    | some config =>
      obtain ⟨hV1, hV2⟩ := validateAndLaunch_end env (ParseCommandLineFlags env).2.2 config
        (ParseCommandLineFlags_daemon env)
      simp only
      constructor
      · intro o ho
        obtain ⟨h1, h2⟩ := hV1 o ho
        exact ⟨by simpa [Run.after] using h1, by simp [Run.after, free_append, hP, h2]⟩
      · intro hn
        refine ⟨config, rfl, ?_⟩
        rw [hV2 hn]
        simp [Run.after]

/-! ## The launches -/

/-- How `LaunchUsbServerIfEnabled` ends, by the answers it gets. -/
theorem LaunchUsbServerIfEnabled_result (env : Env) (config : CuttlefishConfig) :
    (AdbUsbEnabled env.flags = true ∧ (env.usb_v1_server_fd < 0 ∨ env.usb_v1_dup < 0) →
      (LaunchUsbServerIfEnabled env config).result = .halt (.exited .kUsbV1SocketError))
    ∧ (¬ (AdbUsbEnabled env.flags = true ∧ (env.usb_v1_server_fd < 0 ∨ env.usb_v1_dup < 0)) →
      (LaunchUsbServerIfEnabled env config).result = .ret ()) := by
  unfold LaunchUsbServerIfEnabled
  simp only [SharedFD.IsOpen]
  constructor
  · rintro ⟨hu, hf⟩
    split_ifs <;> simp_all
  · intro h
    split_ifs <;> simp_all

/-- The shape of the launches: they end in `LaunchUsbServerIfEnabled` when the usb
socket fails, else they go through the start of the VM. -/
theorem launchAndServe_shape (env : Env) (config : CuttlefishConfig) (pipe : SharedFD) :
    (AdbUsbEnabled env.flags = true ∧ (env.usb_v1_server_fd < 0 ∨ env.usb_v1_dup < 0) →
      launchAndServe env config pipe =
        ⟨LaunchKernelLogMonitor env config pipe ++ (LaunchUsbServerIfEnabled env config).trace,
          .exited .kUsbV1SocketError⟩)
    ∧ (¬ (AdbUsbEnabled env.flags = true ∧ (env.usb_v1_server_fd < 0 ∨ env.usb_v1_dup < 0)) →
      launchAndServe env config pipe =
        Run.after (beforeStart env config pipe ++ [.vm .Start env.start])
          (if !env.start then ⟨[], .returned .kVMCreationError⟩
           else Run.after (afterStart env) (ServerLoop env.connections))) := by
  obtain ⟨h1, h2⟩ := LaunchUsbServerIfEnabled_result env config
  unfold launchAndServe
  constructor
  · intro h
    rw [andThen_halt _ _ _ (h1 h)]
    simp [Run.after]
  · intro h
    rw [andThen_ret _ _ _ (h2 h)]
    cases env.start <;> simp [Run.after, beforeStart, afterStart]

theorem quiet_beforeStart (env : Env) (config : CuttlefishConfig) (pipe : SharedFD) :
    quiet (beforeStart env config pipe) = true := by
  simp [beforeStart, quiet_append, quiet_LaunchKernelLogMonitor,
    quiet_LaunchUsbServerIfEnabled, quiet_LaunchIvServer, quiet_cons, quiet_nil,
    Event.isLaunchCall]

theorem quiet_afterStart (env : Env) : quiet (afterStart env) = true := by
  simp [afterStart, quiet_append, quiet_LaunchSocketForwardProxyIfEnabled,
    quiet_LaunchVNCServerIfEnabled, quiet_LaunchAdbConnectorIfEnabled]

theorem AdbUsbEnabled_eq (flags : Flags) :
    AdbUsbEnabled flags = decide ("usb" ∈ StrSplit flags.adb_mode ',') := rfl

theorem AdbTunnelEnabled_eq (flags : Flags) :
    AdbTunnelEnabled flags = decide ("tunnel" ∈ StrSplit flags.adb_mode ',') := rfl

theorem GetGuestPortArg_eq : GetGuestPortArg = "--guest_ports=5555" := by decide

theorem bringUp_LaunchKernelLogMonitor (env : Env) (config : CuttlefishConfig)
    (pipe : SharedFD) :
    bringUp (LaunchKernelLogMonitor env config pipe) =
      [Stage.event env (if pipe.IsOpen then env.subscriber_dup else -1) .kernelLogMonitor] := by
  unfold LaunchKernelLogMonitor SharedFD.release
  simp only
  split_ifs <;> rfl

theorem bringUp_LaunchUsbServerIfEnabled (env : Env) (config : CuttlefishConfig)
    (h : ¬ (AdbUsbEnabled env.flags = true ∧ (env.usb_v1_server_fd < 0 ∨ env.usb_v1_dup < 0))) :
    bringUp (LaunchUsbServerIfEnabled env config).trace =
      if AdbUsbEnabled env.flags then [Stage.event env 0 .usbHelper] else [] := by
  unfold LaunchUsbServerIfEnabled SharedFD.release
  simp only [SharedFD.IsOpen]
  split_ifs <;> first | rfl | (exfalso; simp_all)

theorem bringUp_LaunchIvServer (env : Env) (config : CuttlefishConfig)
    (hm : config.mempath = env.mempath) :
    bringUp (LaunchIvServer env config) =
      [Stage.event env 0 .sharedMemoryFile, Stage.event env 0 .sharedMemoryServer] := by
  unfold LaunchIvServer CreateIvServerUnixSocket SharedFD.release
  simp only [hm]
  split_ifs <;> rfl

theorem bringUp_afterStart (env : Env) (subscriber_fd : Int) :
    bringUp (afterStart env) =
      ([Stage.socketForwardProxy, .vncServer, .adbConnector].filter
        (Stage.enabled env.flags)).map (Stage.event env subscriber_fd) := by
  unfold afterStart LaunchSocketForwardProxyIfEnabled LaunchVNCServerIfEnabled
    LaunchAdbConnectorIfEnabled AdbConnectorEnabled
  simp only [AdbTunnelEnabled_eq, GetGuestPortArg_eq, List.filter, Stage.enabled]
  cases decide ("tunnel" ∈ StrSplit env.flags.adb_mode ',') <;>
    cases env.flags.start_vnc_server <;> cases env.flags.run_adb_connector <;> rfl

theorem monitorEnd_none (env : Env) (flags : Flags) (hd : flags.daemon = env.flags.daemon)
    (h : monitorEnd env flags = none) : (launchPipe env).IsOpen = env.flags.daemon := by
  unfold monitorEnd at h
  unfold launchPipe
  rw [← hd]
  cases hdm : flags.daemon with
  | false => simp [SharedFD.IsOpen]
  | true =>
    simp only [hdm, if_true] at h
    split_ifs at h
    simp only [if_true, SharedFD.IsOpen, decide_eq_true_eq]
    omega

theorem validateEnd_none (env : Env) (flags : Flags) (config : CuttlefishConfig)
    (h : validateEnd env flags config = none) : monitorEnd env flags = none := by
  unfold validateEnd at h
  split_ifs at h
  exact h

theorem setupEnd_none (env : Env) (h : setupEnd env = none) :
    monitorEnd env (ParseCommandLineFlags env).2.2 = none := by
  unfold setupEnd at h
  split_ifs at h
  split at h
  · exact absurd h (by simp)
  · exact validateEnd_none _ _ _ h

theorem launchPipe_IsOpen (env : Env) (h : setupEnd env = none) :
    (launchPipe env).IsOpen = env.flags.daemon :=
  monitorEnd_none env _ (ParseCommandLineFlags_daemon env) (setupEnd_none env h)

theorem mempath_of_config (env : Env) (flags : Flags) (config : CuttlefishConfig)
    (h : InitializeCuttlefishConfiguration env flags = some config) :
    config.mempath = env.mempath := by
  unfold InitializeCuttlefishConfiguration at h
  split_ifs at h <;> (simp only [Option.some.injEq] at h; rw [← h])

theorem bringUp_beforeStart (env : Env) (config : CuttlefishConfig)
    (hm : config.mempath = env.mempath) (hs : setupEnd env = none)
    (hu : ¬ (AdbUsbEnabled env.flags = true ∧ (env.usb_v1_server_fd < 0 ∨ env.usb_v1_dup < 0))) :
    bringUp (beforeStart env config (launchPipe env)) =
      ([Stage.kernelLogMonitor, .usbHelper, .sharedMemoryFile, .sharedMemoryServer].filter
        (Stage.enabled env.flags)).map (Stage.event env (subscriberFd env)) := by
  unfold beforeStart
  rw [bringUp_append, bringUp_append, bringUp_append, bringUp_LaunchKernelLogMonitor,
    bringUp_LaunchUsbServerIfEnabled env config hu, bringUp_LaunchIvServer env config hm,
    launchPipe_IsOpen env hs, AdbUsbEnabled_eq]
  simp only [List.filter, Stage.enabled, subscriberFd]
  cases decide ("usb" ∈ StrSplit env.flags.adb_mode ',') <;> rfl


theorem calm_monitorTrace (env : Env) (flags : Flags) (config : CuttlefishConfig) :
    free Event.isLate (monitorTrace env flags config) = true := by
  unfold monitorTrace
  split_ifs <;>
    simp [free_append, free_cons, free_nil, calm_DaemonizeLauncher, Event.isLate,
      Event.isBringUp]

theorem calm_setupTrace (env : Env) (config : CuttlefishConfig) :
    free Event.isLate (setupTrace env config) = true := by
  simp [setupTrace, validateTrace, free_append, free_cons, free_nil,
    calm_ParseCommandLineFlags, calm_UnpackBootImage, calm_WriteCuttlefishEnvironment,
    calm_monitorTrace, Event.isLate, Event.isBringUp]

/-- A split of `l ++ x :: r` at an element that is neither in `l` nor in `r` is the
split at `x`. -/
theorem split_unique {l r pre post : List Event} {x y : Event} (hl : y ∉ l) (hr : y ∉ r)
    (h : l ++ x :: r = pre ++ y :: post) : pre = l ∧ x = y ∧ post = r := by
  obtain ⟨mid, hpre, hmid⟩ := split_after_prefix hl h
  cases mid with
  | nil =>
    simp only [List.nil_append, List.cons.injEq] at hmid
    exact ⟨by simp [hpre], hmid.1, hmid.2.symm⟩
  | cons m mid =>
    simp only [List.cons_append, List.cons.injEq] at hmid
    exact absurd (by rw [hmid.2]; simp) hr

theorem quiet_afterStartRun (env : Env) : quiet (afterStartRun env).trace = true := by
  unfold afterStartRun
  split_ifs
  · rfl
  · simp [Run.after, quiet_append, quiet_afterStart, quiet_ServerLoop]

/-- A run of `main` in which the VM is started is a run on which every check before
the start passes; it consists of the setup, the launches before the start, the
start, and what follows it. -/
theorem main_of_Start (env : Env) (b : Bool) (h : .vm .Start b ∈ (main env).trace) :
    ∃ config, InitializeCuttlefishConfiguration env (ParseCommandLineFlags env).2.2
        = some config
      ∧ setupEnd env = none
      ∧ ¬ (AdbUsbEnabled env.flags = true ∧ (env.usb_v1_server_fd < 0 ∨ env.usb_v1_dup < 0))
      ∧ b = env.start
      ∧ main env =
          Run.after (setupTrace env config ++ beforeStart env config (launchPipe env)
            ++ [.vm .Start env.start]) (afterStartRun env) := by
  obtain ⟨hS1, hS2⟩ := main_setup env
  cases hs : setupEnd env with
  | some o =>
    exact absurd h (not_mem_of_free (hS1 o hs).2 rfl)
  | none =>
    obtain ⟨config, hc, hm⟩ := hS2 hs
    obtain ⟨hL1, hL2⟩ := launchAndServe_shape env config (launchPipe env)
    have hsetup : Event.vm .Start b ∉ setupTrace env config :=
      not_mem_of_free (calm_setupTrace env config) rfl
    by_cases hu : AdbUsbEnabled env.flags = true
        ∧ (env.usb_v1_server_fd < 0 ∨ env.usb_v1_dup < 0)
    · rw [hm, hL1 hu] at h
      simp only [Run.after, List.mem_append] at h
      rcases h with h | h | h
      · exact absurd h hsetup
      · exact absurd h (not_mem_of_quiet (quiet_LaunchKernelLogMonitor _ _ _) rfl)
      · exact absurd h (not_mem_of_quiet (quiet_LaunchUsbServerIfEnabled _ _) rfl)
    · have hshape : main env =
          Run.after (setupTrace env config ++ beforeStart env config (launchPipe env)
            ++ [.vm .Start env.start]) (afterStartRun env) := by
        rw [hm, hL2 hu, Run.after_after, ← List.append_assoc]
        rfl
      refine ⟨config, hc, rfl, hu, ?_, hshape⟩
      rw [hshape] at h
      simp only [Run.after, List.mem_append, List.mem_singleton] at h
      rcases h with ((h | h) | h) | h
      · exact absurd h hsetup
      · exact absurd h (not_mem_of_quiet (quiet_beforeStart _ _ _) rfl)
      · simpa using h
      · exact absurd h (not_mem_of_quiet (quiet_afterStartRun env) rfl)

theorem bringUpOrder_filter (p : Stage → Bool) (hp : p .vmStart = true) :
    bringUpOrder.filter p =
      [Stage.kernelLogMonitor, .usbHelper, .sharedMemoryFile, .sharedMemoryServer].filter p
        ++ Stage.vmStart :: [Stage.socketForwardProxy, .vncServer, .adbConnector].filter p := by
  have : bringUpOrder =
      [Stage.kernelLogMonitor, .usbHelper, .sharedMemoryFile, .sharedMemoryServer]
        ++ ([Stage.vmStart] ++ [Stage.socketForwardProxy, .vncServer, .adbConnector]) := rfl
  rw [this, List.filter_append, List.filter_append]
  simp [hp]

/-- The bring-up steps of a run of `main` that starts the VM. -/
theorem bringUp_main (env : Env) (h : .vm .Start true ∈ (main env).trace) :
    bringUp (main env).trace =
      (bringUpOrder.filter (Stage.enabled env.flags)).map
        (Stage.event env (subscriberFd env)) := by
  obtain ⟨config, hc, hs, hu, hb, hm⟩ := main_of_Start env true h
  have hafter : afterStartRun env = Run.after (afterStart env) (ServerLoop env.connections) := by
    simp [afterStartRun, ← hb]
  rw [hm, hafter, bringUpOrder_filter _ rfl]
  simp only [Run.after, bringUp_append, List.map_append, List.map_cons]
  rw [bringUp_eq_nil_of_isLate (calm_setupTrace env config),
    bringUp_beforeStart env config (mempath_of_config env _ config hc) hs hu,
    bringUp_afterStart env (subscriberFd env),
    bringUp_eq_nil (bringUp_free_ServerLoop env.connections), ← hb]
  simp [bringUp, Event.isBringUp, Stage.event]

/-- C11: in every run of `main` in which the bring-up succeeds (the VM is
started), the bring-up steps, in the order of the run, are the fixed list
kernel-log monitor, usb helper, shared-memory file creation, shared-memory
server, VM start, socket-forward proxy, vnc server, adb connector filtered by
the predicates of `Stage.enabled` (usb helper iff "usb" is an item of
`adb_mode`, socket-forward proxy iff "tunnel" is one, vnc server iff
`start_vnc_server`, adb connector iff `run_adb_connector` and "tunnel" is an
item, the rest always), so a sublist of the fixed list in its order; with
`adb_mode` "usb" and the vnc server disabled they are the kernel-log monitor,
the usb helper, the shared-memory file, the shared-memory server and the start
of the VM. -/
theorem main_bring_up_sequence (env : Env) (h : .vm .Start true ∈ (main env).trace) :
    bringUp (main env).trace =
        (bringUpOrder.filter (Stage.enabled env.flags)).map
          (Stage.event env (subscriberFd env))
    ∧ (bringUp (main env).trace).Sublist
        (bringUpOrder.map (Stage.event env (subscriberFd env)))
    ∧ (env.flags.adb_mode = "usb" → env.flags.start_vnc_server = false →
        bringUp (main env).trace =
          [Stage.kernelLogMonitor, .usbHelper, .sharedMemoryFile, .sharedMemoryServer,
            .vmStart].map (Stage.event env (subscriberFd env))) := by
  have hb := bringUp_main env h
  refine ⟨hb, ?_, fun hmode hvnc => ?_⟩
  · rw [hb]
    exact (List.filter_sublist _).map _
  · rw [hb]
    have husb : decide ("usb" ∈ StrSplit "usb" ',') = true := by decide
    have htun : decide ("tunnel" ∈ StrSplit "usb" ',') = false := by decide
    simp [bringUpOrder, List.filter, Stage.enabled, hmode, hvnc, husb, htun]

/-- Instance of the bring-up sequence with `adb_mode` "usb" and no vnc server. -/
theorem main_bring_up_sequence_usb :
    bringUp (main { defaultEnv with
        flags := { defaultFlags with adb_mode := "usb", start_vnc_server := false } }).trace =
      [spawn defaultEnv ["/host/bin/kernel_log_monitor", "-log_server_fd=9",
          "-subscriber_fd=-1", "-config_file=/run/cvd/cuttlefish_config.json"],
       spawn defaultEnv ["/host/bin/virtual_usb_manager", "-usb_v1_fd=9",
          "-config_file=/run/cvd/cuttlefish_config.json"],
       .CreateSharedMemoryFile "/dev/shm/cvd-1" [("screen", 11079680)],
       spawn defaultEnv ["/host/bin/ivserver", "-qemu_socket_fd=9", "-client_socket_fd=10",
          "-config_file=/run/cvd/cuttlefish_config.json"],
       .vm .Start true] :=
  (main_bring_up_sequence
    { defaultEnv with
        flags := { defaultFlags with adb_mode := "usb", start_vnc_server := false } }
    (by decide)).2.2 rfl rfl

theorem spawns_bringUp (l : List Event) : spawns (bringUp l) = spawns l := by
  unfold spawns bringUp
  rw [List.filter_filter]
  congr 1
  funext e
  cases e <;> simp [Event.isSpawn, Event.isBringUp]

/-- C12, as stated, fails: with `adb_mode` "usb,tunnel" and the vnc server
enabled but `run_adb_connector` off, the bring-up succeeds and the adb connector
is not among the helpers spawned. -/
theorem adb_connector_not_spawned :
    .vm .Start true ∈ (main { defaultEnv with
        flags := { defaultFlags with adb_mode := "usb,tunnel",
                                     run_adb_connector := false } }).trace
    ∧ spawns (main { defaultEnv with
        flags := { defaultFlags with adb_mode := "usb,tunnel",
                                     run_adb_connector := false } }).trace =
      [spawn defaultEnv ["/host/bin/kernel_log_monitor", "-log_server_fd=9",
          "-subscriber_fd=-1", "-config_file=/run/cvd/cuttlefish_config.json"],
       spawn defaultEnv ["/host/bin/virtual_usb_manager", "-usb_v1_fd=9",
          "-config_file=/run/cvd/cuttlefish_config.json"],
       spawn defaultEnv ["/host/bin/ivserver", "-qemu_socket_fd=9", "-client_socket_fd=10",
          "-config_file=/run/cvd/cuttlefish_config.json"],
       spawn defaultEnv ["/host/bin/socket_forward_proxy", "--guest_ports=5555",
          "--host_ports=6520", "-config_file=/run/cvd/cuttlefish_config.json"],
       spawn defaultEnv ["/host/bin/vnc_server", "-port=6444",
          "-config_file=/run/cvd/cuttlefish_config.json"]]
    ∧ ∀ ok, Event.subprocess ["/host/bin/adb_connector", "--ports=6520"] ok ∉
        (main { defaultEnv with
          flags := { defaultFlags with adb_mode := "usb,tunnel",
                                       run_adb_connector := false } }).trace := by
  refine ⟨by decide, by rfl, fun ok => ?_⟩
  cases ok <;> decide

/-- C12, amended: with `adb_mode` "usb,tunnel", the vnc server enabled and
`run_adb_connector` set, a run of `main` in which the bring-up succeeds spawns
exactly the kernel-log monitor, the usb helper, the shared-memory server, the
socket-forward proxy, the vnc server and the adb connector, each once, in this
order, and no other helper. -/
theorem main_spawns_usb_tunnel (env : Env) (hmode : env.flags.adb_mode = "usb,tunnel")
    (hvnc : env.flags.start_vnc_server = true) (hadb : env.flags.run_adb_connector = true)
    (h : .vm .Start true ∈ (main env).trace) :
    spawns (main env).trace =
      [Stage.kernelLogMonitor, .usbHelper, .sharedMemoryServer, .socketForwardProxy,
        .vncServer, .adbConnector].map (Stage.event env (subscriberFd env)) := by
  have husb : decide ("usb" ∈ StrSplit "usb,tunnel" ',') = true := by decide
  have htun : decide ("tunnel" ∈ StrSplit "usb,tunnel" ',') = true := by decide
  rw [← spawns_bringUp, bringUp_main env h]
  simp [bringUpOrder, List.filter, Stage.enabled, hmode, hvnc, hadb, husb, htun, spawns,
    Stage.event, spawn, Event.isSpawn]

/-- Instance of the helpers spawned with `adb_mode` "usb,tunnel" on the default
host. -/
theorem main_spawns_usb_tunnel_default :
    spawns (main { defaultEnv with
        flags := { defaultFlags with adb_mode := "usb,tunnel" } }).trace =
      [spawn defaultEnv ["/host/bin/kernel_log_monitor", "-log_server_fd=9",
          "-subscriber_fd=-1", "-config_file=/run/cvd/cuttlefish_config.json"],
       spawn defaultEnv ["/host/bin/virtual_usb_manager", "-usb_v1_fd=9",
          "-config_file=/run/cvd/cuttlefish_config.json"],
       spawn defaultEnv ["/host/bin/ivserver", "-qemu_socket_fd=9", "-client_socket_fd=10",
          "-config_file=/run/cvd/cuttlefish_config.json"],
       spawn defaultEnv ["/host/bin/socket_forward_proxy", "--guest_ports=5555",
          "--host_ports=6520", "-config_file=/run/cvd/cuttlefish_config.json"],
       spawn defaultEnv ["/host/bin/vnc_server", "-port=6444",
          "-config_file=/run/cvd/cuttlefish_config.json"],
       spawn defaultEnv ["/host/bin/adb_connector", "--ports=6520"]] :=
  main_spawns_usb_tunnel
    { defaultEnv with flags := { defaultFlags with adb_mode := "usb,tunnel" } }
    rfl rfl rfl (by decide)

theorem spawn_LaunchKernelLogMonitor (env : Env) (config : CuttlefishConfig) (pipe : SharedFD)
    (argv : List String) (ok : Bool)
    (h : .subprocess argv ok ∈ LaunchKernelLogMonitor env config pipe) :
    argv.getLast? = some (GetConfigFileArg env) := by
  unfold LaunchKernelLogMonitor SharedFD.release at h
  simp only at h
  split_ifs at h <;> simp at h <;> simp [h.1]

theorem spawn_LaunchUsbServerIfEnabled (env : Env) (config : CuttlefishConfig)
    (argv : List String) (ok : Bool)
    (h : .subprocess argv ok ∈ (LaunchUsbServerIfEnabled env config).trace) :
    argv.getLast? = some (GetConfigFileArg env) := by
  unfold LaunchUsbServerIfEnabled SharedFD.release at h
  simp only at h
  split_ifs at h <;> simp at h <;> simp [h.1]

theorem spawn_LaunchIvServer (env : Env) (config : CuttlefishConfig)
    (argv : List String) (ok : Bool)
    (h : .subprocess argv ok ∈ LaunchIvServer env config) :
    argv.getLast? = some (GetConfigFileArg env) := by
  unfold LaunchIvServer CreateIvServerUnixSocket SharedFD.release at h
  simp only at h
  split_ifs at h <;> simp at h <;> simp [h.1]

theorem spawn_afterStart (env : Env) (argv : List String) (ok : Bool)
    (h : .subprocess argv ok ∈ afterStart env) :
    argv.getLast? = some (GetConfigFileArg env)
      ∨ argv = [env.flags.adb_connector_binary, GetAdbConnectorPortArg env] := by
  unfold afterStart LaunchSocketForwardProxyIfEnabled LaunchVNCServerIfEnabled
    LaunchAdbConnectorIfEnabled at h
  simp only [List.mem_append] at h
  rcases h with (h | h) | h <;> split_ifs at h <;> simp at h <;> simp [h.1]

/-- Every helper spawned by the launches is given the config file as its last
argument, but for the adb connector, which is given only its ports. -/
theorem spawn_launchAndServe (env : Env) (config : CuttlefishConfig) (pipe : SharedFD)
    (argv : List String) (ok : Bool)
    (h : .subprocess argv ok ∈ (launchAndServe env config pipe).trace) :
    argv.getLast? = some (GetConfigFileArg env)
      ∨ argv = [env.flags.adb_connector_binary, GetAdbConnectorPortArg env] := by
  obtain ⟨hL1, hL2⟩ := launchAndServe_shape env config pipe
  by_cases hu : AdbUsbEnabled env.flags = true
      ∧ (env.usb_v1_server_fd < 0 ∨ env.usb_v1_dup < 0)
  · rw [hL1 hu] at h
    simp only [List.mem_append] at h
    rcases h with h | h
    · exact Or.inl (spawn_LaunchKernelLogMonitor _ _ _ _ _ h)
    · exact Or.inl (spawn_LaunchUsbServerIfEnabled _ _ _ _ h)
  · rw [hL2 hu] at h
    simp only [Run.after, beforeStart, List.mem_append, List.mem_singleton] at h
    rcases h with ((((h | h) | h) | h) | h) | h
    · exact Or.inl (spawn_LaunchKernelLogMonitor _ _ _ _ _ h)
    · exact Or.inl (spawn_LaunchUsbServerIfEnabled _ _ _ _ h)
    · exact Or.inl (spawn_LaunchIvServer _ _ _ _ h)
    · exact absurd h (by simp)
    · exact absurd h (by simp)
    · split_ifs at h
      · exact absurd h (by simp)
      · simp only [Run.after, List.mem_append] at h
        rcases h with h | h
        · exact spawn_afterStart _ _ _ h
        · exact absurd h (not_mem_of_free (bringUp_free_ServerLoop env.connections) rfl)

/-- C19: in every run of `main`, a helper spawn, the creation of the
shared-memory file or the call of `Start` comes after the config object was
saved to the per-instance config file with success and the global symlink to
that file was made with success, nothing of the kind comes before; and a helper
is spawned with `-config_file=` and that same path as its last argument, but
for the adb connector, which is given no config file. -/
theorem main_config_saved_before_launch (env : Env) (e : Event)
    (he : e.isBringUp = true) (h : e ∈ (main env).trace) :
    ∃ pre post,
      (main env).trace = pre ++ .SaveToFile (GetConfigFile env) true
          :: .symlink (GetConfigFile env) env.config_link 0 :: post
      ∧ free Event.isBringUp pre = true
      ∧ e ∈ post
      ∧ ∀ argv ok, e = .subprocess argv ok →
          argv.getLast? = some ("-config_file=" ++ GetConfigFile env)
            ∨ argv = [env.flags.adb_connector_binary, GetAdbConnectorPortArg env] := by
  obtain ⟨hS1, hS2⟩ := main_setup env
  cases hs : setupEnd env with
  | some o =>
    exact absurd h (not_mem_of_free (hS1 o hs).2 (isLate_of_isBringUp he))
  | none =>
    obtain ⟨config, hc, hm⟩ := hS2 hs
    have hsetup : e ∉ setupTrace env config :=
      not_mem_of_free (calm_setupTrace env config) (isLate_of_isBringUp he)
    have hin : e ∈ (launchAndServe env config (launchPipe env)).trace := by
      rw [hm] at h
      simp only [Run.after, List.mem_append] at h
      exact h.resolve_left hsetup
    refine ⟨(ParseCommandLineFlags env).1
        ++ [.vm .ValidateHostConfiguration true, .vm .EnsureInstanceDirExists true,
            .vm .CleanPriorFiles true]
        ++ (UnpackBootImage env (ParseCommandLineFlags env).2.2 config).1
        ++ (WriteCuttlefishEnvironment env config).1,
      monitorTrace env (ParseCommandLineFlags env).2.2 config
        ++ (launchAndServe env config (launchPipe env)).trace, ?_, ?_, ?_, ?_⟩
    · rw [hm]
      simp [Run.after, setupTrace, validateTrace]
    · apply free_isBringUp_of_isLate
      simp [free_append, free_cons, free_nil, calm_ParseCommandLineFlags,
        calm_UnpackBootImage, calm_WriteCuttlefishEnvironment, Event.isLate, Event.isBringUp]
    · exact List.mem_append_right _ hin
    · intro argv ok hsub
      rw [hsub] at hin
      exact spawn_launchAndServe env config _ argv ok hin

/-- Instance of the config file saved before the launches: the spawn of the
shared-memory server in the default run. -/
theorem main_config_saved_before_launch_default :
    ∃ pre post,
      (main defaultEnv).trace = pre ++ .SaveToFile "/run/cvd/cuttlefish_config.json" true
          :: .symlink "/run/cvd/cuttlefish_config.json" defaultEnv.config_link 0 :: post
      ∧ free Event.isBringUp pre = true
      ∧ spawn defaultEnv ["/host/bin/ivserver", "-qemu_socket_fd=9", "-client_socket_fd=10",
          "-config_file=/run/cvd/cuttlefish_config.json"] ∈ post
      ∧ ∀ argv ok, spawn defaultEnv ["/host/bin/ivserver", "-qemu_socket_fd=9",
            "-client_socket_fd=10", "-config_file=/run/cvd/cuttlefish_config.json"]
            = .subprocess argv ok →
          argv.getLast? = some ("-config_file=" ++ GetConfigFile defaultEnv)
            ∨ argv = [defaultEnv.flags.adb_connector_binary,
                GetAdbConnectorPortArg defaultEnv] :=
  main_config_saved_before_launch defaultEnv
    (spawn defaultEnv ["/host/bin/ivserver", "-qemu_socket_fd=9", "-client_socket_fd=10",
      "-config_file=/run/cvd/cuttlefish_config.json"]) rfl (by decide)

/-! ## Daemon mode and the subscriber of the kernel-log monitor -/

theorem free_mono {p q : Event → Bool} (hpq : ∀ e, p e = true → q e = true)
    {l : List Event} (h : free q l = true) : free p l = true := by
  unfold free at *
  rw [List.all_eq_true] at *
  intro e he
  have hq := h e he
  cases hp : p e with
  | false => rfl
  | true => rw [hpq e hp] at hq; exact hq

theorem validate_free_of_quiet {l : List Event} (h : quiet l = true) :
    free Event.isValidate l = true := by
  have hq : free Event.isLaunchCall l = true := h
  refine free_mono (fun e he => ?_) hq
  cases e with
  | vm c r => cases c <;> first | rfl | exact absurd he (by simp [Event.isValidate])
  | _ => exact absurd he (by simp [Event.isValidate])

theorem validate_free_launchAndServe (env : Env) (config : CuttlefishConfig)
    (pipe : SharedFD) :
    free Event.isValidate (launchAndServe env config pipe).trace = true := by
  obtain ⟨hL1, hL2⟩ := launchAndServe_shape env config pipe
  have hK := validate_free_of_quiet (quiet_LaunchKernelLogMonitor env config pipe)
  have hU := validate_free_of_quiet (quiet_LaunchUsbServerIfEnabled env config)
  have hB := validate_free_of_quiet (quiet_beforeStart env config pipe)
  have hA := validate_free_of_quiet (quiet_afterStart env)
  have hL := validate_free_of_quiet (quiet_ServerLoop env.connections)
  by_cases hu : AdbUsbEnabled env.flags = true
      ∧ (env.usb_v1_server_fd < 0 ∨ env.usb_v1_dup < 0)
  · rw [hL1 hu]
    simp [free_append, hK, hU]
  · rw [hL2 hu]
    cases env.start <;>
      simp [Run.after, free_append, free_cons, free_nil, hB, hA, hL, Event.isValidate]

theorem validate_free_monitorAndLaunch (env : Env) (flags : Flags)
    (config : CuttlefishConfig) :
    free Event.isValidate (monitorAndLaunch env flags config).trace = true := by
  have hL := validate_free_launchAndServe env config
  have hD := validate_free_of_quiet (quiet_DaemonizeLauncher env config)
  unfold monitorAndLaunch Exec.andThen
  simp only [Run.after]
  split_ifs
  · simp [free_cons, free_nil, Event.isValidate]
  · split
    · split_ifs <;> simp [free_append, free_cons, free_nil, hL, hD, Event.isValidate]
    · simp [free_append, free_cons, free_nil, hD, Event.isValidate]
  all_goals simp [free_append, free_cons, free_nil, hL, Event.isValidate]

/-- A run of `validateAndLaunch` calls `ValidateHostConfiguration` first and never
again. -/
theorem validateAndLaunch_validates_once (env : Env) (flags : Flags)
    (config : CuttlefishConfig) :
    ∃ rest, (validateAndLaunch env flags config).trace =
        .vm .ValidateHostConfiguration env.validate_host_configuration :: rest
      ∧ free Event.isValidate rest = true
      ∧ (env.validate_host_configuration = false → rest = []) := by
  have hM := validate_free_monitorAndLaunch env flags config
  have hU := validate_free_of_quiet (quiet_UnpackBootImage env flags config)
  have hW := validate_free_of_quiet (quiet_WriteCuttlefishEnvironment env config)
  unfold validateAndLaunch
  simp only [Run.after, List.singleton_append]
  refine ⟨_, rfl, ?_, ?_⟩
  · split_ifs <;>
      simp [free_append, free_cons, free_nil, hM, hU, hW, Event.isValidate]
  · intro hv
    simp [hv]

theorem imageCommands_ApplyDataImagePolicy (flags : Flags) (d : Bool) (i : String) :
    (ApplyDataImagePolicy flags d i).1.all Event.isImageCommand = true := by
  unfold ApplyDataImagePolicy
  simp only
  split
  · rfl
  · split_ifs <;> rfl

theorem imageCommands_ParseCommandLineFlags (env : Env) :
    (ParseCommandLineFlags env).1.all Event.isImageCommand = true := by
  unfold ParseCommandLineFlags ResolveInstanceFiles
  simp only
  split_ifs <;> first | rfl | exact imageCommands_ApplyDataImagePolicy _ _ _

theorem ParseCommandLineFlags_use_existing (env : Env)
    (h : env.flags.data_policy = "use_existing") : (ParseCommandLineFlags env).1 = [] := by
  have hr : (resolvedFlags env.flags).data_policy = kDataPolicyUseExisting := h
  unfold ParseCommandLineFlags ResolveInstanceFiles ApplyDataImagePolicy
  simp only [hr, if_true]
  split_ifs <;> rfl

/-- C13, as stated, fails: under the data policy `always_create` the data image
is removed and made anew by `/bin/rm`, `/bin/dd` and `/sbin/mkfs`, each run in
a subprocess by `cvd::execute`, before `ValidateHostConfiguration` is called and
returns false. -/
theorem image_commands_before_validation :
    (main { defaultEnv with
        flags := { defaultFlags with data_policy := "always_create",
                                     blank_data_image_mb := 64 },
        validate_host_configuration := false }).trace =
      [.execute ["/bin/rm", "-f", "/img/userdata.img"],
       .execute ["/bin/dd", "if=/dev/zero", "of=/img/userdata.img", "bs=1M", "count=64"],
       .execute ["/sbin/mkfs", "-t", "ext4", "/img/userdata.img"],
       .vm .ValidateHostConfiguration false] := by
  decide

/-- C13, amended: in every run of `main` in which `ValidateHostConfiguration`
returns false, that call is the last of the run, no helper is spawned,
`CreateSharedMemoryFile` and `Start` are never called and no client is served,
and `main` returns `kInvalidHostConfiguration`, which is not `kSuccess`; what
comes before the call is what `ParseCommandLineFlags` runs, that is, only
commands of `/bin/rm`, `/bin/dd` and `/sbin/mkfs` on the data image, and
nothing under the data policy `use_existing`. -/
theorem main_invalid_host (env : Env) (pre post : List Event)
    (h : (main env).trace = pre ++ .vm .ValidateHostConfiguration false :: post) :
    post = []
    ∧ (main env).outcome = .returned .kInvalidHostConfiguration
    ∧ LauncherExitCodes.kInvalidHostConfiguration ≠ .kSuccess
    ∧ free Event.isLate (main env).trace = true
    ∧ pre = (ParseCommandLineFlags env).1
    ∧ pre.all Event.isImageCommand = true
    ∧ (env.flags.data_policy = "use_existing" → pre = []) := by
  obtain ⟨hpost, hout⟩ := FailStop_main env pre post _ _ h rfl
  have hP := quiet_ParseCommandLineFlags env
  have hmem : Event.vm .ValidateHostConfiguration false ∈ (main env).trace := by
    rw [h]; simp
  have hpre : pre = (ParseCommandLineFlags env).1 := by
    unfold main at h hmem
    simp only [Run.after] at h hmem
    split_ifs at h hmem
    · simp only [List.append_nil] at hmem
      exact absurd hmem (not_mem_of_quiet hP rfl)
    · split at h
      · simp only [List.append_nil] at h
        rw [h] at hP
        exact absurd hP (by simp [quiet_append, quiet_cons, Event.isLaunchCall])
      · rename_i config hc
        obtain ⟨rest, hr, hfree, -⟩ :=
          validateAndLaunch_validates_once env (ParseCommandLineFlags env).2.2 config
        rw [hr] at h
        have hy : Event.vm .ValidateHostConfiguration false ∉ rest :=
          not_mem_of_free hfree rfl
        have hx : Event.vm .ValidateHostConfiguration false ∉ (ParseCommandLineFlags env).1 :=
          not_mem_of_quiet hP rfl
        exact (split_unique hx hy h).1
  refine ⟨hpost, hout, by decide, ?_, hpre, ?_, fun hu => ?_⟩
  · rw [h, hpost, hpre]
    simp [free_append, free_cons, free_nil, calm_ParseCommandLineFlags, Event.isLate,
      Event.isBringUp]
  · rw [hpre]
    exact imageCommands_ParseCommandLineFlags env
  · rw [hpre]
    exact ParseCommandLineFlags_use_existing env hu

/-- Instance of a failed host validation on the default host, which uses the
existing data image. -/
theorem main_invalid_host_default :
    ([] : List Event) = []
    ∧ (main { defaultEnv with validate_host_configuration := false }).outcome
        = .returned .kInvalidHostConfiguration
    ∧ LauncherExitCodes.kInvalidHostConfiguration ≠ .kSuccess
    ∧ free Event.isLate
        (main { defaultEnv with validate_host_configuration := false }).trace = true
    ∧ [] = (ParseCommandLineFlags
        { defaultEnv with validate_host_configuration := false }).1
    ∧ ([] : List Event).all Event.isImageCommand = true
    ∧ (defaultFlags.data_policy = "use_existing" → ([] : List Event) = []) :=
  main_invalid_host { defaultEnv with validate_host_configuration := false } [] [] (by decide)

/-! ## Which failures end the launch -/

theorem isLate_of_isControl (e : Event) (h : e.isControl = true) : e.isLate = true := by
  cases e <;> first | rfl | exact absurd h (by simp [Event.isControl])

theorem control_free_LaunchKernelLogMonitor (env : Env) (config : CuttlefishConfig)
    (p : SharedFD) : free Event.isControl (LaunchKernelLogMonitor env config p) = true := by
  unfold LaunchKernelLogMonitor SharedFD.release
  simp only
  split_ifs <;> rfl

theorem control_free_LaunchUsbServerIfEnabled (env : Env) (config : CuttlefishConfig) :
    free Event.isControl (LaunchUsbServerIfEnabled env config).trace = true := by
  unfold LaunchUsbServerIfEnabled SharedFD.release
  simp only
  split_ifs <;> rfl

theorem control_free_LaunchIvServer (env : Env) (config : CuttlefishConfig) :
    free Event.isControl (LaunchIvServer env config) = true := by
  unfold LaunchIvServer CreateIvServerUnixSocket SharedFD.release
  simp only
  split_ifs <;> rfl

theorem monitorEnd_nonzero (env : Env) (flags : Flags) (o : Outcome)
    (h : monitorEnd env flags = some o)
    (hp : ¬ (flags.daemon = true ∧ env.daemon_fork_pid ≠ 0)) :
    o ≠ .returned .kSuccess ∧ o ≠ .exited .kSuccess := by
  unfold monitorEnd at h
  split_ifs at h <;> first
    | (simp only [Option.some.injEq] at h; subst h; exact ⟨by decide, by decide⟩)
    | (exfalso; simp_all)

theorem validateEnd_nonzero (env : Env) (flags : Flags) (config : CuttlefishConfig)
    (o : Outcome) (h : validateEnd env flags config = some o)
    (hp : ¬ (flags.daemon = true ∧ env.daemon_fork_pid ≠ 0)) :
    o ≠ .returned .kSuccess ∧ o ≠ .exited .kSuccess := by
  unfold validateEnd at h
  split_ifs at h <;> first
    | (simp only [Option.some.injEq] at h; subst h; exact ⟨by decide, by decide⟩)
    | exact monitorEnd_nonzero env flags o h hp

theorem setupEnd_nonzero (env : Env) (o : Outcome) (h : setupEnd env = some o)
    (hp : ¬ (env.flags.daemon = true ∧ env.daemon_fork_pid ≠ 0)) :
    o ≠ .returned .kSuccess ∧ o ≠ .exited .kSuccess := by
  unfold setupEnd at h
  split_ifs at h
  · simp only [Option.some.injEq] at h; subst h; exact ⟨by decide, by decide⟩
  · split at h
    · simp only [Option.some.injEq] at h; subst h; exact ⟨by decide, by decide⟩
    · refine validateEnd_nonzero env _ _ o h ?_
      rw [ParseCommandLineFlags_daemon]
      exact hp

/-- C17, as stated, fails: on a host where the environment file cannot be
opened, no listening socket of the kernel-log monitor or of the shared-memory
server can be made, and no helper can be spawned, `main` still starts the VM
and goes on to the control loop, where it waits for a client. -/
theorem unchecked_failures_not_fatal :
    Event.Open "/home/user/.cuttlefish.sh" (-1) ∈ (main { defaultEnv with
        env_fd := -1, kernel_log_server_fd := -1, kernel_log_dup := -1,
        qemu_server_fd := -1, qemu_dup := -1, client_server_fd := -1, client_dup := -1,
        subprocess_ok := fun _ => false }).trace
    ∧ Event.SocketLocalServer "/run/cvd/kernel-log" (-1) ∈ (main { defaultEnv with
        env_fd := -1, kernel_log_server_fd := -1, kernel_log_dup := -1,
        qemu_server_fd := -1, qemu_dup := -1, client_server_fd := -1, client_dup := -1,
        subprocess_ok := fun _ => false }).trace
    ∧ Event.subprocess ["/host/bin/ivserver", "-qemu_socket_fd=-1", "-client_socket_fd=-1",
        "-config_file=/run/cvd/cuttlefish_config.json"] false ∈ (main { defaultEnv with
        env_fd := -1, kernel_log_server_fd := -1, kernel_log_dup := -1,
        qemu_server_fd := -1, qemu_dup := -1, client_server_fd := -1, client_dup := -1,
        subprocess_ok := fun _ => false }).trace
    ∧ Event.vm .Start true ∈ (main { defaultEnv with
        env_fd := -1, kernel_log_server_fd := -1, kernel_log_dup := -1,
        qemu_server_fd := -1, qemu_dup := -1, client_server_fd := -1, client_dup := -1,
        subprocess_ok := fun _ => false }).trace
    ∧ (main { defaultEnv with
        env_fd := -1, kernel_log_server_fd := -1, kernel_log_dup := -1,
        qemu_server_fd := -1, qemu_dup := -1, client_server_fd := -1, client_dup := -1,
        subprocess_ok := fun _ => false }).outcome = .blocked := by
  refine ⟨by decide, by decide, by decide, by decide, by decide⟩

/-- C17, amended: the failures that end the launch are those of the checks of
`setupEnd` (argument parsing, the config object, the three checks of the
backend, the boot image, the saving of the config file and its symlink, the
launcher monitor socket, the steps of daemon mode, the process group) and of
`launchEnd` (the usb socket and its duplicate when usb is enabled, the start of
the VM).  When a check of `setupEnd` fails `main` ends as that check says, with
a code other than `kSuccess` unless the process is the monitoring parent of
daemon mode, and the run has no bring-up step and no call of the control loop.  When
these pass and a check of `launchEnd` fails `main` ends with the code of that
check, which is not `kSuccess`, the run stops at the failing step, no VM is
started with success and the control loop is not run.  When all pass the VM is
started and the control loop is run, whatever the answers to the opening of
the environment file, to the sockets of the kernel-log monitor and of the
shared-memory server and their duplicates, and to the spawns: none of these is
read by a check. -/
theorem main_fatal_checks (env : Env) :
    (∀ o, setupEnd env = some o →
      (main env).outcome = o
      ∧ free Event.isLate (main env).trace = true
      ∧ free Event.isControl (main env).trace = true
      ∧ (¬ (env.flags.daemon = true ∧ env.daemon_fork_pid ≠ 0) →
          o ≠ .returned .kSuccess ∧ o ≠ .exited .kSuccess))
    ∧ (setupEnd env = none →
      ∃ config, InitializeCuttlefishConfiguration env (ParseCommandLineFlags env).2.2
          = some config
        ∧ (∀ o, launchEnd env = some o →
            (main env).outcome = o
            ∧ o ≠ .returned .kSuccess ∧ o ≠ .exited .kSuccess
            ∧ (main env).trace = setupTrace env config ++
                (if AdbUsbEnabled env.flags = true
                    ∧ (env.usb_v1_server_fd < 0 ∨ env.usb_v1_dup < 0) then
                  LaunchKernelLogMonitor env config (launchPipe env)
                    ++ (LaunchUsbServerIfEnabled env config).trace
                else beforeStart env config (launchPipe env) ++ [.vm .Start false])
            ∧ .vm .Start true ∉ (main env).trace
            ∧ free Event.isControl (main env).trace = true)
        ∧ (launchEnd env = none →
            main env = Run.after (setupTrace env config
                ++ beforeStart env config (launchPipe env) ++ [.vm .Start true]
                ++ afterStart env) (ServerLoop env.connections)))
    ∧ (∀ (env_fd kernel_log_server_fd kernel_log_dup subscriber_dup qemu_server_fd qemu_dup
          client_server_fd client_dup : Int) (subprocess_ok : List String → Bool),
        setupEnd { env with
            env_fd := env_fd, kernel_log_server_fd := kernel_log_server_fd,
            kernel_log_dup := kernel_log_dup, subscriber_dup := subscriber_dup,
            qemu_server_fd := qemu_server_fd, qemu_dup := qemu_dup,
            client_server_fd := client_server_fd, client_dup := client_dup,
            subprocess_ok := subprocess_ok } = setupEnd env
        ∧ launchEnd { env with
            env_fd := env_fd, kernel_log_server_fd := kernel_log_server_fd,
            kernel_log_dup := kernel_log_dup, subscriber_dup := subscriber_dup,
            qemu_server_fd := qemu_server_fd, qemu_dup := qemu_dup,
            client_server_fd := client_server_fd, client_dup := client_dup,
            subprocess_ok := subprocess_ok } = launchEnd env) := by
  obtain ⟨hS1, hS2⟩ := main_setup env
  refine ⟨fun o ho => ⟨(hS1 o ho).1, (hS1 o ho).2, free_mono isLate_of_isControl (hS1 o ho).2,
    setupEnd_nonzero env o ho⟩, fun hs => ?_, fun _ _ _ _ _ _ _ _ _ => ⟨rfl, rfl⟩⟩
  obtain ⟨config, hc, hm⟩ := hS2 hs
  obtain ⟨hL1, hL2⟩ := launchAndServe_shape env config (launchPipe env)
  have hcalm := calm_setupTrace env config
  have hB := quiet_beforeStart env config (launchPipe env)
  have hcS := free_mono isLate_of_isControl hcalm
  have hcK := control_free_LaunchKernelLogMonitor env config (launchPipe env)
  have hcU := control_free_LaunchUsbServerIfEnabled env config
  have hcI := control_free_LaunchIvServer env config
  refine ⟨config, hc, fun o ho => ?_, fun hn => ?_⟩
  · unfold launchEnd at ho
    by_cases hu : AdbUsbEnabled env.flags = true
        ∧ (env.usb_v1_server_fd < 0 ∨ env.usb_v1_dup < 0)
    · rw [if_pos hu] at ho
      simp only [Option.some.injEq] at ho
      subst ho
      have htr : (main env).trace = setupTrace env config ++
          (LaunchKernelLogMonitor env config (launchPipe env)
            ++ (LaunchUsbServerIfEnabled env config).trace) := by
        rw [hm, hL1 hu]; rfl
      have hsub : ∀ e, e ∈ LaunchKernelLogMonitor env config (launchPipe env)
            ++ (LaunchUsbServerIfEnabled env config).trace →
          e ∈ beforeStart env config (launchPipe env) := by
        intro e he
        unfold beforeStart
        simp only [List.mem_append] at he ⊢
        tauto
      refine ⟨by rw [hm, hL1 hu]; rfl, by decide, by decide, by rw [htr, if_pos hu], ?_, ?_⟩
      · have hnB : Event.vm .Start true ∉ beforeStart env config (launchPipe env) :=
          not_mem_of_quiet hB rfl
        have hnS : Event.vm .Start true ∉ setupTrace env config :=
          not_mem_of_free hcalm rfl
        rw [htr]
        intro hmem
        rcases List.mem_append.mp hmem with h | h
        · exact hnS h
        · exact hnB (hsub _ h)
      · rw [htr]
        simp [free_append, hcS, hcK, hcU]
    · rw [if_neg hu] at ho
      have hst : env.start = false := by
        cases hst : env.start with
        | false => rfl
        | true => simp [hst] at ho
      simp only [hst, Bool.not_false, if_true, Option.some.injEq] at ho
      subst ho
      have htr : (main env).trace = setupTrace env config ++
          (beforeStart env config (launchPipe env) ++ [.vm .Start false]) := by
        rw [hm, hL2 hu, hst]; simp [Run.after]
      refine ⟨by rw [hm, hL2 hu, hst]; rfl, by decide, by decide, by rw [htr, if_neg hu],
        ?_, ?_⟩
      · rw [htr]
        simp only [List.mem_append, not_or, List.mem_singleton]
        exact ⟨not_mem_of_free hcalm rfl, not_mem_of_quiet hB rfl, by simp⟩
      · rw [htr]
        simp [beforeStart, free_append, free_cons, free_nil, hcS, hcK, hcU, hcI,
          Event.isControl]
  · unfold launchEnd at hn
    by_cases hu : AdbUsbEnabled env.flags = true
        ∧ (env.usb_v1_server_fd < 0 ∨ env.usb_v1_dup < 0)
    · rw [if_pos hu] at hn
      exact absurd hn (by simp)
    · rw [if_neg hu] at hn
      have hst : env.start = true := by
        cases hst : env.start with
        | true => rfl
        | false => simp [hst] at hn
      rw [hm, hL2 hu, hst]
      simp [Run.after]

/-- Instance of the fatal checks: on the default host with a VM that fails to
start, `main` returns `kVMCreationError`. -/
theorem main_fatal_checks_start_fails :
    (main { defaultEnv with start := false }).outcome = .returned .kVMCreationError :=
  (((main_fatal_checks { defaultEnv with start := false }).2.1 (by decide)).choose_spec.2.1
    (.returned .kVMCreationError) (by decide)).1

/-! ## Descriptor hygiene of the launches -/

set_option maxHeartbeats 1000000 in
theorem LaunchKernelLogMonitor_descriptors (env : Env) (config : CuttlefishConfig)
    (pipe : SharedFD) (table : Finset Int) (ht : ∀ fd ∈ table, 0 ≤ fd)
    (hf : fresh table (LaunchKernelLogMonitor env config pipe) = true) :
    fdTable table (LaunchKernelLogMonitor env config pipe) = table
      ∧ env.kernel_log_dup ∉ table
      ∧ (if pipe.IsOpen then env.subscriber_dup else -1) ∉ table := by
  have hneg : ∀ x, x < 0 → x ∉ table := fun x hx hmem => by
    have := ht x hmem
    omega
  unfold LaunchKernelLogMonitor SharedFD.release SharedFD.IsOpen at *
  simp only at hf ⊢
  by_cases hs : 0 ≤ env.kernel_log_server_fd <;> by_cases hd : 0 ≤ env.kernel_log_dup <;>
    by_cases hp : 0 ≤ pipe.fd <;> by_cases hsub : 0 ≤ env.subscriber_dup <;>
    simp [hs, hd, hp, hsub, fresh, fdStep, Event.opens] at hf <;>
    (have hS : env.kernel_log_server_fd ∉ table := by
        first | exact hneg _ (by omega) | (clear hneg ht; tauto)
     have hD : env.kernel_log_dup ∉ table := by
        first | exact hneg _ (by omega) | (clear hneg ht; tauto)
     have hSub : (if decide (0 ≤ pipe.fd) = true then env.subscriber_dup else -1) ∉ table := by
        simp only [hp, decide_True, decide_False, if_true, Bool.false_eq_true, if_false]
        first | exact hneg _ (by omega) | (clear hneg ht; tauto)
     refine ⟨?_, hD, hSub⟩
     ext x
     have e1 : x ∈ table → ¬ x = env.kernel_log_server_fd := fun hx h => hS (h ▸ hx)
     have e2 : x ∈ table → ¬ x = env.kernel_log_dup := fun hx h => hD (h ▸ hx)
     have e3 : x ∈ table →
         ¬ x = (if decide (0 ≤ pipe.fd) = true then env.subscriber_dup else -1) :=
       fun hx h => hSub (h ▸ hx)
     simp only [hp, decide_True, decide_False, if_true, Bool.false_eq_true, if_false] at e3
     clear hneg ht hf hS hD hSub
     simp [fdTable, fdStep, Event.opens, hs, hd, hp, hsub] <;> tauto)

theorem fdTable_append (table : Finset Int) (a b : List Event) :
    fdTable table (a ++ b) = fdTable (fdTable table a) b := by
  simp [fdTable, List.foldl_append]

theorem fresh_append (table : Finset Int) (a b : List Event) :
    fresh table (a ++ b) = (fresh table a && fresh (fdTable table a) b) := by
  induction a generalizing table with
  | nil => simp [fresh, fdTable]
  | cons e a ih => simp [fresh, fdTable, ih, Bool.and_assoc]

theorem LaunchUsbServerIfEnabled_descriptors (env : Env) (config : CuttlefishConfig)
    (table : Finset Int)
    (hr : (LaunchUsbServerIfEnabled env config).result = .ret ())
    (hf : fresh table (LaunchUsbServerIfEnabled env config).trace = true) :
    fdTable table (LaunchUsbServerIfEnabled env config).trace = table
      ∧ (AdbUsbEnabled env.flags = true → env.usb_v1_dup ∉ table) := by
  have hres := (LaunchUsbServerIfEnabled_result env config).1
  cases hu : AdbUsbEnabled env.flags with
  | false =>
    unfold LaunchUsbServerIfEnabled
    simp [hu, fdTable]
  | true =>
    have hs : 0 ≤ env.usb_v1_server_fd := by
      by_contra hc
      rw [hres ⟨hu, Or.inl (by omega)⟩] at hr
      exact absurd hr (by simp)
    have hd : 0 ≤ env.usb_v1_dup := by
      by_contra hc
      rw [hres ⟨hu, Or.inr (by omega)⟩] at hr
      exact absurd hr (by simp)
    have hd2 : ¬ env.usb_v1_dup < 0 := by omega
    unfold LaunchUsbServerIfEnabled SharedFD.release SharedFD.IsOpen at hf ⊢
    simp [hu, hs, hd, hd2, fresh, fdStep, Event.opens] at hf
    obtain ⟨hS, hD, hne⟩ := hf
    refine ⟨?_, fun _ => hD⟩
    ext x
    have e1 : x ∈ table → ¬ x = env.usb_v1_server_fd := fun hx h => hS (h ▸ hx)
    have e2 : x ∈ table → ¬ x = env.usb_v1_dup := fun hx h => hD (h ▸ hx)
    clear hS hD
    simp [fdTable, fdStep, Event.opens, hu, hs, hd, hd2] <;> tauto

theorem CreateIvServerUnixSocket_descriptors (path : String) (server_fd dup_ret : Int)
    (table : Finset Int) (ht : ∀ fd ∈ table, 0 ≤ fd)
    (hf : fresh table (CreateIvServerUnixSocket path server_fd dup_ret).1 = true) :
    fdTable table (CreateIvServerUnixSocket path server_fd dup_ret).1 =
        table ∪ (if 0 ≤ dup_ret then {dup_ret} else ∅)
      ∧ dup_ret ∉ table := by
  have hneg : ∀ x, x < 0 → x ∉ table := fun x hx hmem => by
    have := ht x hmem
    omega
  unfold CreateIvServerUnixSocket SharedFD.release SharedFD.IsOpen at *
  simp only at hf ⊢
  by_cases hs : 0 ≤ server_fd <;> by_cases hd : 0 ≤ dup_ret <;>
    simp [hs, hd, fresh, fdStep, Event.opens] at hf <;>
    (have hS : server_fd ∉ table := by
        first | exact hneg _ (by omega) | (clear hneg ht; tauto)
     have hD : dup_ret ∉ table := by
        first | exact hneg _ (by omega) | (clear hneg ht; tauto)
     refine ⟨?_, hD⟩
     ext x
     have e1 : x ∈ table → ¬ x = server_fd := fun hx h => hS (h ▸ hx)
     have e2 : x ∈ table → ¬ x = dup_ret := fun hx h => hD (h ▸ hx)
     have e3 : 0 ≤ server_fd → 0 ≤ dup_ret → x = dup_ret → ¬ x = server_fd := by
        intro h1 h2 h3 h4
        have h5 : dup_ret = server_fd := by rw [← h3, h4]
        omega
     clear hneg ht hS hD
     simp [fdTable, fdStep, Event.opens, hs, hd] <;> tauto)

theorem LaunchIvServer_descriptors (env : Env) (config : CuttlefishConfig)
    (table : Finset Int) (ht : ∀ fd ∈ table, 0 ≤ fd)
    (hf : fresh table (LaunchIvServer env config) = true) :
    fdTable table (LaunchIvServer env config) = table
      ∧ env.qemu_dup ∉ table ∧ env.client_dup ∉ table := by
  unfold LaunchIvServer at hf ⊢
  simp only [fresh_append, fdTable_append, Bool.and_eq_true] at hf ⊢
  obtain ⟨⟨⟨-, hfq⟩, hfc⟩, -⟩ := hf
  have h0 : ∀ (p : String) (r : List (String × Nat)),
      fdTable table [.CreateSharedMemoryFile p r] = table := by
    intro p r
    simp [fdTable, fdStep, Event.opens]
  rw [h0] at hfq hfc ⊢
  obtain ⟨hq, hqd⟩ := CreateIvServerUnixSocket_descriptors _ _ _ table ht hfq
  rw [hq] at hfc ⊢
  have ht1 : ∀ fd ∈ table ∪ (if 0 ≤ env.qemu_dup then {env.qemu_dup} else ∅), 0 ≤ fd := by
    intro fd hfd
    rw [Finset.mem_union] at hfd
    rcases hfd with hfd | hfd
    · exact ht fd hfd
    · split_ifs at hfd with h
      · rw [Finset.mem_singleton] at hfd
        omega
      · exact absurd hfd (Finset.not_mem_empty fd)
  obtain ⟨hc, hcd⟩ := CreateIvServerUnixSocket_descriptors _ _ _ _ ht1 hfc
  rw [hc]
  have hcd2 : env.client_dup ∉ table := fun h => hcd (Finset.mem_union_left _ h)
  refine ⟨?_, hqd, hcd2⟩
  ext x
  have e1 : x ∈ table → ¬ x = env.qemu_dup := fun hx h => hqd (h ▸ hx)
  have e2 : x ∈ table → ¬ x = env.client_dup := fun hx h => hcd2 (h ▸ hx)
  by_cases h1 : 0 ≤ env.qemu_dup <;> by_cases h2 : 0 ≤ env.client_dup <;>
    simp [fdTable, fdStep, Event.opens, h1, h2] <;> tauto

/-- C15: on the descriptor table read off the calls (`fdTable`), started from any
table of non-negative descriptors and with the system never handing out a
descriptor that is open (`fresh`): `LaunchKernelLogMonitor` spawns the monitor
with the duplicate of its listening socket as `-log_server_fd` and the
subscriber descriptor as `-subscriber_fd`, and when it returns neither number
is open and the table is the one before the call; `LaunchUsbServerIfEnabled`,
when it returns, leaves the table as before the call and, when usb is enabled,
has spawned the helper with the duplicate as `-usb_v1_fd`, which is not open;
`LaunchIvServer` spawns the server with the two duplicates as
`-qemu_socket_fd` and `-client_socket_fd`, and when it returns neither is open
and the table is the one before the call. -/
theorem launches_restore_descriptor_table (env : Env) (config : CuttlefishConfig)
    (pipe : SharedFD) (table : Finset Int) (ht : ∀ fd ∈ table, 0 ≤ fd) :
    (fresh table (LaunchKernelLogMonitor env config pipe) = true →
      .subprocess [env.flags.kernel_log_monitor_binary,
          "-log_server_fd=" ++ toString env.kernel_log_dup,
          "-subscriber_fd=" ++ toString (if pipe.IsOpen then env.subscriber_dup else -1),
          GetConfigFileArg env]
          (env.subprocess_ok [env.flags.kernel_log_monitor_binary,
            "-log_server_fd=" ++ toString env.kernel_log_dup,
            "-subscriber_fd=" ++ toString (if pipe.IsOpen then env.subscriber_dup else -1),
            GetConfigFileArg env]) ∈ LaunchKernelLogMonitor env config pipe
      ∧ fdTable table (LaunchKernelLogMonitor env config pipe) = table
      ∧ env.kernel_log_dup ∉ fdTable table (LaunchKernelLogMonitor env config pipe)
      ∧ (if pipe.IsOpen then env.subscriber_dup else -1) ∉
          fdTable table (LaunchKernelLogMonitor env config pipe))
    ∧ ((LaunchUsbServerIfEnabled env config).result = .ret () →
      fresh table (LaunchUsbServerIfEnabled env config).trace = true →
      fdTable table (LaunchUsbServerIfEnabled env config).trace = table
      ∧ (AdbUsbEnabled env.flags = true →
          .subprocess [env.flags.virtual_usb_manager_binary,
            "-usb_v1_fd=" ++ toString env.usb_v1_dup, GetConfigFileArg env]
            (env.subprocess_ok [env.flags.virtual_usb_manager_binary,
              "-usb_v1_fd=" ++ toString env.usb_v1_dup, GetConfigFileArg env])
            ∈ (LaunchUsbServerIfEnabled env config).trace
          ∧ env.usb_v1_dup ∉ fdTable table (LaunchUsbServerIfEnabled env config).trace))
    ∧ (fresh table (LaunchIvServer env config) = true →
      .subprocess [env.flags.ivserver_binary,
          "-qemu_socket_fd=" ++ toString env.qemu_dup,
          "-client_socket_fd=" ++ toString env.client_dup, GetConfigFileArg env]
          (env.subprocess_ok [env.flags.ivserver_binary,
            "-qemu_socket_fd=" ++ toString env.qemu_dup,
            "-client_socket_fd=" ++ toString env.client_dup, GetConfigFileArg env])
          ∈ LaunchIvServer env config
      ∧ fdTable table (LaunchIvServer env config) = table
      ∧ env.qemu_dup ∉ fdTable table (LaunchIvServer env config)
      ∧ env.client_dup ∉ fdTable table (LaunchIvServer env config)) := by
  refine ⟨fun hf => ?_, fun hr hf => ?_, fun hf => ?_⟩
  · obtain ⟨h1, h2, h3⟩ := LaunchKernelLogMonitor_descriptors env config pipe table ht hf
    refine ⟨?_, h1, by rw [h1]; exact h2, by rw [h1]; exact h3⟩
    unfold LaunchKernelLogMonitor
    simp
  · obtain ⟨h1, h2⟩ := LaunchUsbServerIfEnabled_descriptors env config table hr hf
    refine ⟨h1, fun hu => ⟨?_, by rw [h1]; exact h2 hu⟩⟩
    have hn : ¬ (AdbUsbEnabled env.flags = true
        ∧ (env.usb_v1_server_fd < 0 ∨ env.usb_v1_dup < 0)) := by
      intro hc
      rw [(LaunchUsbServerIfEnabled_result env config).1 hc] at hr
      exact absurd hr (by simp)
    have hb := bringUp_LaunchUsbServerIfEnabled env config hn
    rw [hu, if_pos rfl] at hb
    have hmem : Stage.event env 0 .usbHelper
        ∈ bringUp (LaunchUsbServerIfEnabled env config).trace := by
      rw [hb]
      exact List.mem_singleton.mpr rfl
    exact (List.mem_filter.mp hmem).1
  · obtain ⟨h1, h2, h3⟩ := LaunchIvServer_descriptors env config table ht hf
    refine ⟨?_, h1, by rw [h1]; exact h2, by rw [h1]; exact h3⟩
    unfold LaunchIvServer CreateIvServerUnixSocket
    simp

/-- Instance of the descriptor hygiene: the launch of the kernel-log monitor on
the default host, in the foreground, with the standard streams and the launcher
monitor socket open. -/
theorem launches_restore_descriptor_table_default :
    fdTable {0, 1, 2, 3} (LaunchKernelLogMonitor defaultEnv defaultConfig ⟨-1⟩) = {0, 1, 2, 3}
    ∧ (9 : Int) ∉ fdTable {0, 1, 2, 3} (LaunchKernelLogMonitor defaultEnv defaultConfig ⟨-1⟩) :=
  have h := (launches_restore_descriptor_table defaultEnv defaultConfig ⟨-1⟩ {0, 1, 2, 3}
    (by decide)).1 (by decide)
  ⟨h.2.1, h.2.2.1⟩

/-! ## Who answers a stop request -/

theorem ChildSuccess_of_not_mem {trace : List Event} {exited0 : Prop}
    (h : .WriteResponse .kSuccess ∉ trace) (he : ¬ exited0) : ChildSuccess trace exited0 :=
  ⟨fun hm => absurd hm h, fun hx => absurd hx he⟩

theorem ChildSuccess_prefix {l trace : List Event} {exited0 : Prop}
    (hl : .WriteResponse .kSuccess ∉ l) (h : ChildSuccess trace exited0) :
    ChildSuccess (l ++ trace) exited0 := by
  refine ⟨fun hm => ?_, fun hx => List.mem_append_right _ (h.2 hx)⟩
  have hin : Event.WriteResponse .kSuccess ∈ trace :=
    (List.mem_append.mp hm).resolve_left hl
  obtain ⟨hx, pre, b, s, k, htr, hpre⟩ := h.1 hin
  refine ⟨hx, l ++ pre, b, s, k, by rw [htr, List.append_assoc], ?_⟩
  intro hc
  rcases List.mem_append.mp hc with hc | hc
  · exact hl hc
  · exact hpre hc

theorem control_free_StopCvd (sys : StopSys) :
    free Event.isControl (StopCvd sys).trace = true := by
  unfold StopCvd
  simp only
  split_ifs <;> rfl

/-- How `StopCvd` ends, by the answer of `fork()`. -/
theorem StopCvd_result (sys : StopSys) :
    (0 < sys.child_pid →
      (StopCvd sys).result = if sys.waitpid_returns then .ret false else .halt .killed)
    ∧ (sys.child_pid = 0 →
      (StopCvd sys).trace = [.vm .Stop sys.vm_stop, .getpgid, .fork 0,
          .setpgid sys.setpgid_ret, .killpg sys.killpg_ret]
      ∧ (StopCvd sys).result =
          if sys.setpgid_ret ≠ 0 ∧ sys.killpg_ret = 0 then .halt .killed else .ret true)
    ∧ (sys.child_pid < 0 → (StopCvd sys).result = .halt .aborted) := by
  unfold StopCvd
  simp only
  refine ⟨fun h => ?_, fun h => ?_, fun h => ?_⟩
  · rw [if_pos h]
    split_ifs <;> rfl
  · have h1 : ¬ sys.child_pid > 0 := by omega
    rw [if_neg h1, if_pos h, h]
    split_ifs <;> exact ⟨rfl, rfl⟩
  · have h1 : ¬ sys.child_pid > 0 := by omega
    have h2 : ¬ sys.child_pid = 0 := by omega
    rw [if_neg h1, if_neg h2]

theorem StopCvd_ret_true (sys : StopSys) (h : (StopCvd sys).result = .ret true) :
    sys.child_pid = 0 := by
  obtain ⟨h1, -, h3⟩ := StopCvd_result sys
  rcases lt_trichotomy sys.child_pid 0 with hlt | heq | hgt
  · rw [h3 hlt] at h
    exact absurd h (by simp)
  · exact heq
  · rw [h1 hgt] at h
    split_ifs at h <;> exact absurd h (by simp)

theorem StopCvd_ret_false (sys : StopSys) (h : (StopCvd sys).result = .ret false) :
    0 < sys.child_pid := by
  obtain ⟨-, h2, h3⟩ := StopCvd_result sys
  rcases lt_trichotomy sys.child_pid 0 with hlt | heq | hgt
  · rw [h3 hlt] at h
    exact absurd h (by simp)
  · rw [(h2 heq).2] at h
    split_ifs at h <;> exact absurd h (by simp)
  · exact hgt

theorem StopCvd_halt (sys : StopSys) (o : Outcome) (h : (StopCvd sys).result = .halt o) :
    o ≠ .exited .kSuccess := by
  obtain ⟨h1, h2, h3⟩ := StopCvd_result sys
  rcases lt_trichotomy sys.child_pid 0 with hlt | heq | hgt
  · rw [h3 hlt] at h
    cases h
    decide
  · rw [(h2 heq).2] at h
    split_ifs at h <;> (cases h; decide)
  · rw [h1 hgt] at h
    split_ifs at h <;> (cases h; decide)

theorem ChildSuccess_serveClient (reads : List ClientRead) :
    ChildSuccess (serveClient reads).trace
      ((serveClient reads).result = .halt (.exited .kSuccess)) := by
  induction reads with
  | nil => exact ChildSuccess_of_not_mem (by simp [serveClient]) (by simp [serveClient])
  | cons r rest ih =>
    have hfree := control_free_StopCvd r.sys
    have hstop : Event.WriteResponse .kSuccess ∉ (StopCvd r.sys).trace :=
      not_mem_of_free hfree rfl
    unfold serveClient
    split_ifs
    · split
      · simp only []
        split
        · rename_i htrue
          have hpid := StopCvd_ret_true r.sys htrue
          have htr := ((StopCvd_result r.sys).2.1 hpid).1
          refine ⟨fun _ => ⟨rfl, [.ReadAction r.bytes_read r.action], r.sys.vm_stop,
            r.sys.setpgid_ret, r.sys.killpg_ret, by rw [htr]; rfl, by simp⟩, fun _ => by simp⟩
        · have hl : Event.WriteResponse .kSuccess ∉
              Event.ReadAction r.bytes_read r.action :: (StopCvd r.sys).trace
                ++ [.WriteResponse .kError] := by
            simp [hstop]
          have := ChildSuccess_prefix hl ih
          simpa [List.append_assoc] using this
        · rename_i o ho
          refine ChildSuccess_of_not_mem (by simp [hstop]) ?_
          intro hc
          simp only [Step.halt.injEq] at hc
          exact StopCvd_halt r.sys o ho hc
      · have hl : Event.WriteResponse .kSuccess ∉
            [Event.ReadAction r.bytes_read r.action, .WriteResponse .kError] := by
          simp
        exact ChildSuccess_prefix hl ih
    · exact ChildSuccess_of_not_mem (by simp) (by simp)

theorem ChildSuccess_ServerLoop (conns : List Connection) :
    ChildSuccess (ServerLoop conns).trace ((ServerLoop conns).outcome = .exited .kSuccess) := by
  induction conns with
  | nil => exact ChildSuccess_of_not_mem (by simp [ServerLoop]) (by simp [ServerLoop])
  | cons c rest ih =>
    have hc := ChildSuccess_serveClient c.reads
    unfold ServerLoop
    split_ifs
    · simp only
      split
      · rename_i u hret
        have hno : Event.WriteResponse .kSuccess ∉ (serveClient c.reads).trace := by
          intro hm
          have := (hc.1 hm).1
          rw [hret] at this
          exact absurd this (by simp)
        have hl : Event.WriteResponse .kSuccess ∉
            Event.Accept c.fd :: (serveClient c.reads).trace ++ [.close c.fd] := by
          simp [hno]
        exact ChildSuccess_prefix hl ih
      · rename_i o hhalt
        have hl : Event.WriteResponse .kSuccess ∉ [Event.Accept c.fd] := by simp
        have h2 : ChildSuccess (serveClient c.reads).trace (o = .exited .kSuccess) := by
          rw [hhalt] at hc
          simpa using hc
        exact ChildSuccess_prefix hl h2
    · have hl : Event.WriteResponse .kSuccess ∉ [Event.Accept c.fd] := by simp
      exact ChildSuccess_prefix hl ih

/-- C21: whenever `StopCvd` returns, it returns true if `fork()` returned zero (the
forked child) and false if it returned a positive pid (the launcher), whatever
the backend's `Stop`, `setpgid` and `killpg` returned; it does return true in a
child that left the launcher's process group or whose `killpg` failed (a child
that stayed in the group and whose `killpg` succeeded is killed by its own
signal), and false in a launcher whose `waitpid` returns.  Hence a run of
`ServerLoop` in which no `fork()` returned zero, the launcher itself, writes no
`kSuccess` response and does not call `exit(0)`; and in any run of
`ServerLoop` a `kSuccess` response is the last call, written once, right after
the calls of `StopCvd` in the process where `fork()` returned zero, which then
ends by `exit(0)`. -/
theorem StopCvd_true_only_in_child (conns : List Connection) :
    (∀ sys : StopSys,
      ((StopCvd sys).result = .ret true → sys.child_pid = 0)
      ∧ ((StopCvd sys).result = .ret false → 0 < sys.child_pid)
      ∧ (sys.child_pid = 0 → (sys.setpgid_ret = 0 ∨ sys.killpg_ret ≠ 0) →
          (StopCvd sys).result = .ret true)
      ∧ (0 < sys.child_pid → sys.waitpid_returns = true →
          (StopCvd sys).result = .ret false))
    ∧ (∀ (sys : StopSys) (vm_stop : Bool) (setpgid_ret killpg_ret : Int) (b b' : Bool),
        (StopCvd sys).result = .ret b →
        (StopCvd { sys with
            vm_stop := vm_stop, setpgid_ret := setpgid_ret,
            killpg_ret := killpg_ret }).result = .ret b' →
        b' = b)
    ∧ (.fork 0 ∉ (ServerLoop conns).trace →
        .WriteResponse .kSuccess ∉ (ServerLoop conns).trace
        ∧ (ServerLoop conns).outcome ≠ .exited .kSuccess)
    ∧ (.WriteResponse .kSuccess ∈ (ServerLoop conns).trace →
        (ServerLoop conns).outcome = .exited .kSuccess
        ∧ ∃ pre b s k,
          (ServerLoop conns).trace = pre ++ [.vm .Stop b, .getpgid, .fork 0, .setpgid s,
            .killpg k, .WriteResponse .kSuccess]
          ∧ .WriteResponse .kSuccess ∉ pre)
    ∧ ((ServerLoop conns).outcome = .exited .kSuccess →
        .WriteResponse .kSuccess ∈ (ServerLoop conns).trace) := by
  have hC := ChildSuccess_ServerLoop conns
  have hfork : Event.WriteResponse .kSuccess ∈ (ServerLoop conns).trace →
      Event.fork 0 ∈ (ServerLoop conns).trace := by
    intro hm
    obtain ⟨-, pre, b, s, k, htr, -⟩ := hC.1 hm
    rw [htr]
    simp
  refine ⟨fun sys => ⟨StopCvd_ret_true sys, StopCvd_ret_false sys, fun h0 hs => ?_,
      fun hp hw => ?_⟩, fun sys vm_stop setpgid_ret killpg_ret b b' h h' => ?_,
    fun hn => ⟨fun hm => hn (hfork hm), fun ho => hn (hfork (hC.2 ho))⟩, hC.1, hC.2⟩
  · rw [((StopCvd_result sys).2.1 h0).2, if_neg]
    omega
  · rw [(StopCvd_result sys).1 hp, if_pos hw]
  · cases b <;> cases b'
    · rfl
    · have h1 := StopCvd_ret_false sys h
      have h2 := StopCvd_ret_true _ h'
      simp only at h2
      omega
    · have h1 := StopCvd_ret_true sys h
      have h2 := StopCvd_ret_false _ h'
      simp only at h2
      omega
    · rfl

/-- Instance of the answer to a stop request in the forked child: it left the
launcher's process group, killed the group, writes `kSuccess` and exits. -/
theorem StopCvd_true_only_in_child_example :
    (ServerLoop [⟨7, [⟨1, .kStop, ⟨true, 0, false, 0, 0⟩⟩]⟩]).outcome = .exited .kSuccess
    ∧ ∃ pre b s k,
      (ServerLoop [⟨7, [⟨1, .kStop, ⟨true, 0, false, 0, 0⟩⟩]⟩]).trace =
        pre ++ [.vm .Stop b, .getpgid, .fork 0, .setpgid s, .killpg k,
          .WriteResponse .kSuccess]
      ∧ .WriteResponse .kSuccess ∉ pre :=
  (StopCvd_true_only_in_child [⟨7, [⟨1, .kStop, ⟨true, 0, false, 0, 0⟩⟩]⟩]).2.2.2.1
    (by decide)

/-! ## The data image policy on failure -/

/-- C22, the failing input: under the policy `always_create`, with an existing data
image and `blank_data_image_mb` not positive, `ApplyDataImagePolicy` removes the
image and then returns false.  It is the only case in which it returns false
after running a command: in every other case in which it returns false it has
run none; and `CreateBlankImage` is never run when it returns false. -/
theorem ApplyDataImagePolicy_failure_commands (flags : Flags) (data_exists : Bool)
    (data_image : String) :
    (flags.data_policy = "always_create" → data_exists = true →
      flags.blank_data_image_mb ≤ 0 →
      ApplyDataImagePolicy flags data_exists data_image = (RemoveFile data_image, false))
    ∧ ((ApplyDataImagePolicy flags data_exists data_image).2 = false →
      ¬ (flags.data_policy = "always_create" ∧ data_exists = true
          ∧ flags.blank_data_image_mb ≤ 0) →
      (ApplyDataImagePolicy flags data_exists data_image).1 = [])
    ∧ ((ApplyDataImagePolicy flags data_exists data_image).2 = false →
      ∀ argv, .execute argv ∈ (ApplyDataImagePolicy flags data_exists data_image).1 →
        argv = ["/bin/rm", "-f", data_image]) := by
  have d1 : kDataPolicyUseExisting = "use_existing" := rfl
  have d2 : kDataPolicyAlwaysCreate = "always_create" := rfl
  have d3 : kDataPolicyCreateIfMissing = "create_if_missing" := rfl
  have n12 : ("use_existing" : String) ≠ "always_create" := by decide
  have n13 : ("use_existing" : String) ≠ "create_if_missing" := by decide
  have n23 : ("always_create" : String) ≠ "create_if_missing" := by decide
  unfold ApplyDataImagePolicy
  rw [d1, d2, d3]
  by_cases h1 : flags.data_policy = "use_existing"
  · cases data_exists <;> by_cases hmb : flags.blank_data_image_mb > 0 <;>
      simp [h1, hmb, n12, n13]
  · by_cases h2 : flags.data_policy = "always_create"
    · cases data_exists <;> by_cases hmb : flags.blank_data_image_mb ≤ 0 <;>
        simp [h2, hmb, n12.symm, n23, RemoveFile]
    · by_cases h3 : flags.data_policy = "create_if_missing"
      · cases data_exists <;> by_cases hmb : flags.blank_data_image_mb ≤ 0 <;>
          simp [h3, hmb, n13.symm, n23.symm]
      · simp [h1, h2, h3]

/-- The failing input on the default flags with the policy `always_create`: the
image `/img/userdata.img` is removed and the function returns false. -/
theorem ApplyDataImagePolicy_failure_commands_example :
    ApplyDataImagePolicy { defaultFlags with data_policy := "always_create" } true
        "/img/userdata.img" =
      ([.execute ["/bin/rm", "-f", "/img/userdata.img"]], false) :=
  (ApplyDataImagePolicy_failure_commands { defaultFlags with data_policy := "always_create" }
    true "/img/userdata.img").1 rfl rfl (by decide)

/-! ## The frame buffer of the guest compositor -/

theorem toInt32_of_lt (i : Int) (h0 : 0 ≤ i) (h1 : i < 2147483648) : toInt32 i = i := by
  unfold toInt32
  omega

theorem toSizeT_of_lt (size_bits : Nat) (hw : 32 ≤ size_bits) (i : Int) (h0 : 0 ≤ i)
    (h1 : i < 4294967296) : toSizeT size_bits i = i.toNat := by
  unfold toSizeT
  have hpow : (2 : Nat) ^ 32 ≤ 2 ^ size_bits := Nat.pow_le_pow_right (by decide) hw
  have hlt : i < ((2 ^ size_bits : Nat) : Int) := by
    have : ((2 ^ 32 : Nat) : Int) ≤ ((2 ^ size_bits : Nat) : Int) := Int.ofNat_le.mpr hpow
    norm_num at this
    omega
  rw [Int.emod_eq_of_lt h0 hlt]

theorem frame_size_of_lt (size_bits : Nat) (hw : 32 ≤ size_bits) (n : Nat)
    (h : n + 4 < 2147483648) :
    toSizeT size_bits (toInt32 (toInt32 (n : Int) + 4)) = n + 4 := by
  have h0 : (0 : Int) ≤ (n : Int) := by omega
  have h1 : (n : Int) < 2147483648 := by omega
  have h2 : (0 : Int) ≤ (n : Int) + 4 := by omega
  have h3 : (n : Int) + 4 < 2147483648 := by omega
  have h4 : (n : Int) + 4 < 4294967296 := by omega
  have h5 : ((n : Int) + 4).toNat = n + 4 := by omega
  rw [toInt32_of_lt _ h0 h1, toInt32_of_lt _ h2 h3, toSizeT_of_lt size_bits hw _ h2 h4, h5]

/-- Without overflow the line length of the guest is `4 * x_res` rounded up to a
multiple of 16, and the size of a frame is the line length times `y_res` plus
4. -/
theorem FrameBuffer_sizes (size_bits : Nat) (hw : 32 ≤ size_bits) (fb : FrameBuffer)
    (x y : Nat) (hx : fb.x_res_ = x) (hy : fb.y_res_ = y)
    (hL : roundUp (4 * x) 16 < 2147483648)
    (hB : roundUp (4 * x) 16 * y + 4 < 2147483648) :
    fb.line_length = (roundUp (4 * x) 16 : Nat)
    ∧ actual_width (x : Int) = roundUp (4 * x) 16
    ∧ fb.buffer_size size_bits = roundUp (4 * x) 16 * y + 4 := by
  have hX := le_roundUp16 (4 * x)
  have hx4 : ((x : Int) * 4) = ((4 * x : Nat) : Int) := by push_cast; ring
  have hA : actual_width (x : Int) = roundUp (4 * x) 16 := by
    unfold actual_width
    rw [toUint32_toInt32, hx4, toUint32_natCast, AlignToPowerOf2_four,
      Nat.mod_eq_of_lt (by omega : 4 * x < 4294967296),
      Nat.mod_eq_of_lt (by omega : roundUp (4 * x) 16 < 4294967296)]
  have hLL : fb.line_length = (roundUp (4 * x) 16 : Nat) := by
    have : fb.line_length = toInt32 ((actual_width (x : Int) : Nat) : Int) := by
      unfold FrameBuffer.line_length FrameBuffer.x_res FrameBuffer.bytes_per_pixel actual_width
      rw [hx]
    rw [this, hA]
    exact toInt32_of_lt _ (by omega) (by omega)
  refine ⟨hLL, hA, ?_⟩
  unfold FrameBuffer.buffer_size FrameBuffer.y_res
  rw [hLL, hy]
  have hprod : ((roundUp (4 * x) 16 : Nat) : Int) * (y : Int)
      = ((roundUp (4 * x) 16 * y : Nat) : Int) := by push_cast; ring
  rw [hprod]
  exact frame_size_of_lt size_bits hw _ hB

/-- C23: for non-negative resolutions whose frame size fits `int32_t` (the line
length `4 * x_res` rounded up to a multiple of 16, and that length times
`y_res` plus 4, are below 2^31), the `line_length()` of the guest's
`FrameBuffer` equals the line stride `actual_width` of `LaunchIvServer`, and
its `buffer_size()`, which is `line_length * y_res + 4`, is at most the
per-buffer size of the host, `AlignToPageSize(actual_width * y_res + 16)`, with
at least 12 bytes to spare. -/
theorem FrameBuffer_fits_host_buffer (size_bits : Nat) (hw : 32 ≤ size_bits)
    (fb : FrameBuffer) (x y : Nat) (hx : fb.x_res_ = x) (hy : fb.y_res_ = y)
    (hL : roundUp (4 * x) 16 < 2147483648)
    (hB : roundUp (4 * x) 16 * y + 4 < 2147483648) :
    fb.line_length = (actual_width fb.x_res_ : Nat)
    ∧ fb.buffer_size size_bits = (actual_width fb.x_res_) * y + 4
    ∧ fb.buffer_size size_bits ≤ per_buffer_size fb.x_res_ fb.y_res_
    ∧ fb.buffer_size size_bits + 12 ≤ per_buffer_size fb.x_res_ fb.y_res_ := by
  obtain ⟨h1, h2, h3⟩ := FrameBuffer_sizes size_bits hw fb x y hx hy hL hB
  have hR := roundUp_least_multiple (roundUp (4 * x) 16 * y + 16) 4096 (by decide)
  have hP := per_buffer_size_eq x y (by omega)
  rw [hx, hy, h2, hP, h3]
  exact ⟨h1, rfl, by omega, by omega⟩

/-- Instance of the agreement on the frame geometry at 720 x 1280: the line
length is 2880 and the frame of 3686404 bytes fits the host buffer of 3690496
bytes. -/
theorem FrameBuffer_fits_host_buffer_default :
    (FrameBuffer.mk 720 1280 0 0).line_length = (actual_width 720 : Nat)
    ∧ (FrameBuffer.mk 720 1280 0 0).buffer_size 64 = (actual_width 720) * 1280 + 4
    ∧ (FrameBuffer.mk 720 1280 0 0).buffer_size 64 ≤ per_buffer_size 720 1280
    ∧ (FrameBuffer.mk 720 1280 0 0).buffer_size 64 + 12 ≤ per_buffer_size 720 1280 :=
  FrameBuffer_fits_host_buffer 64 (by decide) ⟨720, 1280, 0, 0⟩ 720 1280 rfl rfl
    (by decide) (by decide)

theorem toInt32_succ_tmod (last : Int) (h0 : -1 ≤ last) (h1 : last ≤ 2147483647) :
    (toInt32 (last + 1)).tmod 8 = (last + 1) % 8 := by
  by_cases hmax : last = 2147483647
  · subst hmax
    have e1 : toInt32 (2147483647 + 1) = -2147483648 := by norm_num [toInt32]
    have e2 : (-2147483648 : Int).tmod 8 = 0 := by rfl
    have e3 : ((2147483647 : Int) + 1) % 8 = 0 := by norm_num
    rw [e1, e2, e3]
  · have hlt : last + 1 < 2147483648 := by omega
    rw [toInt32_of_lt _ (by omega) hlt]
    exact Int.tmod_eq_emod (by omega) (by decide)

/-- One call of `NextScreenBuffer` on a frame buffer of 8 frames. -/
theorem NextScreenBuffer_step (size_bits : Nat) (fb : FrameBuffer)
    (hsize : fb.inner_buffer_size = 8 * fb.buffer_size size_bits)
    (hpos : 0 < fb.buffer_size size_bits)
    (h0 : -1 ≤ fb.last_frame_buffer_) (h1 : fb.last_frame_buffer_ ≤ 2147483647) :
    fb.NextScreenBuffer size_bits =
      some ((fb.last_frame_buffer_ + 1) % 8,
        { fb with last_frame_buffer_ := (fb.last_frame_buffer_ + 1) % 8 }) := by
  have hne : ¬ fb.buffer_size size_bits = 0 := by omega
  have hdiv : fb.inner_buffer_size / fb.buffer_size size_bits = 8 := by
    rw [hsize]
    exact Nat.mul_div_cancel 8 hpos
  have h8 : toInt32 ((8 : Nat) : Int) = 8 := by norm_num [toInt32]
  unfold FrameBuffer.NextScreenBuffer
  rw [if_neg hne, hdiv]
  simp only [h8]
  rw [if_pos (by decide), toInt32_succ_tmod _ h0 h1]

theorem buffer_size_update (size_bits : Nat) (fb : FrameBuffer) (v : Int) :
    FrameBuffer.buffer_size size_bits { fb with last_frame_buffer_ := v }
      = fb.buffer_size size_bits := by
  simp only [FrameBuffer.buffer_size, FrameBuffer.line_length, FrameBuffer.x_res,
    FrameBuffer.y_res, FrameBuffer.bytes_per_pixel]

theorem NextScreenBuffers_zero (size_bits : Nat) (fb : FrameBuffer) :
    FrameBuffer.NextScreenBuffers size_bits 0 fb = some ([], fb) := rfl

theorem NextScreenBuffers_succ (size_bits n : Nat) (fb : FrameBuffer) :
    FrameBuffer.NextScreenBuffers size_bits (n + 1) fb =
      (fb.NextScreenBuffer size_bits).bind fun first =>
        (FrameBuffer.NextScreenBuffers size_bits n first.2).map fun rest =>
          (first.1 :: rest.1, rest.2) := rfl

/-- The indices of `n` successive calls of `NextScreenBuffer` on a frame buffer of 8
frames. -/
theorem NextScreenBuffers_eq (size_bits : Nat) (n : Nat) (fb : FrameBuffer)
    (hsize : fb.inner_buffer_size = 8 * fb.buffer_size size_bits)
    (hpos : 0 < fb.buffer_size size_bits)
    (h0 : -1 ≤ fb.last_frame_buffer_) (h1 : fb.last_frame_buffer_ ≤ 2147483647) :
    FrameBuffer.NextScreenBuffers size_bits n fb =
      some ((List.range n).map (fun k : Nat => (fb.last_frame_buffer_ + 1 + k) % 8),
        { fb with last_frame_buffer_ :=
            if n = 0 then fb.last_frame_buffer_ else (fb.last_frame_buffer_ + n) % 8 }) := by
  induction n generalizing fb with
  | zero =>
    rw [NextScreenBuffers_zero]
    simp only [List.range_zero, List.map_nil, if_true]
  | succ n ih =>
    have hstep := NextScreenBuffer_step size_bits fb hsize hpos h0 h1
    have hih := ih { fb with last_frame_buffer_ := (fb.last_frame_buffer_ + 1) % 8 }
      (by rw [buffer_size_update]; exact hsize) (by rw [buffer_size_update]; exact hpos)
      (by simp only; omega) (by simp only; omega)
    rw [NextScreenBuffers_succ, hstep]
    simp only [Option.some_bind, hih, Option.map_some']
    rw [List.range_succ_eq_map]
    simp only [List.map_cons, List.map_map, Nat.cast_zero, add_zero, Option.some.injEq,
      Prod.mk.injEq, List.cons.injEq, true_and]
    refine ⟨?_, ?_⟩
    · apply List.map_congr_left
      intro k _
      simp only [Function.comp, Nat.cast_succ]
      omega
    · by_cases hn : n = 0
      · subst hn
        simp
      · simp only [hn, if_false, Nat.succ_ne_zero, Nat.cast_succ]
        have e : ((fb.last_frame_buffer_ + 1) % 8 + (n : Int)) % 8
            = (fb.last_frame_buffer_ + ((n : Int) + 1)) % 8 := by omega
        rw [e]

theorem GetBuffer_update (size_bits : Nat) (fb : FrameBuffer) (v i : Int) :
    FrameBuffer.GetBuffer size_bits { fb with last_frame_buffer_ := v } i
      = fb.GetBuffer size_bits i := by
  simp only [FrameBuffer.GetBuffer, buffer_size_update]

theorem frame_in_bounds (bs inner k p : Nat) (hsize : inner = 8 * bs) (hfit : inner < p)
    (hk : k ≤ 7) : (bs * k) % p = bs * k ∧ bs * k + bs ≤ inner := by
  have hmul : bs * k ≤ bs * 7 := Nat.mul_le_mul_left _ hk
  exact ⟨Nat.mod_eq_of_lt (by omega), by omega⟩

/-- The frame that `GetBuffer` addresses for an index below 8 lies inside an inner
buffer of 8 frames. -/
theorem GetBuffer_in_bounds (size_bits : Nat) (hw : 32 ≤ size_bits) (fb : FrameBuffer)
    (hsize : fb.inner_buffer_size = 8 * fb.buffer_size size_bits)
    (hfit : fb.inner_buffer_size < 2 ^ size_bits) (i : Int) (hi0 : 0 ≤ i) (hi8 : i < 8) :
    fb.GetBuffer size_bits i = fb.buffer_size size_bits * i.toNat
    ∧ fb.GetBuffer size_bits i + fb.buffer_size size_bits ≤ fb.inner_buffer_size := by
  have hk : i.toNat ≤ 7 := by
    clear hsize hfit
    omega
  have hi32 : i < 4294967296 := by
    clear hsize hfit
    omega
  obtain ⟨e1, e2⟩ := frame_in_bounds (fb.buffer_size size_bits) fb.inner_buffer_size i.toNat
    (2 ^ size_bits) hsize hfit hk
  have hget : fb.GetBuffer size_bits i = fb.buffer_size size_bits * i.toNat := by
    unfold FrameBuffer.GetBuffer
    rw [toSizeT_of_lt size_bits hw i hi0 hi32]
    exact e1
  exact ⟨hget, by rw [hget]; exact e2⟩

/-- C24: for a `FrameBuffer` whose inner buffer holds 8 * `buffer_size()` bytes,
with `buffer_size()` positive and `last_frame_buffer_` an `int` that is at
least -1, a call of `NextScreenBuffer` returns `(last_frame_buffer_ + 1) mod 8`,
a value in [0, 8), and stores it; `n` successive calls return the indices
`(last_frame_buffer_ + 1 + k) mod 8` for `k` = 0, ..., `n - 1`, so they go
round the 8 indices in order; for every index `i` in [0, 8) `GetBuffer`
addresses the byte `buffer_size() * i` and the frame of `buffer_size()` bytes
from there lies inside the inner buffer, and this is the range that
`PostFrameBufferTarget` copies the frame to. -/
theorem NextScreenBuffer_cycles (size_bits : Nat) (hw : 32 ≤ size_bits) (fb : FrameBuffer)
    (hsize : fb.inner_buffer_size = 8 * fb.buffer_size size_bits)
    (hfit : fb.inner_buffer_size < 2 ^ size_bits)
    (hpos : 0 < fb.buffer_size size_bits)
    (h0 : -1 ≤ fb.last_frame_buffer_) (h1 : fb.last_frame_buffer_ ≤ 2147483647) :
    fb.NextScreenBuffer size_bits =
        some ((fb.last_frame_buffer_ + 1) % 8,
          { fb with last_frame_buffer_ := (fb.last_frame_buffer_ + 1) % 8 })
    ∧ 0 ≤ (fb.last_frame_buffer_ + 1) % 8 ∧ (fb.last_frame_buffer_ + 1) % 8 < 8
    ∧ (∀ n : Nat, FrameBuffer.NextScreenBuffers size_bits n fb =
        some ((List.range n).map (fun k : Nat => (fb.last_frame_buffer_ + 1 + k) % 8),
          { fb with last_frame_buffer_ :=
              if n = 0 then fb.last_frame_buffer_ else (fb.last_frame_buffer_ + n) % 8 }))
    ∧ (∀ i : Int, 0 ≤ i → i < 8 →
        fb.GetBuffer size_bits i = fb.buffer_size size_bits * i.toNat
        ∧ fb.GetBuffer size_bits i + fb.buffer_size size_bits ≤ fb.inner_buffer_size)
    ∧ (PostFrameBufferTarget size_bits fb 0 =
        some (0, { fb with last_frame_buffer_ := (fb.last_frame_buffer_ + 1) % 8 },
          some (fb.buffer_size size_bits * ((fb.last_frame_buffer_ + 1) % 8).toNat,
            fb.buffer_size size_bits))
      ∧ fb.buffer_size size_bits * ((fb.last_frame_buffer_ + 1) % 8).toNat
          + fb.buffer_size size_bits ≤ fb.inner_buffer_size) := by
  have hstep := NextScreenBuffer_step size_bits fb hsize hpos h0 h1
  have hlo : 0 ≤ (fb.last_frame_buffer_ + 1) % 8 := Int.emod_nonneg _ (by decide)
  have hhi : (fb.last_frame_buffer_ + 1) % 8 < 8 := Int.emod_lt_of_pos _ (by decide)
  have hget := GetBuffer_in_bounds size_bits hw fb hsize hfit
  obtain ⟨hg1, hg2⟩ := hget _ hlo hhi
  refine ⟨hstep, hlo, hhi,
    fun n => NextScreenBuffers_eq size_bits n fb hsize hpos h0 h1, hget, ?_, ?_⟩
  · unfold PostFrameBufferTarget
    rw [hstep]
    simp only [Option.map_some', ne_eq, not_true_eq_false, if_false, GetBuffer_update,
      buffer_size_update, hg1]
  · rw [← hg1]
    exact hg2

/-- Instance of the cycle at 720 x 1280 on a 64-bit guest, with
`last_frame_buffer_` 7: eight calls return the indices 0 to 7 in order. -/
theorem NextScreenBuffer_cycles_default :
    FrameBuffer.NextScreenBuffers 64 8 (FrameBuffer.construct 64 720 1280 7) =
      some ([0, 1, 2, 3, 4, 5, 6, 7], FrameBuffer.construct 64 720 1280 7) :=
  (NextScreenBuffer_cycles 64 (by decide) (FrameBuffer.construct 64 720 1280 7)
    (by decide) (by decide) (by decide) (by decide) (by decide)).2.2.2.1 8

/-! ## The late helpers in every run -/

end Cuttlefish
